import Mathlib

/-!
Verification development for the `frontmcp-tui` dashboard client
(crates/frontmcp-tui).  The definitions below are a shallow embedding of
`src/state/store.rs` (the State Store and its fold operation),
`src/event/types.rs` (wire event types and the unified decoder),
`src/event/socket_client.rs` (state-snapshot types) and
`src/ui/tabs/graph.rs` (the derived ownership-graph flattening).

Modelling conventions:
* Rust `Vec<T>` becomes `List T`; `HashMap<String, V>` becomes an
  association list `List (String × V)` with replace-on-insert semantics;
  `HashSet<String>` becomes a duplicate-free `List String` built with
  `insertIfAbsent`.  All properties proved below are insensitive to hash
  iteration order (they only use membership, counts and per-key lookup).
* `u64`/`usize` become `Nat` (no claim involves wrap-around), `f32` CPU
  samples become `Int` (only the history length is ever reasoned about).
* `SystemTime::now()` becomes an explicit `now : Nat` argument threaded
  into every operation that stamps log entries or tool-call summaries.
* `serde_json::Value` becomes the inductive `Json` below; the by-key
  accessors mirror serde_json's `get`, `as_str`, `as_u64`, `as_bool`,
  `as_array`.
* Debug file dumps (`dump_trace_event`, `log_parse_error`) perform no
  state mutation in the source and are omitted.
* UI-navigation-only fields of `DashboardState` (active tab, focus,
  scroll positions, quit dialog) are omitted: no operation embedded here
  reads or writes them, and no claim mentions them.
-/

namespace FrontMCP

/-- Minimal JSON value model standing for `serde_json::Value`. -/
inductive Json where
  | null : Json
  | bool (b : Bool) : Json
  | num (n : Int) : Json
  | str (s : String) : Json
  | arr (elems : List Json) : Json
  | obj (fields : List (String × Json)) : Json

/-- Mirrors `Value::get(key)` on objects (first field with the key). -/
def Json.get? (j : Json) (key : String) : Option Json :=
  match j with
  | .obj fields => (fields.find? (fun p => p.1 == key)).map (·.2)
  | _ => none

/-- Mirrors `Value::as_str`. -/
def Json.as_str : Json → Option String
  | .str s => some s
  | _ => none

/-- Mirrors `Value::as_u64` (non-negative integers only). -/
def Json.as_u64 : Json → Option Nat
  | .num n => if 0 ≤ n then some n.toNat else none
  | _ => none

/-- Mirrors `Value::as_bool`. -/
def Json.as_bool : Json → Option Bool
  | .bool b => some b
  | _ => none

/-- Mirrors `Value::as_array`. -/
def Json.as_array : Json → Option (List Json)
  | .arr elems => some elems
  | _ => none

/-- Mirrors `Value::is_object`. -/
def Json.is_object : Json → Bool
  | .obj _ => true
  | _ => false

mutual
/-- Compact JSON serialisation standing for `serde_json::to_string`
(string escaping elided; only the length of the output is ever used,
for byte-traffic accounting). -/
def Json.render : Json → String
  | .null => "null"
  | .bool true => "true"
  | .bool false => "false"
  | .num n => toString n
  | .str s => "\"" ++ s ++ "\""
  | .arr elems => "[" ++ Json.renderArr elems ++ "]"
  | .obj fields => "\x7b" ++ Json.renderObj fields ++ "\x7d"

/-- Comma-separated rendering of array elements. -/
def Json.renderArr : List Json → String
  | [] => ""
  | [x] => Json.render x
  | x :: xs => Json.render x ++ "," ++ Json.renderArr xs

/-- Comma-separated rendering of object fields. -/
def Json.renderObj : List (String × Json) → String
  | [] => ""
  | [(k, v)] => "\"" ++ k ++ "\":" ++ Json.render v
  | (k, v) :: fs => "\"" ++ k ++ "\":" ++ Json.render v ++ "," ++ Json.renderObj fs
end

/-- Convenience chain `data.and_then(|d| d.get(k)).and_then(|v| v.as_str())`. -/
def getStr (data : Option Json) (key : String) : Option String :=
  (data.bind (fun d => d.get? key)).bind Json.as_str

/-- Convenience chain ending in `as_u64`. -/
def getNat (data : Option Json) (key : String) : Option Nat :=
  (data.bind (fun d => d.get? key)).bind Json.as_u64

/-- Convenience chain ending in `as_bool`. -/
def getBool (data : Option Json) (key : String) : Option Bool :=
  (data.bind (fun d => d.get? key)).bind Json.as_bool

-- ─────────────────────────────────────────────────────────────────────────
-- Association-list helpers (HashMap / HashSet counterparts)
-- ─────────────────────────────────────────────────────────────────────────

/-- Lookup in an association map (`HashMap::get`). -/
def lookupA {α : Type} (m : List (String × α)) (k : String) : Option α :=
  (m.find? (fun p => p.1 == k)).map (·.2)

/-- Insert, replacing an existing binding (`HashMap::insert`). -/
def insertA {α : Type} (m : List (String × α)) (k : String) (v : α) :
    List (String × α) :=
  if m.any (fun p => p.1 == k) then
    m.map (fun p => if p.1 == k then (k, v) else p)
  else
    m ++ [(k, v)]

/-- Update the value at a key if present (`HashMap::get_mut` then mutate). -/
def adjustA {α : Type} (m : List (String × α)) (k : String) (f : α → α) :
    List (String × α) :=
  m.map (fun p => if p.1 == k then (p.1, f p.2) else p)

/-- Add to a set if not already present (`HashSet::insert`). -/
def insertIfAbsent (s : List String) (x : String) : List String :=
  if s.any (fun y => y == x) then s else s ++ [x]

/-- Append an element to a registry collection unless an entry with the
same name is already present.  Mirrors the per-entry
`if !coll.iter().any(|t| t.name == entry.name) { coll.push(...) }`
pattern of the trace-event registry branches in `store.rs`. -/
def pushIfAbsent {β : Type} (nameOf : β → String) (coll : List β) (t : β) :
    List β :=
  if coll.any (fun x => nameOf x == nameOf t) then coll else coll ++ [t]

-- ─────────────────────────────────────────────────────────────────────────
-- Display data model (store.rs)
-- ─────────────────────────────────────────────────────────────────────────

/-- Summary of a tool call for overview display. -/
structure ToolCallSummary where
  name : String
  timestamp : Nat
  success : Bool
  duration_ms : Option Nat
deriving Repr, DecidableEq

/-- Overview panel data (always visible). -/
structure OverviewData where
  registered_apps : Nat := 0
  scope_count : Nat := 0
  server_address : Option String := none
  server_port : Option Nat := none
  active_sessions : Nat := 0
  total_sessions : Nat := 0
  last_tool_calls : List ToolCallSummary := []
deriving Repr, DecidableEq

/-- Maximum number of tool calls to keep in overview
(`OverviewData::MAX_TOOL_CALLS`). -/
def MAX_TOOL_CALLS : Nat := 5

/-- Mirrors `OverviewData::add_tool_call`: insert newest-first, truncate
to the capacity (dropping the oldest, which sits at the tail). -/
def OverviewData.add_tool_call (o : OverviewData) (now : Nat) (name : String)
    (success : Bool) (duration_ms : Option Nat) : OverviewData :=
  let calls := { name := name, timestamp := now, success := success,
                 duration_ms := duration_ms : ToolCallSummary } :: o.last_tool_calls
  { o with last_tool_calls :=
      if calls.length > MAX_TOOL_CALLS then calls.take MAX_TOOL_CALLS else calls }

/-- Log severity level. -/
inductive LogLevel where
  | Info
  | Warn
  | Error
  | Debug
deriving Repr, DecidableEq

/-- A log entry for display. -/
structure LogEntry where
  timestamp : Nat
  level : LogLevel
  message : String
  source : String
  session_id : Option String
  request_id : Option String
deriving Repr, DecidableEq

/-- Session info for display. -/
structure SessionInfo where
  id : String
  transport_type : Option String
  client_name : Option String
  client_version : Option String
  user_agent : Option String
  connected_at : Nat
  is_active : Bool
  auth_mode : Option String
  auth_user_name : Option String
  auth_user_email : Option String
  is_anonymous : Option Bool
deriving Repr, DecidableEq

/-- Tool info for display. -/
structure ToolInfo where
  name : String
  description : Option String
  input_schema : Option String
  output_schema : Option String
  owner_kind : Option String
  owner_id : Option String
deriving Repr, DecidableEq

/-- Resource info for display. -/
structure ResourceInfo where
  name : String
  uri : Option String
  owner_kind : Option String
  owner_id : Option String
deriving Repr, DecidableEq

/-- Prompt info for display. -/
structure PromptInfo where
  name : String
  owner_kind : Option String
  owner_id : Option String
deriving Repr, DecidableEq

/-- Plugin info for display. -/
structure PluginInfo where
  name : String
  version : Option String
  owner_id : Option String
deriving Repr, DecidableEq

/-- Adapter info for display. -/
structure AdapterInfo where
  name : String
  description : Option String
  owner_id : Option String
deriving Repr, DecidableEq

/-- App info for DI graph display. -/
structure AppInfo where
  id : String
  name : String
  tool_count : Nat
  resource_count : Nat
  prompt_count : Nat
  plugin_count : Nat
deriving Repr, DecidableEq

/-- Scope info for hierarchical graph display. -/
structure ScopeInfo where
  id : String
  name : String
deriving Repr, DecidableEq

/-- Maximum history samples for sparklines (`METRICS_HISTORY_SIZE`). -/
def METRICS_HISTORY_SIZE : Nat := 60

/-- Metrics data for display.  CPU samples are `f32` in the source and
carried here as `Int`: every property proved about the histories concerns
only their length and eviction order, never the sample values. -/
structure MetricsData where
  total_requests : Nat := 0
  successful_requests : Nat := 0
  failed_requests : Nat := 0
  total_duration_ms : Nat := 0
  tool_usage : List (String × Nat) := []
  inbound_bytes : Nat := 0
  outbound_bytes : Nat := 0
  total_tokens : Nat := 0
  prompt_tokens : Nat := 0
  completion_tokens : Nat := 0
  current_cpu : Int := 0
  current_memory : Nat := 0
  cpu_history : List Int := []
  memory_history : List Nat := []
deriving Repr, DecidableEq

/-- Mirrors `MetricsData::record_request`. -/
def MetricsData.record_request (m : MetricsData) (success : Bool)
    (duration_ms : Option Nat) (tool_name : Option String) : MetricsData :=
  let m := { m with total_requests := m.total_requests + 1 }
  let m := if success then
      { m with successful_requests := m.successful_requests + 1 }
    else
      { m with failed_requests := m.failed_requests + 1 }
  let m := match duration_ms with
    | some d => { m with total_duration_ms := m.total_duration_ms + d }
    | none => m
  match tool_name with
  | some name =>
      { m with tool_usage :=
          if m.tool_usage.any (fun p => p.1 == name) then
            m.tool_usage.map (fun p => if p.1 == name then (p.1, p.2 + 1) else p)
          else
            m.tool_usage ++ [(name, 1)] }
  | none => m

/-- Mirrors `MetricsData::record_traffic` (token counts estimated at four
bytes per token). -/
def MetricsData.record_traffic (m : MetricsData) (inbound outbound : Nat) :
    MetricsData :=
  let inbound_tokens := inbound / 4
  let outbound_tokens := outbound / 4
  { m with
    inbound_bytes := m.inbound_bytes + inbound,
    outbound_bytes := m.outbound_bytes + outbound,
    prompt_tokens := m.prompt_tokens + inbound_tokens,
    completion_tokens := m.completion_tokens + outbound_tokens,
    total_tokens := m.total_tokens + inbound_tokens + outbound_tokens }

/-- Mirrors `MetricsData::update_system_metrics`: push the sample, then
drop the front element (the oldest) if the history exceeds its capacity. -/
def MetricsData.update_system_metrics (m : MetricsData) (cpu : Int)
    (memory : Nat) : MetricsData :=
  let ch := m.cpu_history ++ [cpu]
  let mh := m.memory_history ++ [memory]
  { m with
    current_cpu := cpu,
    current_memory := memory,
    cpu_history := if ch.length > METRICS_HISTORY_SIZE then ch.drop 1 else ch,
    memory_history := if mh.length > METRICS_HISTORY_SIZE then mh.drop 1 else mh }

/-- API request for display. -/
structure ApiRequest where
  id : String
  flow_name : String
  method : Option String
  entry_name : Option String
  started_at : Nat
  duration_ms : Option Nat
  is_error : Bool
  error_message : Option String
  session_id : Option String
deriving Repr, DecidableEq

/-- Server status. -/
structure ServerStatus where
  is_ready : Bool := false
  name : Option String := none
  version : Option String := none
  address : Option String := none
  uptime_ms : Option Nat := none
  error : Option String := none
deriving Repr, DecidableEq

/-- Config status. -/
structure ConfigStatus where
  is_loaded : Bool := false
  config_path : Option String := none
  loaded_keys : List String := []
  missing_keys : List String := []
  errors : List String := []
deriving Repr, DecidableEq

/-- Main dashboard state (State Store).  Collections use lists, the
session map and side tables use association lists; see the module
comment for the correspondence. -/
structure DashboardState where
  events_received : Nat := 0
  parse_failures : Nat := 0
  recent_errors : List String := []
  overview : OverviewData := {}
  sessions : List (String × SessionInfo) := []
  session_logs : List (String × List LogEntry) := []
  tools : List ToolInfo := []
  resources : List ResourceInfo := []
  prompts : List PromptInfo := []
  plugins : List PluginInfo := []
  adapters : List AdapterInfo := []
  logs : List LogEntry := []
  metrics : MetricsData := {}
  requests : List ApiRequest := []
  server : ServerStatus := {}
  config : ConfigStatus := {}
  scopes : List ScopeInfo := []
  apps : List AppInfo := []
  graph_expanded : List String := []
  app_scope_map : List (String × String) := []

/-- Initial store state (`DashboardState::default()`). -/
def initState : DashboardState := {}

-- ─────────────────────────────────────────────────────────────────────────
-- Logging (store.rs: add_log / add_log_with_context / add_error)
-- ─────────────────────────────────────────────────────────────────────────

/-- Mirrors `add_log_with_context`: append the entry to the tagged
session's private ring (capacity 500, oldest removed) when a session id
is present — creating the ring if the session was never initialised —
and always to the global ring (capacity 1000, oldest removed). -/
def add_log_with_context (now : Nat) (s : DashboardState) (level : LogLevel)
    (message : String) (source : String) (session_id : Option String)
    (request_id : Option String) : DashboardState :=
  let entry : LogEntry :=
    { timestamp := now, level := level, message := message, source := source,
      session_id := session_id, request_id := request_id }
  let s :=
    match session_id with
    | some sid =>
        { s with session_logs :=
            if s.session_logs.any (fun p => p.1 == sid) then
              s.session_logs.map (fun (p : String × List LogEntry) =>
                if p.1 == sid then
                  let l := p.2 ++ [entry]
                  (p.1, if l.length > 500 then l.drop 1 else l)
                else p)
            else
              s.session_logs ++ [(sid, [entry])] }
    | none => s
  let l := s.logs ++ [entry]
  { s with logs := if l.length > 1000 then l.drop 1 else l }

/-- Mirrors `add_log` (no session/request context). -/
def add_log (now : Nat) (s : DashboardState) (level : LogLevel)
    (message : String) (source : String) : DashboardState :=
  add_log_with_context now s level message source none none

/-- Mirrors `add_error`: bump the parse-failure counter, keep only the
last five errors, and log the message. -/
def add_error (now : Nat) (s : DashboardState) (error : String) :
    DashboardState :=
  let s := { s with parse_failures := s.parse_failures + 1 }
  let s := { s with recent_errors :=
      (if s.recent_errors.length ≥ 5 then s.recent_errors.drop 1
       else s.recent_errors) ++ [error] }
  add_log now s LogLevel.Error error "system"

-- ─────────────────────────────────────────────────────────────────────────
-- Overview recomputation (store.rs: update_overview_sessions / _registry)
-- ─────────────────────────────────────────────────────────────────────────

/-- Mirrors `update_overview_sessions`. -/
def update_overview_sessions (s : DashboardState) : DashboardState :=
  { s with overview :=
      { s.overview with
        total_sessions := s.sessions.length,
        active_sessions := (s.sessions.filter (fun p => p.2.is_active)).length } }

/-- The distinct `"app"`-kind owner-id set accumulated by
`update_overview_registry`, as a duplicate-free list (HashSet model). -/
def appOwnerIds (tools : List ToolInfo) (resources : List ResourceInfo) :
    List String :=
  let fromTools := tools.foldl (fun (acc : List String) (t : ToolInfo) =>
    if t.owner_kind == some "app" then
      match t.owner_id with
      | some id => insertIfAbsent acc id
      | none => acc
    else acc) []
  resources.foldl (fun (acc : List String) (r : ResourceInfo) =>
    if r.owner_kind == some "app" then
      match r.owner_id with
      | some id => insertIfAbsent acc id
      | none => acc
    else acc) fromTools

/-- Mirrors `update_overview_registry`: recompute the distinct-app count
from the current tools and resources, and the scope count from the scope
list. -/
def update_overview_registry (s : DashboardState) : DashboardState :=
  { s with overview :=
      { s.overview with
        registered_apps := (appOwnerIds s.tools s.resources).length,
        scope_count := s.scopes.length } }

-- ─────────────────────────────────────────────────────────────────────────
-- Wire event types (event/types.rs)
-- ─────────────────────────────────────────────────────────────────────────

/-- Magic prefix for event messages (`DEV_EVENT_MAGIC`). -/
def DEV_EVENT_MAGIC : String := "__FRONTMCP_DEV_EVENT__"

/-- Base fields for all legacy events. -/
structure DevEventBase where
  id : String
  timestamp : Nat
  scope_id : String
  session_id : Option String
  request_id : Option String

/-- Legacy session event types. -/
inductive SessionEventType where
  | Connect
  | Disconnect
  | Idle
  | Active
deriving Repr, DecidableEq

/-- Authenticated user info. -/
structure AuthUser where
  name : Option String
  email : Option String

/-- Client implementation info. -/
structure ClientInfo where
  name : String
  version : String

/-- Legacy session event payload. -/
structure SessionEventData where
  session_id : String
  transport_type : Option String := none
  client_info : Option ClientInfo := none
  platform_type : Option String := none
  reason : Option String := none
  duration_ms : Option Nat := none
  auth_mode : Option String := none
  auth_user : Option AuthUser := none
  is_anonymous : Option Bool := none
  token_expires_at : Option Nat := none

/-- Legacy session event. -/
structure SessionEvent where
  base : DevEventBase
  event_type : SessionEventType
  data : SessionEventData

/-- Legacy request event types. -/
inductive RequestEventType where
  | Start
  | Complete
  | Error
deriving Repr, DecidableEq

/-- Owner reference carried on entries and events. -/
structure EntryOwner where
  kind : String
  id : String
deriving Repr, DecidableEq

/-- Structured request error. -/
structure RequestError where
  name : String
  message : String
  code : Option Int := none

/-- Legacy request event payload. -/
structure RequestEventData where
  flow_name : String
  method : Option String := none
  entry_name : Option String := none
  entry_owner : Option EntryOwner := none
  request_body : Option Json := none
  headers : List (String × String) := []
  response_body : Option Json := none
  duration_ms : Option Nat := none
  is_error : Option Bool := none
  error : Option RequestError := none

/-- Legacy request event. -/
structure RequestEvent where
  base : DevEventBase
  event_type : RequestEventType
  data : RequestEventData

/-- Legacy registry event types. -/
inductive RegistryEventType where
  | ToolAdded | ToolRemoved | ToolUpdated | ToolReset
  | ResourceAdded | ResourceRemoved | ResourceUpdated | ResourceReset
  | PromptAdded | PromptRemoved | PromptUpdated | PromptReset
  | AgentAdded | AgentRemoved | AgentUpdated | AgentReset
  | PluginAdded | PluginRemoved | PluginUpdated | PluginReset
  | AdapterAdded | AdapterRemoved | AdapterUpdated | AdapterReset
deriving Repr, DecidableEq

/-- Entry details for enhanced registry events. -/
structure RegistryEntryInfo where
  name : String
  description : Option String := none
  owner : Option EntryOwner := none
  input_schema : Option Json := none
  uri : Option String := none
  version : Option String := none

/-- Legacy registry event payload. -/
structure RegistryEventData where
  registry_type : String
  entry_names : Option (List String) := none
  change_kind : String
  change_scope : String
  owner : Option EntryOwner := none
  snapshot_count : Nat := 0
  version : Nat := 0
  entries : Option (List RegistryEntryInfo) := none

/-- Legacy registry event. -/
structure RegistryEvent where
  base : DevEventBase
  event_type : RegistryEventType
  data : RegistryEventData

/-- Legacy server event types. -/
inductive ServerEventType where
  | Starting
  | Ready
  | Error
  | Shutdown
deriving Repr, DecidableEq

/-- Server implementation info. -/
structure ServerInfo where
  name : String
  version : String

/-- Legacy server event payload. -/
structure ServerEventData where
  server_info : Option ServerInfo := none
  capabilities : Option Json := none
  address : Option String := none
  uptime_ms : Option Nat := none
  error : Option String := none

/-- Legacy server event. -/
structure ServerEvent where
  base : DevEventBase
  event_type : ServerEventType
  data : ServerEventData

/-- Legacy config event types. -/
inductive ConfigEventType where
  | Loaded
  | Error
  | Missing
deriving Repr, DecidableEq

/-- Structured config error. -/
structure ConfigError where
  path : String
  message : String

/-- Legacy config event payload. -/
structure ConfigEventData where
  config_path : Option String := none
  errors : Option (List ConfigError) := none
  missing_keys : Option (List String) := none
  loaded_keys : Option (List String) := none

/-- Legacy config event. -/
structure ConfigEvent where
  base : DevEventBase
  event_type : ConfigEventType
  data : ConfigEventData

/-- All legacy dev events (`DevEvent`). -/
inductive DevEvent where
  | Session (e : SessionEvent)
  | Request (e : RequestEvent)
  | Registry (e : RegistryEvent)
  | Server (e : ServerEvent)
  | Config (e : ConfigEvent)

/-- Trace context from AsyncLocalStorage. -/
structure TraceContext where
  trace_id : String
  parent_id : Option String

/-- New log transport event format (`DevBusLogEvent`).  The source field
named `prefix` is called `log_prefix` here (`prefix` is reserved). -/
structure DevBusLogEvent where
  id : String
  timestamp : Nat
  category : String
  event_type : String
  log_prefix : String
  scope_id : String
  session_id : String
  request_id : String
  trace_context : Option TraceContext := none
  data : Option Json := none
  message : Option String := none
  args : Option (List Json) := none
  level : Option Int := none
  level_name : Option String := none

/-- Unified event enum handling both legacy and new formats. -/
inductive UnifiedEvent where
  | Legacy (e : DevEvent)
  | LogTransport (e : DevBusLogEvent)
  | Error (msg : String)

/-- Structured error of a command response. -/
structure ResponseError where
  code : String
  message : String

/-- Response message from the manager socket. -/
structure ResponseMessage where
  msg_type : String
  command_id : String
  success : Bool
  data : Option Json := none
  error : Option ResponseError := none

-- ─────────────────────────────────────────────────────────────────────────
-- State-snapshot types (event/socket_client.rs)
-- ─────────────────────────────────────────────────────────────────────────

/-- Owner info for snapshot entries. -/
structure OwnerInfo where
  kind : String
  id : String
deriving Repr, DecidableEq

/-- Tool entry of a state snapshot (socket_client's `ToolInfo`). -/
structure SnapToolInfo where
  name : String
  description : Option String := none
  owner : Option OwnerInfo := none
deriving Repr, DecidableEq

/-- Resource entry of a state snapshot. -/
structure SnapResourceInfo where
  uri : String
  name : String
  description : Option String := none
  owner : Option OwnerInfo := none
deriving Repr, DecidableEq

/-- Prompt entry of a state snapshot. -/
structure SnapPromptInfo where
  name : String
  description : Option String := none
  owner : Option OwnerInfo := none
deriving Repr, DecidableEq

/-- Agent entry of a state snapshot. -/
structure SnapAgentInfo where
  name : String
  description : Option String := none
  owner : Option OwnerInfo := none
deriving Repr, DecidableEq

/-- Plugin entry of a state snapshot (`PluginInfoSnapshot`). -/
structure PluginInfoSnapshot where
  name : String
  version : Option String := none
  owner : Option OwnerInfo := none
deriving Repr, DecidableEq

/-- Adapter entry of a state snapshot (`AdapterInfoSnapshot`). -/
structure AdapterInfoSnapshot where
  name : String
  description : Option String := none
  owner : Option OwnerInfo := none
deriving Repr, DecidableEq

/-- One scope of a state snapshot. -/
structure ScopeState where
  id : String
  tools : List SnapToolInfo := []
  resources : List SnapResourceInfo := []
  prompts : List SnapPromptInfo := []
  agents : List SnapAgentInfo := []
  plugins : List PluginInfoSnapshot := []
  adapters : List AdapterInfoSnapshot := []
deriving Repr, DecidableEq

/-- Client info of a snapshot session. -/
structure ClientInfoState where
  name : String
  version : String
deriving Repr, DecidableEq

/-- Auth-user info of a snapshot session. -/
structure AuthUserState where
  name : Option String := none
  email : Option String := none
deriving Repr, DecidableEq

/-- One session of a state snapshot. -/
structure SessionState where
  scope_id : String
  session_id : String
  transport_type : String
  client_info : Option ClientInfoState := none
  connected_at : Nat
  auth_mode : Option String := none
  auth_user : Option AuthUserState := none
  is_anonymous : Option Bool := none
deriving Repr, DecidableEq

/-- Server info of a state snapshot. -/
structure ServerState where
  name : String
  version : String
  started_at : Nat := 0
deriving Repr, DecidableEq

/-- Full state snapshot from the manager service. -/
structure StateSnapshot where
  scopes : List ScopeState
  sessions : List SessionState
  server : ServerState
deriving Repr, DecidableEq

-- ─────────────────────────────────────────────────────────────────────────
-- Trace-event payload extraction (store.rs helper methods)
-- ─────────────────────────────────────────────────────────────────────────

/-- Parsed tool entry from trace event data. -/
structure ParsedToolEntry where
  name : String
  description : Option String
  input_schema : Option String
deriving Repr, DecidableEq

/-- Parsed plugin entry from trace event data. -/
structure ParsedPluginEntry where
  name : String
  version : Option String
deriving Repr, DecidableEq

/-- Parsed adapter entry from trace event data. -/
structure ParsedAdapterEntry where
  name : String
  description : Option String
deriving Repr, DecidableEq

/-- Mirrors `extract_entry_names`. -/
def extract_entry_names (data : Option Json) : List String :=
  match (data.bind (fun d => d.get? "entryNames")).bind Json.as_array with
  | some elems => elems.filterMap Json.as_str
  | none => []

/-- Mirrors `extract_owner`. -/
def extract_owner (data : Option Json) : Option (String × String) :=
  (data.bind (fun d => d.get? "owner")).bind (fun owner =>
    ((owner.get? "kind").bind Json.as_str).bind (fun kind =>
      ((owner.get? "id").bind Json.as_str).map (fun id => (kind, id))))

/-- Mirrors `extract_tool_entries`: prefer the rich `entries` array, fall
back to bare `entryNames`. -/
def extract_tool_entries (data : Option Json) : List ParsedToolEntry :=
  match (data.bind (fun d => d.get? "entries")).bind Json.as_array with
  | some entries =>
      entries.filterMap (fun entry =>
        ((entry.get? "name").bind Json.as_str).map (fun name =>
          { name := name,
            description := (entry.get? "description").bind Json.as_str,
            input_schema := (entry.get? "inputSchema").bind Json.as_str }))
  | none =>
      (extract_entry_names data).map (fun name =>
        { name := name, description := none, input_schema := none })

/-- Mirrors `extract_plugin_entries`. -/
def extract_plugin_entries (data : Option Json) : List ParsedPluginEntry :=
  match (data.bind (fun d => d.get? "entries")).bind Json.as_array with
  | some entries =>
      entries.filterMap (fun entry =>
        ((entry.get? "name").bind Json.as_str).map (fun name =>
          { name := name,
            version := (entry.get? "version").bind Json.as_str }))
  | none =>
      (extract_entry_names data).map (fun name =>
        { name := name, version := none })

/-- Mirrors `extract_adapter_entries`. -/
def extract_adapter_entries (data : Option Json) : List ParsedAdapterEntry :=
  match (data.bind (fun d => d.get? "entries")).bind Json.as_array with
  | some entries =>
      entries.filterMap (fun entry =>
        ((entry.get? "name").bind Json.as_str).map (fun name =>
          { name := name,
            description := (entry.get? "description").bind Json.as_str }))
  | none =>
      (extract_entry_names data).map (fun name =>
        { name := name, description := none })

-- ─────────────────────────────────────────────────────────────────────────
-- Small utilities used by the handlers
-- ─────────────────────────────────────────────────────────────────────────

/-- Boolean prefix test on character lists. -/
def isPrefixOfB : List Char → List Char → Bool
  | [], _ => true
  | _ :: _, [] => false
  | a :: as, b :: bs => a == b && isPrefixOfB as bs

/-- Boolean infix (substring) test on character lists. -/
def isInfixOfB (needle : List Char) : List Char → Bool
  | [] => isPrefixOfB needle []
  | b :: bs => isPrefixOfB needle (b :: bs) || isInfixOfB needle bs

/-- Rust `str::contains` substring test (used for the `"tool"` flow-name
heuristic). -/
def containsSub (hay needle : String) : Bool :=
  isInfixOfB needle.toList hay.toList

/-- Update the first request whose id matches (`iter_mut().find` followed
by in-place mutation). -/
def updateFirstRequest (rid : String) (f : ApiRequest → ApiRequest) :
    List ApiRequest → List ApiRequest
  | [] => []
  | r :: rs =>
      if r.id == rid then f r :: rs else r :: updateFirstRequest rid f rs

/-- Best-effort port from a server address: the segment after the last
colon, parsed as `u16` (mirrors `addr.rsplit(':').next()` + `parse`). -/
def parsePort (addr : String) : Option Nat :=
  match (addr.splitOn ":").getLast? with
  | some seg =>
      match seg.toNat? with
      | some p => if p < 65536 then some p else none
      | none => none
  | none => none

/-- Render ` [detail]` suffixes used in request log lines. -/
def detailSuffix : Option String → String
  | some d => " [" ++ d ++ "]"
  | none => ""

/-- Render ` (Nms)` suffixes used in request log lines. -/
def durationSuffix : Option Nat → String
  | some d => " (" ++ toString d ++ "ms)"
  | none => ""

-- ─────────────────────────────────────────────────────────────────────────
-- Trace-event fold (store.rs: handle_trace_event)
-- ─────────────────────────────────────────────────────────────────────────

/-- The in-place amendment the `request:complete` trace branch applies to
the stored request (the source's closure over the event payload): the
later entry name wins when present. -/
def completeUpd (ev : DevBusLogEvent) (req : ApiRequest) : ApiRequest :=
  { req with
    duration_ms := getNat ev.data "durationMs",
    entry_name := if (getStr ev.data "entryName").isSome then
        getStr ev.data "entryName"
      else req.entry_name }

/-- The in-place amendment the `request:error` trace branch applies to
the stored request. -/
def errorUpd (ev : DevBusLogEvent) (req : ApiRequest) : ApiRequest :=
  { req with
    duration_ms := getNat ev.data "durationMs",
    is_error := true,
    error_message := some ((((ev.data.bind (fun d => d.get? "error")).bind
      (fun e => e.get? "message")).bind Json.as_str).getD "Unknown error"),
    entry_name := if (getStr ev.data "entryName").isSome then
        getStr ev.data "entryName"
      else req.entry_name }

/-- Mirrors `handle_trace_event`, branch by branch.  The `match` on the
event-type string becomes a first-match `if` chain with the same guard
strings and the same bodies. -/
def handle_trace_event (now : Nat) (s : DashboardState)
    (event : DevBusLogEvent) : DashboardState :=
  let event_type := event.event_type
  let data := event.data
  let session_id : Option String :=
    if event.session_id == "unknown" then none else some event.session_id
  let request_id : Option String :=
    if event.request_id == "unknown" then none else some event.request_id
  if event_type = "session:connect" then
    let transport_type := getStr data "transportType"
    match session_id with
    | some sid =>
        let auth_mode := getStr data "authMode"
        let auth_user_name :=
          ((data.bind (fun d => d.get? "authUser")).bind
            (fun u => u.get? "name")).bind Json.as_str
        let auth_user_email :=
          ((data.bind (fun d => d.get? "authUser")).bind
            (fun u => u.get? "email")).bind Json.as_str
        let is_anonymous := getBool data "isAnonymous"
        let session : SessionInfo :=
          { id := sid, transport_type := transport_type, client_name := none,
            client_version := none, user_agent := none,
            connected_at := event.timestamp, is_active := true,
            auth_mode := auth_mode, auth_user_name := auth_user_name,
            auth_user_email := auth_user_email, is_anonymous := is_anonymous }
        let s := { s with sessions := insertA s.sessions sid session,
                          session_logs := insertA s.session_logs sid [] }
        let s := update_overview_sessions s
        add_log_with_context now s LogLevel.Info
          ("Session connected: " ++ sid) "session" (some sid) none
    | none => s
  else if event_type = "session:disconnect" then
    match session_id with
    | some sid =>
        let s := { s with sessions :=
                    adjustA s.sessions sid (fun session =>
                      { session with is_active := false }) }
        let s := update_overview_sessions s
        add_log_with_context now s LogLevel.Info
          ("Session disconnected: " ++ sid) "session" (some sid) none
    | none => s
  else if event_type = "request:start" then
    let flow_name := (getStr data "flowName").getD "unknown"
    let method := getStr data "method"
    let entry_name := getStr data "entryName"
    let detail := detailSuffix (entry_name.orElse (fun _ => method))
    let request : ApiRequest :=
      { id := request_id.getD "", flow_name := flow_name, method := method,
        entry_name := entry_name, started_at := event.timestamp,
        duration_ms := none, is_error := false, error_message := none,
        session_id := session_id }
    let s := { s with requests := s.requests ++ [request] }
    add_log_with_context now s LogLevel.Info
      ("Request started: " ++ flow_name ++ detail) "api" session_id request_id
  else if event_type = "request:complete" then
    let flow_name := (getStr data "flowName").getD "unknown"
    let duration_ms := getNat data "durationMs"
    let entry_name := getStr data "entryName"
    let upd := completeUpd event
    let updated :=
      match request_id with
      | some rid =>
          match s.requests.find? (fun (r : ApiRequest) => r.id == rid) with
          | some req => (updateFirstRequest rid upd s.requests, (upd req).entry_name)
          | none => (s.requests, entry_name)
      | none => (s.requests, entry_name)
    let s := { s with requests := updated.1 }
    let tool_name := updated.2
    let is_tool_flow := containsSub flow_name "tool"
    let s := { s with metrics := s.metrics.record_request true duration_ms
                        (if is_tool_flow then tool_name else none) }
    let s :=
      match tool_name with
      | some name =>
          if is_tool_flow then
            { s with overview := s.overview.add_tool_call now name true duration_ms }
          else s
      | none => s
    let detail := detailSuffix tool_name
    let duration_str := durationSuffix duration_ms
    add_log_with_context now s LogLevel.Info
      ("Request complete: " ++ flow_name ++ detail ++ duration_str) "api"
      session_id request_id
  else if event_type = "request:error" then
    let flow_name := (getStr data "flowName").getD "unknown"
    let duration_ms := getNat data "durationMs"
    let error_msg :=
      (((data.bind (fun d => d.get? "error")).bind
        (fun e => e.get? "message")).bind Json.as_str).getD "Unknown error"
    let entry_name := getStr data "entryName"
    let upd := errorUpd event
    let updated :=
      match request_id with
      | some rid =>
          match s.requests.find? (fun (r : ApiRequest) => r.id == rid) with
          | some req => (updateFirstRequest rid upd s.requests, (upd req).entry_name)
          | none => (s.requests, entry_name)
      | none => (s.requests, entry_name)
    let s := { s with requests := updated.1 }
    let tool_name := updated.2
    let is_tool_flow := containsSub flow_name "tool"
    let s := { s with metrics := s.metrics.record_request false duration_ms
                        (if is_tool_flow then tool_name else none) }
    let s :=
      match tool_name with
      | some name =>
          if is_tool_flow then
            { s with overview := s.overview.add_tool_call now name false duration_ms }
          else s
      | none => s
    let detail := detailSuffix tool_name
    add_log_with_context now s LogLevel.Error
      ("Request error: " ++ flow_name ++ detail ++ " - " ++ error_msg) "api"
      session_id request_id
  else if event_type = "tool:execute" then
    let entry_name := (getStr data "entryName").getD "unknown"
    add_log_with_context now s LogLevel.Info
      ("Tool executing: " ++ entry_name) "tool" session_id request_id
  else if event_type = "tool:complete" then
    let entry_name := (getStr data "entryName").getD "unknown"
    let duration_ms := getNat data "durationMs"
    let s := { s with metrics := s.metrics.record_request true duration_ms
                        (some entry_name) }
    let s := { s with overview := s.overview.add_tool_call now entry_name true duration_ms }
    let duration_str := durationSuffix duration_ms
    add_log_with_context now s LogLevel.Info
      ("Tool complete: " ++ entry_name ++ duration_str) "tool" session_id request_id
  else if event_type = "server:starting" then
    let s := { s with server := { s.server with is_ready := false } }
    add_log now s LogLevel.Info "Server starting..." "server"
  else if event_type = "server:ready" then
    let s := { s with server := { s.server with is_ready := true } }
    let address := getStr data "address"
    let s := { s with server := { s.server with address := address },
                      overview := { s.overview with server_address := address } }
    let s :=
      match address with
      | some addr =>
          match parsePort addr with
          | some port =>
              { s with overview := { s.overview with server_port := some port } }
          | none => s
      | none => s
    add_log now s LogLevel.Info "Server ready" "server"
  else if event_type = "server:shutdown" then
    let s := { s with server := { s.server with is_ready := false } }
    let uptime_ms := getNat data "uptimeMs"
    let s := { s with server := { s.server with uptime_ms := uptime_ms } }
    add_log now s LogLevel.Info "Server shutdown" "server"
  else if event_type = "config:loaded" then
    let s := { s with config := { s.config with is_loaded := true } }
    add_log now s LogLevel.Info "Config loaded" "config"
  else if event_type = "config:error" then
    add_log now s LogLevel.Error "Config error" "config"
  else if event_type = "registry:tool:added" ∨ event_type = "registry:tool:reset" then
    let entries := extract_tool_entries data
    let owner := extract_owner data
    let s := if event_type = "registry:tool:reset" then { s with tools := [] } else s
    let names := entries.map (·.name)
    let s := { s with tools := entries.foldl (fun ts e =>
        pushIfAbsent (fun (t : ToolInfo) => t.name) ts
          { name := e.name, description := e.description,
            input_schema := e.input_schema, output_schema := none,
            owner_kind := owner.map (·.1), owner_id := owner.map (·.2) }) s.tools }
    let s := if names ≠ [] then
        add_log now s LogLevel.Info
          ("Tools registered: " ++ String.intercalate ", " names) "registry"
      else s
    update_overview_registry s
  else if event_type = "registry:tool:removed" then
    let names := extract_entry_names data
    let s := { s with tools := s.tools.filter (fun t => !(names.contains t.name)) }
    let s := if names ≠ [] then
        add_log now s LogLevel.Info
          ("Tools removed: " ++ String.intercalate ", " names) "registry"
      else s
    update_overview_registry s
  else if event_type = "registry:tool:updated" then
    let names := extract_entry_names data
    if names ≠ [] then
      add_log now s LogLevel.Info
        ("Tools updated: " ++ String.intercalate ", " names) "registry"
    else s
  else if event_type = "registry:resource:added" ∨ event_type = "registry:resource:reset" then
    let names := extract_entry_names data
    let owner := extract_owner data
    let s := if event_type = "registry:resource:reset" then { s with resources := [] } else s
    let s := { s with resources := names.foldl (fun rs name =>
        pushIfAbsent (fun (r : ResourceInfo) => r.name) rs
          { name := name, uri := none,
            owner_kind := owner.map (·.1), owner_id := owner.map (·.2) }) s.resources }
    let s := if names ≠ [] then
        add_log now s LogLevel.Info
          ("Resources registered: " ++ String.intercalate ", " names) "registry"
      else s
    update_overview_registry s
  else if event_type = "registry:resource:removed" then
    let names := extract_entry_names data
    let s := { s with resources := s.resources.filter (fun r => !(names.contains r.name)) }
    let s := if names ≠ [] then
        add_log now s LogLevel.Info
          ("Resources removed: " ++ String.intercalate ", " names) "registry"
      else s
    update_overview_registry s
  else if event_type = "registry:resource:updated" then
    let names := extract_entry_names data
    if names ≠ [] then
      add_log now s LogLevel.Info
        ("Resources updated: " ++ String.intercalate ", " names) "registry"
    else s
  else if event_type = "registry:prompt:added" ∨ event_type = "registry:prompt:reset" then
    let names := extract_entry_names data
    let owner := extract_owner data
    let s := if event_type = "registry:prompt:reset" then { s with prompts := [] } else s
    let s := { s with prompts := names.foldl (fun ps name =>
        pushIfAbsent (fun (p : PromptInfo) => p.name) ps
          { name := name,
            owner_kind := owner.map (·.1), owner_id := owner.map (·.2) }) s.prompts }
    let s := if names ≠ [] then
        add_log now s LogLevel.Info
          ("Prompts registered: " ++ String.intercalate ", " names) "registry"
      else s
    update_overview_registry s
  else if event_type = "registry:prompt:removed" then
    let names := extract_entry_names data
    let s := { s with prompts := s.prompts.filter (fun p => !(names.contains p.name)) }
    let s := if names ≠ [] then
        add_log now s LogLevel.Info
          ("Prompts removed: " ++ String.intercalate ", " names) "registry"
      else s
    update_overview_registry s
  else if event_type = "registry:prompt:updated" then
    let names := extract_entry_names data
    if names ≠ [] then
      add_log now s LogLevel.Info
        ("Prompts updated: " ++ String.intercalate ", " names) "registry"
    else s
  else if event_type = "registry:plugin:added" ∨ event_type = "registry:plugin:reset" then
    let entries := extract_plugin_entries data
    let owner := extract_owner data
    let s := if event_type = "registry:plugin:reset" then { s with plugins := [] } else s
    let s := { s with plugins := entries.foldl (fun ps e =>
        pushIfAbsent (fun (p : PluginInfo) => p.name) ps
          { name := e.name, version := e.version,
            owner_id := owner.map (·.2) }) s.plugins }
    let names := entries.map (·.name)
    let s := if names ≠ [] then
        add_log now s LogLevel.Info
          ("Plugins registered: " ++ String.intercalate ", " names) "registry"
      else s
    update_overview_registry s
  else if event_type = "registry:plugin:removed" then
    let names := extract_entry_names data
    let s := { s with plugins := s.plugins.filter (fun p => !(names.contains p.name)) }
    let s := if names ≠ [] then
        add_log now s LogLevel.Info
          ("Plugins removed: " ++ String.intercalate ", " names) "registry"
      else s
    update_overview_registry s
  else if event_type = "registry:adapter:added" ∨ event_type = "registry:adapter:reset" then
    let entries := extract_adapter_entries data
    let owner := extract_owner data
    let s := if event_type = "registry:adapter:reset" then { s with adapters := [] } else s
    let s := { s with adapters := entries.foldl (fun ads e =>
        pushIfAbsent (fun (a : AdapterInfo) => a.name) ads
          { name := e.name, description := e.description,
            owner_id := owner.map (·.2) }) s.adapters }
    let names := entries.map (·.name)
    let s := if names ≠ [] then
        add_log now s LogLevel.Info
          ("Adapters registered: " ++ String.intercalate ", " names) "registry"
      else s
    update_overview_registry s
  else if event_type = "registry:adapter:removed" then
    let names := extract_entry_names data
    let s := { s with adapters := s.adapters.filter (fun a => !(names.contains a.name)) }
    let s := if names ≠ [] then
        add_log now s LogLevel.Info
          ("Adapters removed: " ++ String.intercalate ", " names) "registry"
      else s
    update_overview_registry s
  else
    add_log_with_context now s LogLevel.Debug
      ("Trace event: " ++ event_type) "trace" session_id request_id

-- ─────────────────────────────────────────────────────────────────────────
-- Plain log events of the new transport (store.rs: handle_log_event)
-- ─────────────────────────────────────────────────────────────────────────

/-- Mirrors `handle_log_event`. -/
def handle_log_event (now : Nat) (s : DashboardState) (event : DevBusLogEvent) :
    DashboardState :=
  let level :=
    match event.level_name with
    | some "error" => LogLevel.Error
    | some "warn" => LogLevel.Warn
    | some "debug" => LogLevel.Debug
    | some "verbose" => LogLevel.Debug
    | _ => LogLevel.Info
  let message := event.message.getD ""
  let source := if event.log_prefix == "" then "sdk" else event.log_prefix
  let session_id :=
    if event.session_id == "unknown" then none else some event.session_id
  let request_id :=
    if event.request_id == "unknown" then none else some event.request_id
  add_log_with_context now s level message source session_id request_id

-- ─────────────────────────────────────────────────────────────────────────
-- Legacy handlers (store.rs: handle_session/request/registry/server/config)
-- ─────────────────────────────────────────────────────────────────────────

/-- Mirrors `handle_session_event`. -/
def handle_session_event (now : Nat) (s : DashboardState) (event : SessionEvent) :
    DashboardState :=
  let session_id := event.data.session_id
  match event.event_type with
  | SessionEventType.Connect =>
      let session : SessionInfo :=
        { id := session_id,
          transport_type := event.data.transport_type,
          client_name := event.data.client_info.map (·.name),
          client_version := event.data.client_info.map (·.version),
          user_agent := none,
          connected_at := event.base.timestamp,
          is_active := true,
          auth_mode := event.data.auth_mode,
          auth_user_name := event.data.auth_user.bind (·.name),
          auth_user_email := event.data.auth_user.bind (·.email),
          is_anonymous := event.data.is_anonymous }
      let s := { s with sessions := insertA s.sessions session_id session,
                        session_logs := insertA s.session_logs session_id [] }
      let s := update_overview_sessions s
      add_log_with_context now s LogLevel.Info
        ("Session connected: " ++ session_id) "session" (some session_id) none
  | SessionEventType.Disconnect =>
      let s := { s with sessions :=
                  adjustA s.sessions session_id (fun session =>
                    { session with is_active := false }) }
      let s := update_overview_sessions s
      add_log_with_context now s LogLevel.Info
        ("Session disconnected: " ++ session_id) "session" (some session_id) none
  | SessionEventType.Idle =>
      add_log_with_context now s LogLevel.Debug
        ("Session idle: " ++ session_id) "session" (some session_id) none
  | SessionEventType.Active =>
      add_log_with_context now s LogLevel.Debug
        ("Session active: " ++ session_id) "session" (some session_id) none

/-- The in-place amendment the legacy `Complete` branch applies to the
stored request. -/
def legacyCompleteUpd (event : RequestEvent) (req : ApiRequest) : ApiRequest :=
  { req with
    duration_ms := event.data.duration_ms,
    is_error := event.data.is_error.getD false,
    entry_name := if event.data.entry_name.isSome then event.data.entry_name
      else req.entry_name }

/-- The in-place amendment the legacy `Error` branch applies to the
stored request. -/
def legacyErrorUpd (event : RequestEvent) (req : ApiRequest) : ApiRequest :=
  { req with
    duration_ms := event.data.duration_ms,
    is_error := true,
    error_message := event.data.error.map (·.message),
    entry_name := if event.data.entry_name.isSome then event.data.entry_name
      else req.entry_name }

/-- Mirrors `handle_request_event`. -/
def handle_request_event (now : Nat) (s : DashboardState) (event : RequestEvent) :
    DashboardState :=
  let flow_name := event.data.flow_name
  let method := event.data.method
  let entry_name := event.data.entry_name
  let duration_ms := event.data.duration_ms
  let is_error := event.data.is_error
  let error := event.data.error
  let request_body := event.data.request_body
  let response_body := event.data.response_body
  let session_id := event.base.session_id
  let request_id := event.base.request_id
  match event.event_type with
  | RequestEventType.Start =>
      let detail := detailSuffix (entry_name.orElse (fun _ => method))
      let request : ApiRequest :=
        { id := request_id.getD "", flow_name := flow_name, method := method,
          entry_name := entry_name, started_at := event.base.timestamp,
          duration_ms := none, is_error := false, error_message := none,
          session_id := session_id }
      let s := { s with requests := s.requests ++ [request] }
      add_log_with_context now s LogLevel.Info
        ("Request started: " ++ flow_name ++ detail) "api" session_id request_id
  | RequestEventType.Complete =>
      let upd := legacyCompleteUpd event
      let updated :=
        match request_id with
        | some rid =>
            match s.requests.find? (fun (r : ApiRequest) => r.id == rid) with
            | some req => (updateFirstRequest rid upd s.requests, (upd req).entry_name)
            | none => (s.requests, entry_name)
        | none => (s.requests, entry_name)
      let s := { s with requests := updated.1 }
      let tool_name := updated.2
      let success := !(is_error.getD false)
      let is_tool_flow := containsSub flow_name "tool"
      let s := { s with metrics := s.metrics.record_request success duration_ms
                          (if is_tool_flow then tool_name else none) }
      let inbound := (request_body.map (fun b => (Json.render b).length)).getD 0
      let outbound := (response_body.map (fun b => (Json.render b).length)).getD 0
      let s := { s with metrics := s.metrics.record_traffic inbound outbound }
      let s :=
        match tool_name with
        | some name =>
            if is_tool_flow then
              { s with overview := s.overview.add_tool_call now name success duration_ms }
            else s
        | none => s
      let detail := detailSuffix tool_name
      let duration_str := durationSuffix duration_ms
      add_log_with_context now s LogLevel.Info
        ("Request complete: " ++ flow_name ++ detail ++ duration_str) "api"
        session_id request_id
  | RequestEventType.Error =>
      let upd := legacyErrorUpd event
      let updated :=
        match request_id with
        | some rid =>
            match s.requests.find? (fun (r : ApiRequest) => r.id == rid) with
            | some req => (updateFirstRequest rid upd s.requests, (upd req).entry_name)
            | none => (s.requests, entry_name)
        | none => (s.requests, entry_name)
      let s := { s with requests := updated.1 }
      let tool_name := updated.2
      let is_tool_flow := containsSub flow_name "tool"
      let s := { s with metrics := s.metrics.record_request false duration_ms
                          (if is_tool_flow then tool_name else none) }
      let s :=
        match tool_name with
        | some name =>
            if is_tool_flow then
              { s with overview := s.overview.add_tool_call now name false duration_ms }
            else s
        | none => s
      let detail := detailSuffix tool_name
      let error_msg := (error.map (·.message)).getD "Unknown error"
      add_log_with_context now s LogLevel.Error
        ("Request error: " ++ flow_name ++ detail ++ " - " ++ error_msg) "api"
        session_id request_id

/-- Mirrors `handle_registry_event` (legacy path).  Note that the `Added`
branches append unconditionally — there is no duplicate check here,
unlike the trace-format registry branches — and the `Reset` branches
with no rich `entries` payload clear the collection without re-adding
the bare `entry_names`. -/
def handle_registry_event (now : Nat) (s : DashboardState) (event : RegistryEvent) :
    DashboardState :=
  let names := event.data.entry_names.getD []
  let owner := event.data.owner
  let change_kind := event.data.change_kind
  let s :=
    match event.event_type with
    | RegistryEventType.ToolAdded =>
        let s := { s with tools := s.tools ++ names.map (fun name =>
                    { name := name, description := none, input_schema := none,
                      output_schema := none,
                      owner_kind := owner.map (·.kind),
                      owner_id := owner.map (·.id) : ToolInfo }) }
        add_log now s LogLevel.Info
          ("Tools added: " ++ String.intercalate ", " names) "registry"
    | RegistryEventType.ToolRemoved =>
        let s := { s with tools := s.tools.filter (fun t => !(names.contains t.name)) }
        add_log now s LogLevel.Info
          ("Tools removed: " ++ String.intercalate ", " names) "registry"
    | RegistryEventType.ToolReset =>
        let s :=
          match event.data.entries with
          | some entries =>
              { s with tools := entries.map (fun entry =>
                  { name := entry.name, description := entry.description,
                    input_schema := entry.input_schema.map Json.render,
                    output_schema := none,
                    owner_kind := entry.owner.map (·.kind),
                    owner_id := entry.owner.map (·.id) : ToolInfo }) }
          | none => { s with tools := [] }
        add_log now s LogLevel.Info "Tools reset" "registry"
    | RegistryEventType.ToolUpdated =>
        add_log now s LogLevel.Info
          ("Tools updated: " ++ String.intercalate ", " names) "registry"
    | RegistryEventType.ResourceAdded =>
        let s := { s with resources := s.resources ++ names.map (fun name =>
                    { name := name, uri := none,
                      owner_kind := owner.map (·.kind),
                      owner_id := owner.map (·.id) : ResourceInfo }) }
        add_log now s LogLevel.Info
          ("Resources added: " ++ String.intercalate ", " names) "registry"
    | RegistryEventType.ResourceRemoved =>
        let s := { s with resources := s.resources.filter (fun r => !(names.contains r.name)) }
        add_log now s LogLevel.Info
          ("Resources removed: " ++ String.intercalate ", " names) "registry"
    | RegistryEventType.ResourceReset =>
        let s :=
          match event.data.entries with
          | some entries =>
              { s with resources := entries.map (fun entry =>
                  { name := entry.name, uri := entry.uri,
                    owner_kind := entry.owner.map (·.kind),
                    owner_id := entry.owner.map (·.id) : ResourceInfo }) }
          | none => { s with resources := [] }
        add_log now s LogLevel.Info "Resources reset" "registry"
    | RegistryEventType.ResourceUpdated =>
        add_log now s LogLevel.Info
          ("Resources updated: " ++ String.intercalate ", " names) "registry"
    | RegistryEventType.PromptAdded =>
        let s := { s with prompts := s.prompts ++ names.map (fun name =>
                    { name := name,
                      owner_kind := owner.map (·.kind),
                      owner_id := owner.map (·.id) : PromptInfo }) }
        add_log now s LogLevel.Info
          ("Prompts added: " ++ String.intercalate ", " names) "registry"
    | RegistryEventType.PromptRemoved =>
        let s := { s with prompts := s.prompts.filter (fun p => !(names.contains p.name)) }
        add_log now s LogLevel.Info
          ("Prompts removed: " ++ String.intercalate ", " names) "registry"
    | RegistryEventType.PromptReset =>
        let s :=
          match event.data.entries with
          | some entries =>
              { s with prompts := entries.map (fun entry =>
                  { name := entry.name,
                    owner_kind := entry.owner.map (·.kind),
                    owner_id := entry.owner.map (·.id) : PromptInfo }) }
          | none => { s with prompts := [] }
        add_log now s LogLevel.Info "Prompts reset" "registry"
    | RegistryEventType.PromptUpdated =>
        add_log now s LogLevel.Info
          ("Prompts updated: " ++ String.intercalate ", " names) "registry"
    | RegistryEventType.AgentAdded =>
        add_log now s LogLevel.Info
          ("Agent " ++ change_kind ++ ": " ++ String.intercalate ", " names) "registry"
    | RegistryEventType.AgentRemoved =>
        add_log now s LogLevel.Info
          ("Agent " ++ change_kind ++ ": " ++ String.intercalate ", " names) "registry"
    | RegistryEventType.AgentReset =>
        add_log now s LogLevel.Info
          ("Agent " ++ change_kind ++ ": " ++ String.intercalate ", " names) "registry"
    | RegistryEventType.AgentUpdated =>
        add_log now s LogLevel.Info
          ("Agent " ++ change_kind ++ ": " ++ String.intercalate ", " names) "registry"
    | RegistryEventType.PluginAdded =>
        let s := { s with plugins := s.plugins ++ names.map (fun name =>
                    { name := name, version := none,
                      owner_id := owner.map (·.id) : PluginInfo }) }
        add_log now s LogLevel.Info
          ("Plugins added: " ++ String.intercalate ", " names) "registry"
    | RegistryEventType.PluginRemoved =>
        let s := { s with plugins := s.plugins.filter (fun p => !(names.contains p.name)) }
        add_log now s LogLevel.Info
          ("Plugins removed: " ++ String.intercalate ", " names) "registry"
    | RegistryEventType.PluginReset =>
        let s :=
          match event.data.entries with
          | some entries =>
              { s with plugins := entries.map (fun entry =>
                  { name := entry.name, version := entry.version,
                    owner_id := entry.owner.map (·.id) : PluginInfo }) }
          | none => { s with plugins := [] }
        add_log now s LogLevel.Info "Plugins reset" "registry"
    | RegistryEventType.PluginUpdated =>
        add_log now s LogLevel.Info
          ("Plugins updated: " ++ String.intercalate ", " names) "registry"
    | RegistryEventType.AdapterAdded =>
        let s := { s with adapters := s.adapters ++ names.map (fun name =>
                    { name := name, description := none,
                      owner_id := owner.map (·.id) : AdapterInfo }) }
        add_log now s LogLevel.Info
          ("Adapters added: " ++ String.intercalate ", " names) "registry"
    | RegistryEventType.AdapterRemoved =>
        let s := { s with adapters := s.adapters.filter (fun a => !(names.contains a.name)) }
        add_log now s LogLevel.Info
          ("Adapters removed: " ++ String.intercalate ", " names) "registry"
    | RegistryEventType.AdapterReset =>
        let s :=
          match event.data.entries with
          | some entries =>
              { s with adapters := entries.map (fun entry =>
                  { name := entry.name, description := entry.description,
                    owner_id := entry.owner.map (·.id) : AdapterInfo }) }
          | none => { s with adapters := [] }
        add_log now s LogLevel.Info "Adapters reset" "registry"
    | RegistryEventType.AdapterUpdated =>
        add_log now s LogLevel.Info
          ("Adapters updated: " ++ String.intercalate ", " names) "registry"
  update_overview_registry s

/-- Mirrors `handle_server_event`. -/
def handle_server_event (now : Nat) (s : DashboardState) (event : ServerEvent) :
    DashboardState :=
  let server_info := event.data.server_info
  let address := event.data.address
  let uptime_ms := event.data.uptime_ms
  let error := event.data.error
  match event.event_type with
  | ServerEventType.Starting =>
      let s := { s with server := { s.server with is_ready := false } }
      add_log now s LogLevel.Info "Server starting..." "server"
  | ServerEventType.Ready =>
      let s := { s with server :=
                  { s.server with
                    is_ready := true,
                    name := server_info.map (fun (i : ServerInfo) => i.name),
                    version := server_info.map (fun (i : ServerInfo) => i.version),
                    address := address } }
      let s := { s with overview := { s.overview with server_address := address } }
      let s :=
        match address with
        | some addr =>
            match parsePort addr with
            | some port =>
                { s with overview := { s.overview with server_port := some port } }
            | none => s
        | none => s
      add_log now s LogLevel.Info "Server ready" "server"
  | ServerEventType.Error =>
      let s := { s with server := { s.server with error := error } }
      add_log now s LogLevel.Error
        ("Server error: " ++ error.getD "Unknown") "server"
  | ServerEventType.Shutdown =>
      let s := { s with server := { s.server with is_ready := false,
                                                  uptime_ms := uptime_ms } }
      add_log now s LogLevel.Info "Server shutdown" "server"

/-- Mirrors `handle_config_event`. -/
def handle_config_event (now : Nat) (s : DashboardState) (event : ConfigEvent) :
    DashboardState :=
  match event.event_type with
  | ConfigEventType.Loaded =>
      let s := { s with config :=
                  { s.config with
                    is_loaded := true,
                    config_path := event.data.config_path,
                    loaded_keys := event.data.loaded_keys.getD [] } }
      add_log now s LogLevel.Info "Config loaded" "config"
  | ConfigEventType.Error =>
      let s := { s with config :=
                  { s.config with
                    errors := (event.data.errors.map
                      (fun es => es.map (·.message))).getD [] } }
      add_log now s LogLevel.Error "Config error" "config"
  | ConfigEventType.Missing =>
      let s := { s with config :=
                  { s.config with missing_keys := event.data.missing_keys.getD [] } }
      add_log now s LogLevel.Warn "Config missing keys" "config"

-- ─────────────────────────────────────────────────────────────────────────
-- Top-level fold dispatch (store.rs)
-- ─────────────────────────────────────────────────────────────────────────

/-- Mirrors `handle_event` (legacy format): bump the event counter and
dispatch. -/
def handle_event (now : Nat) (s : DashboardState) (event : DevEvent) :
    DashboardState :=
  let s := { s with events_received := s.events_received + 1 }
  match event with
  | DevEvent.Session e => handle_session_event now s e
  | DevEvent.Request e => handle_request_event now s e
  | DevEvent.Registry e => handle_registry_event now s e
  | DevEvent.Server e => handle_server_event now s e
  | DevEvent.Config e => handle_config_event now s e

/-- Mirrors `handle_log_transport_event`: bump the event counter, then
route trace events to the state fold and log events to the Logs tab.
The debug file dump is omitted (no state mutation). -/
def handle_log_transport_event (now : Nat) (s : DashboardState)
    (event : DevBusLogEvent) : DashboardState :=
  let s := { s with events_received := s.events_received + 1 }
  if event.category == "trace" then
    handle_trace_event now s event
  else if event.category == "log" then
    handle_log_event now s event
  else s

/-- Mirrors `handle_unified_event`. -/
def handle_unified_event (now : Nat) (s : DashboardState) (event : UnifiedEvent) :
    DashboardState :=
  match event with
  | UnifiedEvent.Legacy e => handle_event now s e
  | UnifiedEvent.LogTransport e => handle_log_transport_event now s e
  | UnifiedEvent.Error msg => add_error now s msg

-- ─────────────────────────────────────────────────────────────────────────
-- State snapshot fold (store.rs: handle_state_snapshot)
-- ─────────────────────────────────────────────────────────────────────────

/-- Body of the snapshot handler's per-tool loop: track the app-to-scope
side table when the owner is an `app` distinct from the scope, then push
the display entry. -/
def snapToolStep (scope : ScopeState) (a : DashboardState) (tool : SnapToolInfo) :
    DashboardState :=
  match tool.owner with
  | some owner =>
      let a := if owner.kind == "app" && !(owner.id == scope.id) then
          { a with app_scope_map := insertA a.app_scope_map owner.id scope.id }
        else a
      { a with tools := a.tools ++
          [{ name := tool.name, description := tool.description,
             input_schema := none, output_schema := none,
             owner_kind := some owner.kind, owner_id := some owner.id }] }
  | none =>
      { a with tools := a.tools ++
          [{ name := tool.name, description := tool.description,
             input_schema := none, output_schema := none,
             owner_kind := some "scope", owner_id := some scope.id }] }

/-- Body of the snapshot handler's per-resource loop. -/
def snapResourceStep (scope : ScopeState) (a : DashboardState)
    (resource : SnapResourceInfo) : DashboardState :=
  match resource.owner with
  | some owner =>
      let a := if owner.kind == "app" && !(owner.id == scope.id) then
          { a with app_scope_map := insertA a.app_scope_map owner.id scope.id }
        else a
      { a with resources := a.resources ++
          [{ name := resource.name, uri := some resource.uri,
             owner_kind := some owner.kind, owner_id := some owner.id }] }
  | none =>
      { a with resources := a.resources ++
          [{ name := resource.name, uri := some resource.uri,
             owner_kind := some "scope", owner_id := some scope.id }] }

/-- Body of the snapshot handler's per-prompt loop. -/
def snapPromptStep (scope : ScopeState) (a : DashboardState)
    (prompt : SnapPromptInfo) : DashboardState :=
  match prompt.owner with
  | some owner =>
      let a := if owner.kind == "app" && !(owner.id == scope.id) then
          { a with app_scope_map := insertA a.app_scope_map owner.id scope.id }
        else a
      { a with prompts := a.prompts ++
          [{ name := prompt.name,
             owner_kind := some owner.kind, owner_id := some owner.id }] }
  | none =>
      { a with prompts := a.prompts ++
          [{ name := prompt.name,
             owner_kind := some "scope", owner_id := some scope.id }] }

/-- Body of the snapshot handler's per-plugin loop. -/
def snapPluginStep (scope : ScopeState) (a : DashboardState)
    (plugin : PluginInfoSnapshot) : DashboardState :=
  let a :=
    match plugin.owner with
    | some o =>
        if o.kind == "app" && !(o.id == scope.id) then
          { a with app_scope_map := insertA a.app_scope_map o.id scope.id }
        else a
    | none => a
  { a with plugins := a.plugins ++
      [{ name := plugin.name, version := plugin.version,
         owner_id := plugin.owner.map (fun (o : OwnerInfo) => o.id) }] }

/-- Body of the snapshot handler's per-adapter loop. -/
def snapAdapterStep (scope : ScopeState) (a : DashboardState)
    (adapter : AdapterInfoSnapshot) : DashboardState :=
  let a :=
    match adapter.owner with
    | some o =>
        if o.kind == "app" && !(o.id == scope.id) then
          { a with app_scope_map := insertA a.app_scope_map o.id scope.id }
        else a
    | none => a
  { a with adapters := a.adapters ++
      [{ name := adapter.name, description := adapter.description,
         owner_id := adapter.owner.map (fun (o : OwnerInfo) => o.id) }] }

/-- Fold one snapshot scope into the store: the body of the
`for scope in snapshot.scopes` loop of `handle_state_snapshot`. -/
def applyScopeSnapshot (acc : DashboardState) (scope : ScopeState) :
    DashboardState :=
  let acc := { acc with scopes := acc.scopes ++ [{ id := scope.id, name := scope.id }] }
  let tool_count := scope.tools.length
  let resource_count := scope.resources.length
  let prompt_count := scope.prompts.length
  let acc := scope.tools.foldl (snapToolStep scope) acc
  let acc := scope.resources.foldl (snapResourceStep scope) acc
  let acc := scope.prompts.foldl (snapPromptStep scope) acc
  let plugin_count := scope.plugins.length
  let acc := scope.plugins.foldl (snapPluginStep scope) acc
  let acc := scope.adapters.foldl (snapAdapterStep scope) acc
  { acc with apps := acc.apps ++
      [{ id := scope.id, name := scope.id, tool_count := tool_count,
         resource_count := resource_count, prompt_count := prompt_count,
         plugin_count := plugin_count }] }

/-- The display entry pushed by `snapToolStep` for one snapshot tool. -/
def toolInfoOfSnap (scope : ScopeState) (tool : SnapToolInfo) : ToolInfo :=
  match tool.owner with
  | some owner =>
      { name := tool.name, description := tool.description,
        input_schema := none, output_schema := none,
        owner_kind := some owner.kind, owner_id := some owner.id }
  | none =>
      { name := tool.name, description := tool.description,
        input_schema := none, output_schema := none,
        owner_kind := some "scope", owner_id := some scope.id }

/-- The display entry pushed by `snapResourceStep` for one snapshot resource. -/
def resourceInfoOfSnap (scope : ScopeState) (resource : SnapResourceInfo) :
    ResourceInfo :=
  match resource.owner with
  | some owner =>
      { name := resource.name, uri := some resource.uri,
        owner_kind := some owner.kind, owner_id := some owner.id }
  | none =>
      { name := resource.name, uri := some resource.uri,
        owner_kind := some "scope", owner_id := some scope.id }

/-- The display entry pushed by `snapPromptStep` for one snapshot prompt. -/
def promptInfoOfSnap (scope : ScopeState) (prompt : SnapPromptInfo) : PromptInfo :=
  match prompt.owner with
  | some owner =>
      { name := prompt.name, owner_kind := some owner.kind, owner_id := some owner.id }
  | none =>
      { name := prompt.name, owner_kind := some "scope", owner_id := some scope.id }

/-- The display entry pushed by `snapPluginStep` for one snapshot plugin. -/
def pluginInfoOfSnap (plugin : PluginInfoSnapshot) : PluginInfo :=
  { name := plugin.name, version := plugin.version,
    owner_id := plugin.owner.map (fun (o : OwnerInfo) => o.id) }

/-- The display entry pushed by `snapAdapterStep` for one snapshot adapter. -/
def adapterInfoOfSnap (adapter : AdapterInfoSnapshot) : AdapterInfo :=
  { name := adapter.name, description := adapter.description,
    owner_id := adapter.owner.map (fun (o : OwnerInfo) => o.id) }

/-- All tool entries contributed by one snapshot scope. -/
def scopeToolInfos (scope : ScopeState) : List ToolInfo :=
  scope.tools.map (toolInfoOfSnap scope)

/-- All resource entries contributed by one snapshot scope. -/
def scopeResourceInfos (scope : ScopeState) : List ResourceInfo :=
  scope.resources.map (resourceInfoOfSnap scope)

/-- All prompt entries contributed by one snapshot scope. -/
def scopePromptInfos (scope : ScopeState) : List PromptInfo :=
  scope.prompts.map (promptInfoOfSnap scope)

/-- All plugin entries contributed by one snapshot scope. -/
def scopePluginInfos (scope : ScopeState) : List PluginInfo :=
  scope.plugins.map pluginInfoOfSnap

/-- All adapter entries contributed by one snapshot scope. -/
def scopeAdapterInfos (scope : ScopeState) : List AdapterInfo :=
  scope.adapters.map adapterInfoOfSnap

/-- Body of the snapshot handler's per-session loop. -/
def snapSessionStep (a : DashboardState) (session : SessionState) : DashboardState :=
  let session_info : SessionInfo :=
    { id := session.session_id,
      transport_type := some session.transport_type,
      client_name := session.client_info.map (fun (c : ClientInfoState) => c.name),
      client_version := session.client_info.map (fun (c : ClientInfoState) => c.version),
      user_agent := none,
      connected_at := session.connected_at,
      is_active := true,
      auth_mode := session.auth_mode,
      auth_user_name := session.auth_user.bind (fun (u : AuthUserState) => u.name),
      auth_user_email := session.auth_user.bind (fun (u : AuthUserState) => u.email),
      is_anonymous := session.is_anonymous }
  { a with sessions := insertA a.sessions session.session_id session_info,
           session_logs := insertA a.session_logs session.session_id [] }

/-- Mirrors `handle_state_snapshot`: set server info, clear and rebuild
the registry collections, scopes and the app-to-scope side table from
the snapshot scopes, upsert the snapshot sessions, then recompute the
overview aggregates.  The `apps` list is appended to without clearing,
as in the source. -/
def handle_state_snapshot (now : Nat) (s : DashboardState)
    (snapshot : StateSnapshot) : DashboardState :=
  let s := { s with server :=
              { s.server with
                name := some snapshot.server.name,
                version := some snapshot.server.version,
                is_ready := true } }
  let s := { s with tools := [], resources := [], prompts := [], plugins := [],
                    adapters := [], scopes := [], app_scope_map := [] }
  let s := snapshot.scopes.foldl applyScopeSnapshot s
  let s := snapshot.sessions.foldl snapSessionStep s
  let s := update_overview_sessions s
  let s := update_overview_registry s
  let s := { s with overview := { s.overview with server_address := s.server.address } }
  add_log now s LogLevel.Info
    ("Connected to server: " ++ toString s.tools.length ++ " tools, "
      ++ toString s.resources.length ++ " resources, "
      ++ toString s.prompts.length ++ " prompts, "
      ++ toString s.plugins.length ++ " plugins, "
      ++ toString s.adapters.length ++ " adapters, "
      ++ toString s.sessions.length ++ " sessions") "system"

-- ─────────────────────────────────────────────────────────────────────────
-- Command responses and raw stderr lines (store.rs)
-- ─────────────────────────────────────────────────────────────────────────

/-- Mirrors `handle_command_response`. -/
def handle_command_response (now : Nat) (s : DashboardState)
    (response : ResponseMessage) : DashboardState :=
  if response.success then
    let data_summary :=
      match response.data with
      | some d =>
          if d.is_object then
            toString (match d with | Json.obj fields => fields.length | _ => 0)
              ++ " fields"
          else
            String.mk ((Json.render d).toList.take 50)
      | none => "no data"
    add_log now s LogLevel.Info
      ("Command " ++ response.command_id ++ " succeeded: " ++ data_summary) "socket"
  else
    let error_msg :=
      match response.error with
      | some e => e.code ++ ": " ++ e.message
      | none => "unknown error"
    add_log now s LogLevel.Error
      ("Command " ++ response.command_id ++ " failed: " ++ error_msg) "socket"

/-- Split a character list at the first occurrence of a character,
returning the parts before and after it (Rust `str::find` + slicing). -/
def splitAtFirst (c : Char) : List Char → Option (List Char × List Char)
  | [] => none
  | x :: xs =>
      if x == c then some ([], xs)
      else (splitAtFirst c xs).map (fun p => (x :: p.1, p.2))

/-- Drop leading whitespace (Rust `str::trim_start`). -/
def trimLeftChars (cs : List Char) : List Char :=
  cs.dropWhile (fun ch => ch.isWhitespace)

/-- Trim whitespace at both ends (Rust `str::trim`). -/
def trimChars (s : String) : String :=
  String.mk ((trimLeftChars ((trimLeftChars s.toList).reverse)).reverse)

/-- Mirrors `parse_structured_log`: `[timestamp] [source] LEVEL message`. -/
def parse_structured_log (line : String) : Option (LogLevel × String × String) :=
  match line.toList with
  | '[' :: _ =>
      (match splitAtFirst ']' line.toList with
      | none => none
      | some (_, after_ts) =>
          match trimLeftChars after_ts with
          | '[' :: restTail =>
              match splitAtFirst ']' restTail with
              | none => none
              | some (sourceCs, after_source0) =>
                  let source := String.mk sourceCs
                  let after_source := trimLeftChars after_source0
                  if isPrefixOfB "ERROR".toList after_source then
                    some (LogLevel.Error, source,
                      String.mk (trimLeftChars (after_source.drop 5)))
                  else if isPrefixOfB "WARN".toList after_source then
                    some (LogLevel.Warn, source,
                      String.mk (trimLeftChars (after_source.drop 4)))
                  else if isPrefixOfB "INFO".toList after_source then
                    some (LogLevel.Info, source,
                      String.mk (trimLeftChars (after_source.drop 4)))
                  else if isPrefixOfB "DEBUG".toList after_source then
                    some (LogLevel.Debug, source,
                      String.mk (trimLeftChars (after_source.drop 5)))
                  else if isPrefixOfB "VERBOSE".toList after_source then
                    some (LogLevel.Debug, source,
                      String.mk (trimLeftChars (after_source.drop 7)))
                  else
                    some (LogLevel.Info, source, String.mk after_source)
          | _ => none)
  | _ => none

/-- Mirrors `add_raw_log`: structured lines become fresh log entries,
other non-empty lines are appended to the newest log entry's message
(or start a new one when the log is empty). -/
def add_raw_log (now : Nat) (s : DashboardState) (line : String) :
    DashboardState :=
  match parse_structured_log line with
  | some (level, source, message) => add_log now s level message source
  | none =>
      if !(trimChars line == "") then
        match s.logs.getLast? with
        | some last =>
            { s with logs := s.logs.dropLast ++
                [{ last with message := last.message ++ "\n" ++ line }] }
        | none => add_log now s LogLevel.Info line "output"
      else s

-- ─────────────────────────────────────────────────────────────────────────
-- Derived ownership graph: flat-count side (store.rs: graph_tree_len)
-- ─────────────────────────────────────────────────────────────────────────

/-- The inferred app-id set.  Both `graph_tree_len` (store.rs) and
`infer_apps` (graph.rs) build this identical `HashSet` with verbatim the
same five loops over tools, resources, prompts (owner kind `app` or
`scope`), plugins and adapters (any owner id); it is therefore defined
once here and used by both embeddings. -/
def graphAppIds (s : DashboardState) : List String :=
  let ids := s.tools.foldl (fun (acc : List String) (t : ToolInfo) =>
    if t.owner_kind == some "app" || t.owner_kind == some "scope" then
      match t.owner_id with
      | some id => insertIfAbsent acc id
      | none => acc
    else acc) []
  let ids := s.resources.foldl (fun (acc : List String) (r : ResourceInfo) =>
    if r.owner_kind == some "app" || r.owner_kind == some "scope" then
      match r.owner_id with
      | some id => insertIfAbsent acc id
      | none => acc
    else acc) ids
  let ids := s.prompts.foldl (fun (acc : List String) (p : PromptInfo) =>
    if p.owner_kind == some "app" || p.owner_kind == some "scope" then
      match p.owner_id with
      | some id => insertIfAbsent acc id
      | none => acc
    else acc) ids
  let ids := s.plugins.foldl (fun (acc : List String) (p : PluginInfo) =>
    match p.owner_id with
    | some id => insertIfAbsent acc id
    | none => acc) ids
  s.adapters.foldl (fun (acc : List String) (a : AdapterInfo) =>
    match a.owner_id with
    | some id => insertIfAbsent acc id
    | none => acc) ids

/-- Mirrors `count_app_nodes`: one node for the app, plus — when the app
id is in the expanded set — its adapters (with their tools when the
adapter key is expanded), plugins (likewise), and the directly owned
tools, resources and prompts. -/
def count_app_nodes (s : DashboardState) (app_id : String) : Nat :=
  let count := 1
  if s.graph_expanded.contains app_id then
    let count := s.adapters.foldl (fun (c : Nat) (adapter : AdapterInfo) =>
      if adapter.owner_id == some app_id then
        let c := c + 1
        if s.graph_expanded.contains ("adapter:" ++ adapter.name) then
          c + (s.tools.filter (fun t =>
            t.owner_kind == some "adapter" && t.owner_id == some adapter.name)).length
        else c
      else c) count
    let count := s.plugins.foldl (fun (c : Nat) (plugin : PluginInfo) =>
      if plugin.owner_id == some app_id then
        let c := c + 1
        if s.graph_expanded.contains ("plugin:" ++ plugin.name) then
          c + (s.tools.filter (fun t =>
            t.owner_kind == some "plugin" && t.owner_id == some plugin.name)).length
        else c
      else c) count
    let count := count + (s.tools.filter (fun t =>
      (t.owner_kind == some "app" || t.owner_kind == some "scope") &&
      t.owner_id == some app_id)).length
    let count := count + (s.resources.filter (fun r =>
      (r.owner_kind == some "app" || r.owner_kind == some "scope") &&
      r.owner_id == some app_id)).length
    count + (s.prompts.filter (fun p =>
      (p.owner_kind == some "app" || p.owner_kind == some "scope") &&
      p.owner_id == some app_id)).length
  else count

/-- Mirrors `graph_tree_len`.  In multi-scope mode an expanded scope
counts the apps whose id coincides with the scope's id, and orphan apps
are those whose id is not a scope id — the `app_scope_map` side table is
not consulted here. -/
def graph_tree_len (s : DashboardState) : Nat :=
  let count := 1
  let app_ids := graphAppIds s
  let show_scopes := s.scopes.length > 1
  if show_scopes then
    let count := s.scopes.foldl (fun (c : Nat) (scope : ScopeInfo) =>
      let c := c + 1
      if s.graph_expanded.contains ("scope:" ++ scope.id) then
        (app_ids.filter (fun id =>
          s.scopes.any (fun (sc : ScopeInfo) => sc.id == id && sc.id == scope.id))).foldl
          (fun (c2 : Nat) (app_id : String) => c2 + count_app_nodes s app_id) c
      else c) count
    let orphan_apps := app_ids.filter (fun id =>
      !(s.scopes.any (fun (sc : ScopeInfo) => sc.id == id)))
    if !orphan_apps.isEmpty then
      orphan_apps.foldl (fun (c : Nat) (app_id : String) =>
        c + count_app_nodes s app_id) (count + 1)
    else count
  else
    let count := app_ids.foldl (fun (c : Nat) (app_id : String) =>
      c + count_app_nodes s app_id) count
    let direct_tools := (s.tools.filter (fun t => t.owner_kind.isNone)).length
    let direct_resources := (s.resources.filter (fun r => r.owner_kind.isNone)).length
    let direct_prompts := (s.prompts.filter (fun p => p.owner_kind.isNone)).length
    if direct_tools > 0 || direct_resources > 0 || direct_prompts > 0 then
      count + 1 + direct_tools + direct_resources + direct_prompts
    else count

-- ─────────────────────────────────────────────────────────────────────────
-- Derived ownership graph: node-list side (ui/tabs/graph.rs)
-- ─────────────────────────────────────────────────────────────────────────

/-- Node type in the graph tree (graph.rs `GraphNode`). -/
inductive GraphNode where
  | Server
  | Scope (id name : String)
  | App (id name : String) (scope_id : Option String)
  | Plugin (name owner_app : String)
  | Adapter (name owner_app : String)
  | Tool (name : String) (owner_kind owner_id : Option String)
  | Resource (name : String) (owner_kind owner_id : Option String)
  | Prompt (name : String) (owner_kind owner_id : Option String)
  | DirectHeader
deriving Repr, DecidableEq

/-- Stable insertion of an `(id, name, scope_id)` app tuple into a list
sorted by name (mirrors the stable `sort_by` on names in `infer_apps`). -/
def insertByName (x : String × String × Option String) :
    List (String × String × Option String) → List (String × String × Option String)
  | [] => [x]
  | y :: ys => if x.2.1 < y.2.1 then x :: y :: ys else y :: insertByName x ys

/-- Stable by-name sort used by `infer_apps`. -/
def sortByName (l : List (String × String × Option String)) :
    List (String × String × Option String) :=
  l.foldl (fun acc x => insertByName x acc) []

/-- Mirrors graph.rs `infer_apps`: the inferred app ids, each with a
display name (from the explicit apps list when available) and a scope id
resolved through `app_scope_map` first, falling back to "the app id is
itself a scope id"; sorted by name. -/
def infer_apps (s : DashboardState) : List (String × String × Option String) :=
  let app_ids := graphAppIds s
  let apps := app_ids.map (fun id =>
    let name := ((s.apps.find? (fun (a : AppInfo) => a.id == id)).map
      (fun (a : AppInfo) => a.name)).getD id
    let scope_id := (lookupA s.app_scope_map id).orElse (fun _ =>
      (s.scopes.find? (fun (sc : ScopeInfo) => sc.id == id)).map
        (fun (sc : ScopeInfo) => sc.id))
    (id, name, scope_id))
  sortByName apps

/-- Mirrors graph.rs `add_app_nodes`. -/
def add_app_nodes (s : DashboardState) (nodes : List (GraphNode × Nat))
    (app_id app_name : String) (scope_id : Option String) (base_depth : Nat) :
    List (GraphNode × Nat) :=
  let nodes := nodes ++ [(GraphNode.App app_id app_name scope_id, base_depth)]
  if s.graph_expanded.contains app_id then
    let nodes := s.adapters.foldl (fun (ns : List (GraphNode × Nat)) (adapter : AdapterInfo) =>
      if adapter.owner_id == some app_id then
        let ns := ns ++ [(GraphNode.Adapter adapter.name app_id, base_depth + 1)]
        if s.graph_expanded.contains ("adapter:" ++ adapter.name) then
          ns ++ (s.tools.filter (fun t =>
            t.owner_kind == some "adapter" && t.owner_id == some adapter.name)).map
            (fun t => (GraphNode.Tool t.name (some "adapter") (some adapter.name),
                       base_depth + 2))
        else ns
      else ns) nodes
    let nodes := s.plugins.foldl (fun (ns : List (GraphNode × Nat)) (plugin : PluginInfo) =>
      if plugin.owner_id == some app_id then
        let ns := ns ++ [(GraphNode.Plugin plugin.name app_id, base_depth + 1)]
        if s.graph_expanded.contains ("plugin:" ++ plugin.name) then
          ns ++ (s.tools.filter (fun t =>
            t.owner_kind == some "plugin" && t.owner_id == some plugin.name)).map
            (fun t => (GraphNode.Tool t.name (some "plugin") (some plugin.name),
                       base_depth + 2))
        else ns
      else ns) nodes
    let nodes := nodes ++ (s.tools.filter (fun t =>
        (t.owner_kind == some "app" || t.owner_kind == some "scope") &&
        t.owner_id == some app_id)).map
        (fun t => (GraphNode.Tool t.name t.owner_kind t.owner_id, base_depth + 1))
    let nodes := nodes ++ (s.resources.filter (fun r =>
        (r.owner_kind == some "app" || r.owner_kind == some "scope") &&
        r.owner_id == some app_id)).map
        (fun r => (GraphNode.Resource r.name r.owner_kind r.owner_id, base_depth + 1))
    nodes ++ (s.prompts.filter (fun p =>
        (p.owner_kind == some "app" || p.owner_kind == some "scope") &&
        p.owner_id == some app_id)).map
        (fun p => (GraphNode.Prompt p.name p.owner_kind p.owner_id, base_depth + 1))
  else nodes

/-- Mirrors graph.rs `build_graph_nodes`.  In multi-scope mode an
expanded scope shows the apps whose resolved `scope_id` (via
`app_scope_map` with the identity fallback) equals the scope's id, and
orphans are the apps whose resolved `scope_id` is `none`. -/
def build_graph_nodes (s : DashboardState) : List (GraphNode × Nat) :=
  let nodes : List (GraphNode × Nat) := [(GraphNode.Server, 0)]
  let apps := infer_apps s
  let show_scopes := s.scopes.length > 1
  if show_scopes then
    let nodes := s.scopes.foldl (fun (ns : List (GraphNode × Nat)) (scope : ScopeInfo) =>
      let scope_expanded := s.graph_expanded.contains ("scope:" ++ scope.id)
      let ns := ns ++ [(GraphNode.Scope scope.id scope.name, 1)]
      if scope_expanded then
        apps.foldl (fun (ns2 : List (GraphNode × Nat)) app =>
          if app.2.2 == some scope.id then
            add_app_nodes s ns2 app.1 app.2.1 (some scope.id) 2
          else ns2) ns
      else ns) nodes
    let orphan_apps := apps.filter (fun app => app.2.2.isNone)
    if !orphan_apps.isEmpty then
      orphan_apps.foldl (fun (ns : List (GraphNode × Nat)) app =>
        add_app_nodes s ns app.1 app.2.1 none 2)
        (nodes ++ [(GraphNode.DirectHeader, 1)])
    else nodes
  else
    let nodes := apps.foldl (fun (ns : List (GraphNode × Nat)) app =>
      add_app_nodes s ns app.1 app.2.1 app.2.2 1) nodes
    let direct_tools := s.tools.filter (fun t => t.owner_kind.isNone)
    let direct_resources := s.resources.filter (fun r => r.owner_kind.isNone)
    let direct_prompts := s.prompts.filter (fun p => p.owner_kind.isNone)
    if !direct_tools.isEmpty || !direct_resources.isEmpty || !direct_prompts.isEmpty then
      let nodes := nodes ++ [(GraphNode.DirectHeader, 1)]
      let nodes := nodes ++ direct_tools.map
        (fun t => (GraphNode.Tool t.name none none, 2))
      let nodes := nodes ++ direct_resources.map
        (fun r => (GraphNode.Resource r.name none none, 2))
      nodes ++ direct_prompts.map
        (fun p => (GraphNode.Prompt p.name none none, 2))
    else nodes

-- ─────────────────────────────────────────────────────────────────────────
-- Unified decoder and pipe-tail loop (event/types.rs, app.rs)
-- ─────────────────────────────────────────────────────────────────────────

/-- IPC message wrapper (`DevEventMessage`). -/
structure DevEventMessage where
  msg_type : String
  event : DevEvent

/-- Mirrors `DevEventMessage::is_valid`. -/
def DevEventMessage.is_valid (m : DevEventMessage) : Bool :=
  m.msg_type == DEV_EVENT_MAGIC

/-- One raw line read from the tailed pipe.  The shape fields and the
four `Option` fields are the outcomes of the string tests and of the
serde_json parse attempts the decoder can perform on the line: the JSON
deserializer is treated as a primitive of the embedding, and the
decoder's control flow over its outcomes is modelled exactly. -/
structure PipeLine where
  text : String
  hasMagicPrefixed : Bool
  startsWithBrace : Bool
  containsMagic : Bool
  asDevEventMessage : Option DevEventMessage := none
  asDevBusLogEvent : Option DevBusLogEvent := none
  asDevEvent : Option DevEvent := none
  bodyAsDevEventMessage : Option DevEventMessage := none

/-- Mirrors `parse_unified_event_line`: on a magic-prefixed line try the
legacy IPC wrapper, then the new `DevBusLogEvent` shape (accepted only
with category `trace` or `log`), then the legacy `DevEvent` directly;
otherwise, a JSON-shaped line containing the magic string anywhere is
tried once as the IPC wrapper (accepted only when its type field is the
magic); anything else is not an event. -/
def parse_unified_event_line (line : PipeLine) : Option UnifiedEvent :=
  if line.hasMagicPrefixed then
    match line.asDevEventMessage with
    | some msg => some (UnifiedEvent.Legacy msg.event)
    | none =>
        let viaLog :=
          match line.asDevBusLogEvent with
          | some log_event =>
              if log_event.category == "trace" || log_event.category == "log" then
                some (UnifiedEvent.LogTransport log_event)
              else none
          | none => none
        match viaLog with
        | some u => some u
        | none =>
            match line.asDevEvent with
            | some event => some (UnifiedEvent.Legacy event)
            | none => none
  else if line.startsWithBrace && line.containsMagic then
    match line.bodyAsDevEventMessage with
    | some msg =>
        if msg.is_valid then some (UnifiedEvent.Legacy msg.event) else none
    | none => none
  else
    none

/-- Reader-side counters of the pipe-tail loop together with the store
they feed (app.rs: `lines_read`, `parse_failures` atomics and the event
channel drained into `DashboardState`). -/
structure PipeState where
  lines_read : Nat := 0
  parse_failures : Nat := 0
  store : DashboardState := {}

/-- Mirrors one iteration of the pipe-tail loop in `App::run` for a
non-empty line, composed with the consumer-side drain of whatever the
iteration forwarded: a decoded event is folded into the store, a
marker-carrying undecodable line only bumps the parse-failure counter,
and any other line is forwarded verbatim to the raw-log channel. -/
def processPipeLine (now : Nat) (ps : PipeState) (line : PipeLine) : PipeState :=
  if trimChars line.text == "" then ps
  else
    let ps := { ps with lines_read := ps.lines_read + 1 }
    let is_potential_event := line.containsMagic
    match parse_unified_event_line line with
    | some event => { ps with store := handle_unified_event now ps.store event }
    | none =>
        if is_potential_event then
          { ps with parse_failures := ps.parse_failures + 1 }
        else
          { ps with store := add_raw_log now ps.store line.text }

-- ─────────────────────────────────────────────────────────────────────────
-- Consumer-loop operations (the fold interface of App::run)
-- ─────────────────────────────────────────────────────────────────────────

/-- One operation of the single consumer loop that mutates the store:
a unified event, a state snapshot, a raw log line, a system-metrics
sample, or a command response. -/
inductive Op where
  | unified (now : Nat) (e : UnifiedEvent)
  | snapshot (now : Nat) (snap : StateSnapshot)
  | rawLog (now : Nat) (line : String)
  | sysMetrics (cpu : Int) (memory : Nat)
  | response (now : Nat) (r : ResponseMessage)

/-- Apply one consumer-loop operation to the store. -/
def applyOp (s : DashboardState) : Op → DashboardState
  | Op.unified now e => handle_unified_event now s e
  | Op.snapshot now snap => handle_state_snapshot now s snap
  | Op.rawLog now line => add_raw_log now s line
  | Op.sysMetrics cpu memory =>
      { s with metrics := s.metrics.update_system_metrics cpu memory }
  | Op.response now r => handle_command_response now s r

/-- Apply a sequence of consumer-loop operations. -/
def applyOps (s : DashboardState) (ops : List Op) : DashboardState :=
  ops.foldl applyOp s

-- ─────────────────────────────────────────────────────────────────────────
-- Bounded ring buffers (capacities fixed in store.rs)
-- ─────────────────────────────────────────────────────────────────────────

/-- Every bounded history of the store is within its fixed capacity:
at most 60 CPU and memory samples, at most 1000 global log entries, at
most 500 entries in each session's private log ring, at most 5 recent
errors, and at most 5 overview tool calls. -/
structure BoundedOk (s : DashboardState) : Prop where
  cpu_le : s.metrics.cpu_history.length ≤ METRICS_HISTORY_SIZE
  mem_le : s.metrics.memory_history.length ≤ METRICS_HISTORY_SIZE
  logs_le : s.logs.length ≤ 1000
  slogs_le : ∀ p ∈ s.session_logs, (Prod.snd p).length ≤ 500
  errs_le : s.recent_errors.length ≤ 5
  calls_le : s.overview.last_tool_calls.length ≤ MAX_TOOL_CALLS

/-- A metrics record whose histories are exactly at capacity. -/
def metricsAtCap : MetricsData :=
  { cpu_history := List.replicate 60 0, memory_history := List.replicate 60 0 }

/-- A log entry used to pre-fill rings at capacity. -/
def fillEntry : LogEntry :=
  { timestamp := 0, level := LogLevel.Info, message := "old", source := "system",
    session_id := none, request_id := none }

/-- A store whose global log ring is exactly at capacity. -/
def storeLogsAtCap : DashboardState :=
  { logs := List.replicate 1000 fillEntry }

/-- A store holding one session ring exactly at capacity. -/
def storeSessionAtCap : DashboardState :=
  { session_logs := [("s1", List.replicate 500 fillEntry)] }

/-- A store whose recent-error list is exactly at capacity. -/
def storeErrsAtCap : DashboardState :=
  { recent_errors := ["e1", "e2", "e3", "e4", "e5"] }

/-- An overview whose tool-call list is exactly at capacity. -/
def overviewCallsAtCap : OverviewData :=
  { last_tool_calls := List.replicate 5
      { name := "t", timestamp := 0, success := true, duration_ms := none } }

-- ─────────────────────────────────────────────────────────────────────────
-- Generic lemmas about the dedup-append pattern
-- ─────────────────────────────────────────────────────────────────────────

/-- Abbreviation for the registry "add each entry unless its name is
present" loop. -/
def foldPush {α β : Type} (nameOf : β → String) (g : α → β) (init : List β)
    (l : List α) : List β :=
  l.foldl (fun ts e => pushIfAbsent nameOf ts (g e)) init

/-- Number of entries of a collection bearing a given name. -/
def countName {β : Type} (nameOf : β → String) (n : String) (l : List β) : Nat :=
  (l.filter (fun x => nameOf x == n)).length

theorem any_name_eq {β : Type} (nameOf : β → String) (coll : List β) (t : β) :
    (coll.any (fun x => nameOf x == nameOf t) = true) ↔
      nameOf t ∈ coll.map nameOf := by
  simp [List.any_eq_true, List.mem_map]

theorem mem_map_pushIfAbsent {β : Type} (nameOf : β → String) (coll : List β)
    (t : β) (n : String) :
    n ∈ (pushIfAbsent nameOf coll t).map nameOf ↔
      n ∈ coll.map nameOf ∨ n = nameOf t := by
  unfold pushIfAbsent
  by_cases h : nameOf t ∈ coll.map nameOf
  · rw [if_pos ((any_name_eq nameOf coll t).mpr h)]
    constructor
    · exact Or.inl
    · rintro (hn | rfl)
      · exact hn
      · exact h
  · rw [if_neg (fun hc => h ((any_name_eq nameOf coll t).mp hc))]
    simp [List.mem_append]

theorem mem_map_foldPush {α β : Type} (nameOf : β → String) (g : α → β)
    (l : List α) (n : String) : ∀ init : List β,
    (n ∈ (foldPush nameOf g init l).map nameOf ↔
      n ∈ init.map nameOf ∨ n ∈ l.map (fun e => nameOf (g e))) := by
  induction l with
  | nil => intro init; simp [foldPush]
  | cons e l ih =>
      intro init
      have step : foldPush nameOf g init (e :: l) =
          foldPush nameOf g (pushIfAbsent nameOf init (g e)) l := rfl
      rw [step, ih, mem_map_pushIfAbsent]
      simp only [List.map_cons, List.mem_cons]
      tauto

theorem foldPush_eq_of_present {α β : Type} (nameOf : β → String) (g : α → β)
    (l : List α) : ∀ init : List β,
    (∀ e ∈ l, nameOf (g e) ∈ init.map nameOf) →
    foldPush nameOf g init l = init := by
  induction l with
  | nil => intro init _; rfl
  | cons e l ih =>
      intro init h
      have he : nameOf (g e) ∈ init.map nameOf := h e (List.mem_cons_self e l)
      have step : foldPush nameOf g init (e :: l) =
          foldPush nameOf g (pushIfAbsent nameOf init (g e)) l := rfl
      rw [step]
      have hpush : pushIfAbsent nameOf init (g e) = init := by
        unfold pushIfAbsent
        rw [if_pos ((any_name_eq nameOf init (g e)).mpr he)]
      rw [hpush]
      exact ih init (fun e' he' => h e' (List.mem_cons_of_mem e he'))

theorem countName_pushIfAbsent_of_mem {β : Type} (nameOf : β → String)
    (coll : List β) (t : β) (n : String) (h : n ∈ coll.map nameOf) :
    countName nameOf n (pushIfAbsent nameOf coll t) = countName nameOf n coll := by
  unfold pushIfAbsent
  by_cases hp : nameOf t ∈ coll.map nameOf
  · rw [if_pos ((any_name_eq nameOf coll t).mpr hp)]
  · rw [if_neg (fun hc => hp ((any_name_eq nameOf coll t).mp hc))]
    unfold countName
    rw [List.filter_append, List.length_append]
    have hne : ¬(nameOf t == n) = true := by
      intro he
      exact hp (beq_iff_eq.mp he ▸ h)
    simp [List.filter, hne]

theorem countName_foldPush_of_mem {α β : Type} (nameOf : β → String) (g : α → β)
    (l : List α) (n : String) : ∀ init : List β, n ∈ init.map nameOf →
    countName nameOf n (foldPush nameOf g init l) = countName nameOf n init := by
  induction l with
  | nil => intro init _; rfl
  | cons e l ih =>
      intro init h
      have step : foldPush nameOf g init (e :: l) =
          foldPush nameOf g (pushIfAbsent nameOf init (g e)) l := rfl
      have hmem : n ∈ (pushIfAbsent nameOf init (g e)).map nameOf :=
        (mem_map_pushIfAbsent nameOf init (g e) n).mpr (Or.inl h)
      rw [step, ih _ hmem, countName_pushIfAbsent_of_mem nameOf init (g e) n h]

-- ─────────────────────────────────────────────────────────────────────────
-- Frame lemmas: which fields the logging and overview helpers leave alone
-- ─────────────────────────────────────────────────────────────────────────

@[simp] theorem add_log_with_context_tools (now s l m src sid rid) :
    (add_log_with_context now s l m src sid rid).tools = s.tools := by
  unfold add_log_with_context; cases sid <;> rfl

@[simp] theorem add_log_with_context_resources (now s l m src sid rid) :
    (add_log_with_context now s l m src sid rid).resources = s.resources := by
  unfold add_log_with_context; cases sid <;> rfl

@[simp] theorem add_log_with_context_prompts (now s l m src sid rid) :
    (add_log_with_context now s l m src sid rid).prompts = s.prompts := by
  unfold add_log_with_context; cases sid <;> rfl

@[simp] theorem add_log_with_context_plugins (now s l m src sid rid) :
    (add_log_with_context now s l m src sid rid).plugins = s.plugins := by
  unfold add_log_with_context; cases sid <;> rfl

@[simp] theorem add_log_with_context_adapters (now s l m src sid rid) :
    (add_log_with_context now s l m src sid rid).adapters = s.adapters := by
  unfold add_log_with_context; cases sid <;> rfl

@[simp] theorem add_log_with_context_sessions (now s l m src sid rid) :
    (add_log_with_context now s l m src sid rid).sessions = s.sessions := by
  unfold add_log_with_context; cases sid <;> rfl

@[simp] theorem add_log_with_context_requests (now s l m src sid rid) :
    (add_log_with_context now s l m src sid rid).requests = s.requests := by
  unfold add_log_with_context; cases sid <;> rfl

@[simp] theorem add_log_with_context_overview (now s l m src sid rid) :
    (add_log_with_context now s l m src sid rid).overview = s.overview := by
  unfold add_log_with_context; cases sid <;> rfl

@[simp] theorem add_log_with_context_scopes (now s l m src sid rid) :
    (add_log_with_context now s l m src sid rid).scopes = s.scopes := by
  unfold add_log_with_context; cases sid <;> rfl

@[simp] theorem add_log_with_context_events (now s l m src sid rid) :
    (add_log_with_context now s l m src sid rid).events_received =
      s.events_received := by
  unfold add_log_with_context; cases sid <;> rfl

@[simp] theorem add_log_tools (now s l m src) :
    (add_log now s l m src).tools = s.tools := rfl

@[simp] theorem add_log_resources (now s l m src) :
    (add_log now s l m src).resources = s.resources := rfl

@[simp] theorem add_log_prompts (now s l m src) :
    (add_log now s l m src).prompts = s.prompts := rfl

@[simp] theorem add_log_plugins (now s l m src) :
    (add_log now s l m src).plugins = s.plugins := rfl

@[simp] theorem add_log_adapters (now s l m src) :
    (add_log now s l m src).adapters = s.adapters := rfl

@[simp] theorem add_log_sessions (now s l m src) :
    (add_log now s l m src).sessions = s.sessions := rfl

@[simp] theorem add_log_requests (now s l m src) :
    (add_log now s l m src).requests = s.requests := rfl

@[simp] theorem add_log_overview (now s l m src) :
    (add_log now s l m src).overview = s.overview := rfl

@[simp] theorem add_log_scopes (now s l m src) :
    (add_log now s l m src).scopes = s.scopes := rfl

@[simp] theorem update_overview_registry_tools (s) :
    (update_overview_registry s).tools = s.tools := rfl

@[simp] theorem update_overview_registry_resources (s) :
    (update_overview_registry s).resources = s.resources := rfl

@[simp] theorem update_overview_registry_prompts (s) :
    (update_overview_registry s).prompts = s.prompts := rfl

@[simp] theorem update_overview_registry_plugins (s) :
    (update_overview_registry s).plugins = s.plugins := rfl

@[simp] theorem update_overview_registry_adapters (s) :
    (update_overview_registry s).adapters = s.adapters := rfl

@[simp] theorem update_overview_registry_sessions (s) :
    (update_overview_registry s).sessions = s.sessions := rfl

@[simp] theorem update_overview_registry_requests (s) :
    (update_overview_registry s).requests = s.requests := rfl

@[simp] theorem update_overview_sessions_tools (s) :
    (update_overview_sessions s).tools = s.tools := rfl

@[simp] theorem update_overview_sessions_resources (s) :
    (update_overview_sessions s).resources = s.resources := rfl

@[simp] theorem update_overview_sessions_sessions (s) :
    (update_overview_sessions s).sessions = s.sessions := rfl

@[simp] theorem update_overview_sessions_requests (s) :
    (update_overview_sessions s).requests = s.requests := rfl

/-- Dispatch lemma: a trace-category transport event is folded by
`handle_trace_event` on the state with the event counter bumped. -/
theorem unified_trace (now : Nat) (s : DashboardState) (ev : DevBusLogEvent)
    (hcat : ev.category = "trace") :
    handle_unified_event now s (UnifiedEvent.LogTransport ev) =
      handle_trace_event now { s with events_received := s.events_received + 1 } ev := by
  simp [handle_unified_event, handle_log_transport_event, hcat]

-- ─────────────────────────────────────────────────────────────────────────
-- Claim C9: decode failures are counted, not folded
-- ─────────────────────────────────────────────────────────────────────────

/-- C9: processing a non-empty pipe line that carries the event marker
but decodes under none of the accepted schemas increments the
parse-failure counter by exactly 1 and leaves the store untouched (so
`events_received` and every collection and aggregate are unchanged);
a line with no marker and no JSON shape decodes to nothing, is not
counted as a failure, and is forwarded verbatim to the raw-log path. -/
theorem c9_decode_failure_counted (now : Nat) (ps : PipeState) (line : PipeLine)
    (hne : ¬ trimChars line.text = "") :
    (line.containsMagic = true → parse_unified_event_line line = none →
      processPipeLine now ps line =
        { ps with lines_read := ps.lines_read + 1,
                  parse_failures := ps.parse_failures + 1 }) ∧
    (line.containsMagic = false → line.hasMagicPrefixed = false →
      line.startsWithBrace = false →
      parse_unified_event_line line = none ∧
      processPipeLine now ps line =
        { ps with lines_read := ps.lines_read + 1,
                  store := add_raw_log now ps.store line.text }) := by
  constructor
  · intro hmagic hparse
    unfold processPipeLine
    rw [if_neg (by simpa using hne), hparse, hmagic]
    rfl
  · intro hmagic hpre hbrace
    have hparse : parse_unified_event_line line = none := by
      unfold parse_unified_event_line
      rw [hpre, hbrace]
      simp
    refine ⟨hparse, ?_⟩
    unfold processPipeLine
    rw [if_neg (by simpa using hne), hparse, hmagic]
    rfl

/-- Marker-tagged line on which every parse attempt fails. -/
def garbledLine : PipeLine :=
  { text := "__FRONTMCP_DEV_EVENT__ not json", hasMagicPrefixed := true,
    startsWithBrace := false, containsMagic := true }

/-- Plain stderr output line: no marker, no JSON shape. -/
def freeTextLine : PipeLine :=
  { text := "server listening", hasMagicPrefixed := false,
    startsWithBrace := false, containsMagic := false }

theorem c9_decode_failure_counted_witness :
    (processPipeLine 7 {} garbledLine =
      { lines_read := 1, parse_failures := 1, store := {} }) ∧
    (processPipeLine 7 {} freeTextLine =
      { lines_read := 1, parse_failures := 0,
        store := add_raw_log 7 initState "server listening" }) := by
  constructor
  · exact (c9_decode_failure_counted 7 {} garbledLine (by decide)).1 rfl rfl
  · exact ((c9_decode_failure_counted 7 {} freeTextLine (by decide)).2
      rfl rfl rfl).2

-- ─────────────────────────────────────────────────────────────────────────
-- Claim C1: idempotence of registry "added" events
-- ─────────────────────────────────────────────────────────────────────────

theorem foldPush_idem {α β : Type} (nameOf : β → String) (g : α → β)
    (init : List β) (l : List α) :
    foldPush nameOf g (foldPush nameOf g init l) l = foldPush nameOf g init l := by
  apply foldPush_eq_of_present
  intro e he
  exact (mem_map_foldPush nameOf g l _ init).mpr
    (Or.inr (List.mem_map_of_mem _ he))

theorem trace_tool_added_tools (now : Nat) (s : DashboardState)
    (ev : DevBusLogEvent) (h : ev.event_type = "registry:tool:added") :
    (handle_trace_event now s ev).tools =
      foldPush (fun (t : ToolInfo) => t.name)
        (fun e => { name := e.name, description := e.description,
                    input_schema := e.input_schema, output_schema := none,
                    owner_kind := (extract_owner ev.data).map (·.1),
                    owner_id := (extract_owner ev.data).map (·.2) })
        s.tools (extract_tool_entries ev.data) := by
  simp [handle_trace_event, h, foldPush, apply_ite DashboardState.tools]

theorem trace_resource_added_resources (now : Nat) (s : DashboardState)
    (ev : DevBusLogEvent) (h : ev.event_type = "registry:resource:added") :
    (handle_trace_event now s ev).resources =
      foldPush (fun (r : ResourceInfo) => r.name)
        (fun name => { name := name, uri := none,
                       owner_kind := (extract_owner ev.data).map (·.1),
                       owner_id := (extract_owner ev.data).map (·.2) })
        s.resources (extract_entry_names ev.data) := by
  simp [handle_trace_event, h, foldPush, apply_ite DashboardState.resources]

theorem trace_prompt_added_prompts (now : Nat) (s : DashboardState)
    (ev : DevBusLogEvent) (h : ev.event_type = "registry:prompt:added") :
    (handle_trace_event now s ev).prompts =
      foldPush (fun (p : PromptInfo) => p.name)
        (fun name => { name := name,
                       owner_kind := (extract_owner ev.data).map (·.1),
                       owner_id := (extract_owner ev.data).map (·.2) })
        s.prompts (extract_entry_names ev.data) := by
  simp [handle_trace_event, h, foldPush, apply_ite DashboardState.prompts]

theorem trace_plugin_added_plugins (now : Nat) (s : DashboardState)
    (ev : DevBusLogEvent) (h : ev.event_type = "registry:plugin:added") :
    (handle_trace_event now s ev).plugins =
      foldPush (fun (p : PluginInfo) => p.name)
        (fun e => { name := e.name, version := e.version,
                    owner_id := (extract_owner ev.data).map (·.2) })
        s.plugins (extract_plugin_entries ev.data) := by
  simp [handle_trace_event, h, foldPush, apply_ite DashboardState.plugins]

theorem trace_adapter_added_adapters (now : Nat) (s : DashboardState)
    (ev : DevBusLogEvent) (h : ev.event_type = "registry:adapter:added") :
    (handle_trace_event now s ev).adapters =
      foldPush (fun (a : AdapterInfo) => a.name)
        (fun e => { name := e.name, description := e.description,
                    owner_id := (extract_owner ev.data).map (·.2) })
        s.adapters (extract_adapter_entries ev.data) := by
  simp [handle_trace_event, h, foldPush, apply_ite DashboardState.adapters]

/-- Legacy registry event adding tools `a` and `b`. -/
def evToolAddedAB : DevEvent :=
  DevEvent.Registry
    { base := { id := "e1", timestamp := 0, scope_id := "sc",
                session_id := none, request_id := none },
      event_type := RegistryEventType.ToolAdded,
      data := { registry_type := "tool", entry_names := some ["a", "b"],
                change_kind := "added", change_scope := "global" } }

/-- C1 counterexample: on the legacy DevEvent decode path,
`registry:tool:added` with names `["a","b"]` folded twice yields a tool
collection of 4 entries, not the 2 the claim requires — the legacy
`ToolAdded` branch appends without any duplicate check. -/
theorem c1_counterexample :
    (handle_unified_event 0 (handle_unified_event 0 initState
        (UnifiedEvent.Legacy evToolAddedAB))
      (UnifiedEvent.Legacy evToolAddedAB)).tools.length = 4 ∧
    ¬ (handle_unified_event 0 (handle_unified_event 0 initState
        (UnifiedEvent.Legacy evToolAddedAB))
      (UnifiedEvent.Legacy evToolAddedAB)).tools.length = 2 := by
  exact ⟨rfl, by decide⟩

/-- C1 (amended): on the trace-format decode path, every registry
"added" event (tool, resource, prompt, plugin, adapter) is idempotent by
name: a name already present in the kind's collection gains no duplicate
entry (its occurrence count is unchanged), and folding the identical
"added" event a second time leaves the collection exactly as it was —
in particular names `["a","b"]` applied twice give 2 entries, not 4.
On the legacy DevEvent decode path this fails
(see `c1_counterexample`): the legacy `Added` branches append
unconditionally. -/
theorem c1_trace_added_idempotent (now now2 : Nat) (s : DashboardState)
    (ev : DevBusLogEvent) (hcat : ev.category = "trace") :
    (ev.event_type = "registry:tool:added" →
      (∀ n, n ∈ s.tools.map ToolInfo.name →
        countName ToolInfo.name n
          (handle_unified_event now s (UnifiedEvent.LogTransport ev)).tools =
          countName ToolInfo.name n s.tools) ∧
      (handle_unified_event now2
          (handle_unified_event now s (UnifiedEvent.LogTransport ev))
          (UnifiedEvent.LogTransport ev)).tools =
        (handle_unified_event now s (UnifiedEvent.LogTransport ev)).tools) ∧
    (ev.event_type = "registry:resource:added" →
      (∀ n, n ∈ s.resources.map ResourceInfo.name →
        countName ResourceInfo.name n
          (handle_unified_event now s (UnifiedEvent.LogTransport ev)).resources =
          countName ResourceInfo.name n s.resources) ∧
      (handle_unified_event now2
          (handle_unified_event now s (UnifiedEvent.LogTransport ev))
          (UnifiedEvent.LogTransport ev)).resources =
        (handle_unified_event now s (UnifiedEvent.LogTransport ev)).resources) ∧
    (ev.event_type = "registry:prompt:added" →
      (∀ n, n ∈ s.prompts.map PromptInfo.name →
        countName PromptInfo.name n
          (handle_unified_event now s (UnifiedEvent.LogTransport ev)).prompts =
          countName PromptInfo.name n s.prompts) ∧
      (handle_unified_event now2
          (handle_unified_event now s (UnifiedEvent.LogTransport ev))
          (UnifiedEvent.LogTransport ev)).prompts =
        (handle_unified_event now s (UnifiedEvent.LogTransport ev)).prompts) ∧
    (ev.event_type = "registry:plugin:added" →
      (∀ n, n ∈ s.plugins.map PluginInfo.name →
        countName PluginInfo.name n
          (handle_unified_event now s (UnifiedEvent.LogTransport ev)).plugins =
          countName PluginInfo.name n s.plugins) ∧
      (handle_unified_event now2
          (handle_unified_event now s (UnifiedEvent.LogTransport ev))
          (UnifiedEvent.LogTransport ev)).plugins =
        (handle_unified_event now s (UnifiedEvent.LogTransport ev)).plugins) ∧
    (ev.event_type = "registry:adapter:added" →
      (∀ n, n ∈ s.adapters.map AdapterInfo.name →
        countName AdapterInfo.name n
          (handle_unified_event now s (UnifiedEvent.LogTransport ev)).adapters =
          countName AdapterInfo.name n s.adapters) ∧
      (handle_unified_event now2
          (handle_unified_event now s (UnifiedEvent.LogTransport ev))
          (UnifiedEvent.LogTransport ev)).adapters =
        (handle_unified_event now s (UnifiedEvent.LogTransport ev)).adapters) := by
  rw [unified_trace now s ev hcat,
      unified_trace now2 _ ev hcat]
  refine ⟨?_, ?_, ?_, ?_, ?_⟩
  · intro h
    constructor
    · intro n hn
      rw [trace_tool_added_tools now _ ev h]
      exact countName_foldPush_of_mem _ _ _ n s.tools hn
    · rw [trace_tool_added_tools now2 _ ev h,
          trace_tool_added_tools now _ ev h]
      exact foldPush_idem _ _ _ _
  · intro h
    constructor
    · intro n hn
      rw [trace_resource_added_resources now _ ev h]
      exact countName_foldPush_of_mem _ _ _ n s.resources hn
    · rw [trace_resource_added_resources now2 _ ev h,
          trace_resource_added_resources now _ ev h]
      exact foldPush_idem _ _ _ _
  · intro h
    constructor
    · intro n hn
      rw [trace_prompt_added_prompts now _ ev h]
      exact countName_foldPush_of_mem _ _ _ n s.prompts hn
    · rw [trace_prompt_added_prompts now2 _ ev h,
          trace_prompt_added_prompts now _ ev h]
      exact foldPush_idem _ _ _ _
  · intro h
    constructor
    · intro n hn
      rw [trace_plugin_added_plugins now _ ev h]
      exact countName_foldPush_of_mem _ _ _ n s.plugins hn
    · rw [trace_plugin_added_plugins now2 _ ev h,
          trace_plugin_added_plugins now _ ev h]
      exact foldPush_idem _ _ _ _
  · intro h
    constructor
    · intro n hn
      rw [trace_adapter_added_adapters now _ ev h]
      exact countName_foldPush_of_mem _ _ _ n s.adapters hn
    · rw [trace_adapter_added_adapters now2 _ ev h,
          trace_adapter_added_adapters now _ ev h]
      exact foldPush_idem _ _ _ _

/-- Trace-format registry event adding tools `a` and `b`. -/
def evTraceToolAddedAB : DevBusLogEvent :=
  { id := "e2", timestamp := 0, category := "trace",
    event_type := "registry:tool:added", log_prefix := "", scope_id := "sc",
    session_id := "unknown", request_id := "unknown",
    data := some (Json.obj
      [("entryNames", Json.arr [Json.str "a", Json.str "b"])]) }

/-- Store state already holding a tool named `a`. -/
def stateWithToolA : DashboardState :=
  { initState with tools :=
      [{ name := "a", description := none, input_schema := none,
         output_schema := none, owner_kind := none, owner_id := none }] }

theorem c1_trace_added_idempotent_witness :
    countName ToolInfo.name "a"
      (handle_unified_event 0 stateWithToolA
        (UnifiedEvent.LogTransport evTraceToolAddedAB)).tools =
      countName ToolInfo.name "a" stateWithToolA.tools ∧
    (handle_unified_event 1
        (handle_unified_event 0 stateWithToolA
          (UnifiedEvent.LogTransport evTraceToolAddedAB))
        (UnifiedEvent.LogTransport evTraceToolAddedAB)).tools =
      (handle_unified_event 0 stateWithToolA
        (UnifiedEvent.LogTransport evTraceToolAddedAB)).tools := by
  have h := (c1_trace_added_idempotent 0 1 stateWithToolA evTraceToolAddedAB rfl).1 rfl
  exact ⟨h.1 "a" (by decide), h.2⟩

-- ─────────────────────────────────────────────────────────────────────────
-- Claim C2: reset events replace the collection
-- ─────────────────────────────────────────────────────────────────────────

/-- Dispatch lemma for the legacy decode path. -/
theorem unified_legacy (now : Nat) (s : DashboardState) (e : DevEvent) :
    handle_unified_event now s (UnifiedEvent.Legacy e) = handle_event now s e := rfl

theorem trace_tool_reset_tools (now : Nat) (s : DashboardState)
    (ev : DevBusLogEvent) (h : ev.event_type = "registry:tool:reset") :
    (handle_trace_event now s ev).tools =
      foldPush (fun (t : ToolInfo) => t.name)
        (fun e => { name := e.name, description := e.description,
                    input_schema := e.input_schema, output_schema := none,
                    owner_kind := (extract_owner ev.data).map (·.1),
                    owner_id := (extract_owner ev.data).map (·.2) })
        [] (extract_tool_entries ev.data) := by
  simp [handle_trace_event, h, foldPush, apply_ite DashboardState.tools]

theorem trace_resource_reset_resources (now : Nat) (s : DashboardState)
    (ev : DevBusLogEvent) (h : ev.event_type = "registry:resource:reset") :
    (handle_trace_event now s ev).resources =
      foldPush (fun (r : ResourceInfo) => r.name)
        (fun name => { name := name, uri := none,
                       owner_kind := (extract_owner ev.data).map (·.1),
                       owner_id := (extract_owner ev.data).map (·.2) })
        [] (extract_entry_names ev.data) := by
  simp [handle_trace_event, h, foldPush, apply_ite DashboardState.resources]

theorem trace_prompt_reset_prompts (now : Nat) (s : DashboardState)
    (ev : DevBusLogEvent) (h : ev.event_type = "registry:prompt:reset") :
    (handle_trace_event now s ev).prompts =
      foldPush (fun (p : PromptInfo) => p.name)
        (fun name => { name := name,
                       owner_kind := (extract_owner ev.data).map (·.1),
                       owner_id := (extract_owner ev.data).map (·.2) })
        [] (extract_entry_names ev.data) := by
  simp [handle_trace_event, h, foldPush, apply_ite DashboardState.prompts]

theorem trace_plugin_reset_plugins (now : Nat) (s : DashboardState)
    (ev : DevBusLogEvent) (h : ev.event_type = "registry:plugin:reset") :
    (handle_trace_event now s ev).plugins =
      foldPush (fun (p : PluginInfo) => p.name)
        (fun e => { name := e.name, version := e.version,
                    owner_id := (extract_owner ev.data).map (·.2) })
        [] (extract_plugin_entries ev.data) := by
  simp [handle_trace_event, h, foldPush, apply_ite DashboardState.plugins]

theorem trace_adapter_reset_adapters (now : Nat) (s : DashboardState)
    (ev : DevBusLogEvent) (h : ev.event_type = "registry:adapter:reset") :
    (handle_trace_event now s ev).adapters =
      foldPush (fun (a : AdapterInfo) => a.name)
        (fun e => { name := e.name, description := e.description,
                    owner_id := (extract_owner ev.data).map (·.2) })
        [] (extract_adapter_entries ev.data) := by
  simp [handle_trace_event, h, foldPush, apply_ite DashboardState.adapters]

theorem legacy_tool_reset_tools (now : Nat) (s : DashboardState)
    (ev : RegistryEvent) (h : ev.event_type = RegistryEventType.ToolReset) :
    (handle_event now s (DevEvent.Registry ev)).tools =
      match ev.data.entries with
      | some entries => entries.map (fun entry =>
          { name := entry.name, description := entry.description,
            input_schema := entry.input_schema.map Json.render,
            output_schema := none,
            owner_kind := entry.owner.map (·.kind),
            owner_id := entry.owner.map (·.id) })
      | none => [] := by
  cases hE : ev.data.entries <;>
    simp [handle_event, handle_registry_event, h, hE]

theorem legacy_resource_reset_resources (now : Nat) (s : DashboardState)
    (ev : RegistryEvent) (h : ev.event_type = RegistryEventType.ResourceReset) :
    (handle_event now s (DevEvent.Registry ev)).resources =
      match ev.data.entries with
      | some entries => entries.map (fun entry =>
          { name := entry.name, uri := entry.uri,
            owner_kind := entry.owner.map (·.kind),
            owner_id := entry.owner.map (·.id) })
      | none => [] := by
  cases hE : ev.data.entries <;>
    simp [handle_event, handle_registry_event, h, hE]

theorem legacy_prompt_reset_prompts (now : Nat) (s : DashboardState)
    (ev : RegistryEvent) (h : ev.event_type = RegistryEventType.PromptReset) :
    (handle_event now s (DevEvent.Registry ev)).prompts =
      match ev.data.entries with
      | some entries => entries.map (fun entry =>
          { name := entry.name,
            owner_kind := entry.owner.map (·.kind),
            owner_id := entry.owner.map (·.id) })
      | none => [] := by
  cases hE : ev.data.entries <;>
    simp [handle_event, handle_registry_event, h, hE]

theorem legacy_plugin_reset_plugins (now : Nat) (s : DashboardState)
    (ev : RegistryEvent) (h : ev.event_type = RegistryEventType.PluginReset) :
    (handle_event now s (DevEvent.Registry ev)).plugins =
      match ev.data.entries with
      | some entries => entries.map (fun entry =>
          { name := entry.name, version := entry.version,
            owner_id := entry.owner.map (·.id) })
      | none => [] := by
  cases hE : ev.data.entries <;>
    simp [handle_event, handle_registry_event, h, hE]

theorem legacy_adapter_reset_adapters (now : Nat) (s : DashboardState)
    (ev : RegistryEvent) (h : ev.event_type = RegistryEventType.AdapterReset) :
    (handle_event now s (DevEvent.Registry ev)).adapters =
      match ev.data.entries with
      | some entries => entries.map (fun entry =>
          { name := entry.name, description := entry.description,
            owner_id := entry.owner.map (·.id) })
      | none => [] := by
  cases hE : ev.data.entries <;>
    simp [handle_event, handle_registry_event, h, hE]

/-- Legacy bare-name reset event: names `["a"]` but no rich entries. -/
def evToolResetBareA : DevEvent :=
  DevEvent.Registry
    { base := { id := "e3", timestamp := 0, scope_id := "sc",
                session_id := none, request_id := none },
      event_type := RegistryEventType.ToolReset,
      data := { registry_type := "tool", entry_names := some ["a"],
                change_kind := "reset", change_scope := "global" } }

/-- Store state already holding a tool named `x`. -/
def stateWithToolX : DashboardState :=
  { initState with tools :=
      [{ name := "x", description := none, input_schema := none,
         output_schema := none, owner_kind := none, owner_id := none }] }

/-- C2 counterexample: on the legacy decode path a bare-name reset
(names `["a"]`, no rich entries) leaves the tool collection empty — the
payload's names are not in the post-fold collection, contradicting the
claim that the collection contains exactly the reset payload's names. -/
theorem c2_counterexample :
    (handle_unified_event 0 stateWithToolX
      (UnifiedEvent.Legacy evToolResetBareA)).tools = [] ∧
    ¬ "a" ∈ ((handle_unified_event 0 stateWithToolX
      (UnifiedEvent.Legacy evToolResetBareA)).tools.map ToolInfo.name) := by
  exact ⟨rfl, by decide⟩

/-- C2 (amended): after a registry "reset" event the collection for the
kind is replaced independently of its prior contents — on the
trace-format path the post-fold collection carries exactly the payload's
names (rich or bare payload alike) for all five kinds, and on the legacy
path a rich reset replaces the collection with exactly the payload
entries in order; a legacy bare-name reset, however, clears the
collection entirely and does not re-add the payload's names
(see `c2_counterexample`). -/
theorem c2_reset_replaces (now : Nat) (s : DashboardState)
    (ev : DevBusLogEvent) (lev : RegistryEvent) (hcat : ev.category = "trace") :
    (ev.event_type = "registry:tool:reset" → ∀ n,
      n ∈ ((handle_unified_event now s (UnifiedEvent.LogTransport ev)).tools.map
            ToolInfo.name) ↔
        n ∈ (extract_tool_entries ev.data).map ParsedToolEntry.name) ∧
    (ev.event_type = "registry:resource:reset" → ∀ n,
      n ∈ ((handle_unified_event now s (UnifiedEvent.LogTransport ev)).resources.map
            ResourceInfo.name) ↔
        n ∈ extract_entry_names ev.data) ∧
    (ev.event_type = "registry:prompt:reset" → ∀ n,
      n ∈ ((handle_unified_event now s (UnifiedEvent.LogTransport ev)).prompts.map
            PromptInfo.name) ↔
        n ∈ extract_entry_names ev.data) ∧
    (ev.event_type = "registry:plugin:reset" → ∀ n,
      n ∈ ((handle_unified_event now s (UnifiedEvent.LogTransport ev)).plugins.map
            PluginInfo.name) ↔
        n ∈ (extract_plugin_entries ev.data).map ParsedPluginEntry.name) ∧
    (ev.event_type = "registry:adapter:reset" → ∀ n,
      n ∈ ((handle_unified_event now s (UnifiedEvent.LogTransport ev)).adapters.map
            AdapterInfo.name) ↔
        n ∈ (extract_adapter_entries ev.data).map ParsedAdapterEntry.name) ∧
    (∀ entries, lev.event_type = RegistryEventType.ToolReset →
      lev.data.entries = some entries →
      ((handle_unified_event now s (UnifiedEvent.Legacy (DevEvent.Registry lev))).tools.map
          ToolInfo.name) = entries.map RegistryEntryInfo.name) ∧
    (lev.event_type = RegistryEventType.ToolReset → lev.data.entries = none →
      (handle_unified_event now s
        (UnifiedEvent.Legacy (DevEvent.Registry lev))).tools = []) := by
  refine ⟨?_, ?_, ?_, ?_, ?_, ?_, ?_⟩
  · intro h n
    rw [unified_trace now s ev hcat, trace_tool_reset_tools now _ ev h]
    simpa using mem_map_foldPush (fun (t : ToolInfo) => t.name) _
      (extract_tool_entries ev.data) n []
  · intro h n
    rw [unified_trace now s ev hcat, trace_resource_reset_resources now _ ev h]
    simpa using mem_map_foldPush (fun (r : ResourceInfo) => r.name)
      (fun name => { name := name, uri := none,
                     owner_kind := (extract_owner ev.data).map (·.1),
                     owner_id := (extract_owner ev.data).map (·.2) })
      (extract_entry_names ev.data) n []
  · intro h n
    rw [unified_trace now s ev hcat, trace_prompt_reset_prompts now _ ev h]
    simpa using mem_map_foldPush (fun (p : PromptInfo) => p.name)
      (fun name => { name := name,
                     owner_kind := (extract_owner ev.data).map (·.1),
                     owner_id := (extract_owner ev.data).map (·.2) })
      (extract_entry_names ev.data) n []
  · intro h n
    rw [unified_trace now s ev hcat, trace_plugin_reset_plugins now _ ev h]
    simpa using mem_map_foldPush (fun (p : PluginInfo) => p.name) _
      (extract_plugin_entries ev.data) n []
  · intro h n
    rw [unified_trace now s ev hcat, trace_adapter_reset_adapters now _ ev h]
    simpa using mem_map_foldPush (fun (a : AdapterInfo) => a.name) _
      (extract_adapter_entries ev.data) n []
  · intro entries h hE
    rw [unified_legacy, legacy_tool_reset_tools now s lev h, hE]
    simp [List.map_map]
  · intro h hE
    rw [unified_legacy, legacy_tool_reset_tools now s lev h, hE]

/-- Trace-format bare-name reset with payload `["a"]`. -/
def evTraceToolResetA : DevBusLogEvent :=
  { id := "e4", timestamp := 0, category := "trace",
    event_type := "registry:tool:reset", log_prefix := "", scope_id := "sc",
    session_id := "unknown", request_id := "unknown",
    data := some (Json.obj [("entryNames", Json.arr [Json.str "a"])]) }

/-- Rich reset payload carrying one entry named `b`. -/
def richEntriesB : List RegistryEntryInfo := [{ name := "b" }]

/-- Legacy rich reset event carrying `richEntriesB`. -/
def regToolResetRichB : RegistryEvent :=
  { base := { id := "e5", timestamp := 0, scope_id := "sc",
              session_id := none, request_id := none },
    event_type := RegistryEventType.ToolReset,
    data := { registry_type := "tool", entry_names := none,
              change_kind := "reset", change_scope := "global",
              entries := some richEntriesB } }

/-- Legacy bare reset event with names `["a"]` and no entries. -/
def regToolResetBareA : RegistryEvent :=
  { base := { id := "e6", timestamp := 0, scope_id := "sc",
              session_id := none, request_id := none },
    event_type := RegistryEventType.ToolReset,
    data := { registry_type := "tool", entry_names := some ["a"],
              change_kind := "reset", change_scope := "global" } }

theorem c2_reset_replaces_witness :
    ("a" ∈ ((handle_unified_event 0 stateWithToolX
        (UnifiedEvent.LogTransport evTraceToolResetA)).tools.map ToolInfo.name) ↔
      "a" ∈ (extract_tool_entries evTraceToolResetA.data).map ParsedToolEntry.name) ∧
    ((handle_unified_event 0 stateWithToolX
        (UnifiedEvent.Legacy (DevEvent.Registry regToolResetRichB))).tools.map
          ToolInfo.name = richEntriesB.map RegistryEntryInfo.name) ∧
    ((handle_unified_event 0 stateWithToolX
        (UnifiedEvent.Legacy (DevEvent.Registry regToolResetBareA))).tools = []) := by
  refine ⟨?_, ?_, ?_⟩
  · exact (c2_reset_replaces 0 stateWithToolX evTraceToolResetA
      regToolResetRichB rfl).1 rfl "a"
  · exact (c2_reset_replaces 0 stateWithToolX evTraceToolResetA
      regToolResetRichB rfl).2.2.2.2.2.1 richEntriesB rfl rfl
  · exact (c2_reset_replaces 0 stateWithToolX evTraceToolResetA
      regToolResetBareA rfl).2.2.2.2.2.2 rfl rfl

-- ─────────────────────────────────────────────────────────────────────────
-- Claim C4: later request events override the stored entry name
-- ─────────────────────────────────────────────────────────────────────────

theorem find?_append_fresh (l1 : List ApiRequest) (r : ApiRequest) (rid : String)
    (h : ∀ x ∈ l1, ¬ x.id = rid) (hr : r.id = rid) :
    (l1 ++ [r]).find? (fun x => x.id == rid) = some r := by
  induction l1 with
  | nil => simp [List.find?, hr]
  | cons a l ih =>
      have ha : ¬ a.id = rid := h a (List.mem_cons_self a l)
      simp only [List.cons_append, List.find?]
      rw [show (a.id == rid) = false by simpa using ha]
      exact ih (fun x hx => h x (List.mem_cons_of_mem a hx))

theorem updateFirstRequest_append_fresh (l1 : List ApiRequest) (r : ApiRequest)
    (rid : String) (f : ApiRequest → ApiRequest)
    (h : ∀ x ∈ l1, ¬ x.id = rid) (hr : r.id = rid) :
    updateFirstRequest rid f (l1 ++ [r]) = l1 ++ [f r] := by
  induction l1 with
  | nil => simp [updateFirstRequest, hr]
  | cons a l ih =>
      have ha : (a.id == rid) = false := by
        simpa using h a (List.mem_cons_self a l)
      simp [List.cons_append, updateFirstRequest, ha,
        ih (fun x hx => h x (List.mem_cons_of_mem a hx))]

theorem trace_request_start_requests (now : Nat) (s : DashboardState)
    (ev : DevBusLogEvent) (h : ev.event_type = "request:start")
    (hrid : ¬ ev.request_id = "unknown") :
    (handle_trace_event now s ev).requests = s.requests ++
      [{ id := ev.request_id,
         flow_name := (getStr ev.data "flowName").getD "unknown",
         method := getStr ev.data "method",
         entry_name := getStr ev.data "entryName",
         started_at := ev.timestamp, duration_ms := none, is_error := false,
         error_message := none,
         session_id := if ev.session_id == "unknown" then none
           else some ev.session_id }] := by
  simp [handle_trace_event, h, hrid]

theorem trace_request_complete_requests (now : Nat) (s : DashboardState)
    (ev : DevBusLogEvent) (h : ev.event_type = "request:complete")
    (hrid : ¬ ev.request_id = "unknown") :
    (handle_trace_event now s ev).requests =
      match s.requests.find? (fun (r : ApiRequest) => r.id == ev.request_id) with
      | some _ => updateFirstRequest ev.request_id (completeUpd ev) s.requests
      | none => s.requests := by
  cases hF : s.requests.find? (fun (r : ApiRequest) => r.id == ev.request_id) with
  | none =>
      cases hT : getStr ev.data "entryName" <;>
        simp [handle_trace_event, h, hrid, hF, hT,
          apply_ite DashboardState.requests]
  | some req =>
      cases hT : getStr ev.data "entryName" with
      | some nm =>
          simp [handle_trace_event, h, hrid, hF, hT, completeUpd,
            apply_ite DashboardState.requests]
      | none =>
          cases hR : req.entry_name <;>
            simp [handle_trace_event, h, hrid, hF, hT, hR, completeUpd,
              apply_ite DashboardState.requests]

theorem trace_request_error_requests (now : Nat) (s : DashboardState)
    (ev : DevBusLogEvent) (h : ev.event_type = "request:error")
    (hrid : ¬ ev.request_id = "unknown") :
    (handle_trace_event now s ev).requests =
      match s.requests.find? (fun (r : ApiRequest) => r.id == ev.request_id) with
      | some _ => updateFirstRequest ev.request_id (errorUpd ev) s.requests
      | none => s.requests := by
  cases hF : s.requests.find? (fun (r : ApiRequest) => r.id == ev.request_id) with
  | none =>
      cases hT : getStr ev.data "entryName" <;>
        simp [handle_trace_event, h, hrid, hF, hT,
          apply_ite DashboardState.requests]
  | some req =>
      cases hT : getStr ev.data "entryName" with
      | some nm =>
          simp [handle_trace_event, h, hrid, hF, hT, errorUpd,
            apply_ite DashboardState.requests]
      | none =>
          cases hR : req.entry_name <;>
            simp [handle_trace_event, h, hrid, hF, hT, hR, errorUpd,
              apply_ite DashboardState.requests]

@[simp] theorem bump_requests (s : DashboardState) :
    ({ s with events_received := s.events_received + 1 } : DashboardState).requests
      = s.requests := rfl

theorem legacy_request_start_requests (now : Nat) (s : DashboardState)
    (ev : RequestEvent) (h : ev.event_type = RequestEventType.Start) :
    (handle_event now s (DevEvent.Request ev)).requests = s.requests ++
      [{ id := ev.base.request_id.getD "",
         flow_name := ev.data.flow_name,
         method := ev.data.method,
         entry_name := ev.data.entry_name,
         started_at := ev.base.timestamp, duration_ms := none,
         is_error := false, error_message := none,
         session_id := ev.base.session_id }] := by
  simp [handle_event, handle_request_event, h]

theorem legacy_request_complete_requests (now : Nat) (s : DashboardState)
    (ev : RequestEvent) (h : ev.event_type = RequestEventType.Complete)
    (rid : String) (hrid : ev.base.request_id = some rid) :
    (handle_event now s (DevEvent.Request ev)).requests =
      match s.requests.find? (fun (r : ApiRequest) => r.id == rid) with
      | some _ => updateFirstRequest rid (legacyCompleteUpd ev) s.requests
      | none => s.requests := by
  cases hF : s.requests.find? (fun (r : ApiRequest) => r.id == rid) with
  | none =>
      cases hT : ev.data.entry_name <;>
        simp [handle_event, handle_request_event, h, hrid, hF, hT,
          apply_ite DashboardState.requests]
  | some req =>
      cases hT : ev.data.entry_name with
      | some nm =>
          simp [handle_event, handle_request_event, h, hrid, hF, hT,
            legacyCompleteUpd, apply_ite DashboardState.requests]
      | none =>
          cases hR : req.entry_name <;>
            simp [handle_event, handle_request_event, h, hrid, hF, hT, hR,
              legacyCompleteUpd, apply_ite DashboardState.requests]

theorem legacy_request_error_requests (now : Nat) (s : DashboardState)
    (ev : RequestEvent) (h : ev.event_type = RequestEventType.Error)
    (rid : String) (hrid : ev.base.request_id = some rid) :
    (handle_event now s (DevEvent.Request ev)).requests =
      match s.requests.find? (fun (r : ApiRequest) => r.id == rid) with
      | some _ => updateFirstRequest rid (legacyErrorUpd ev) s.requests
      | none => s.requests := by
  cases hF : s.requests.find? (fun (r : ApiRequest) => r.id == rid) with
  | none =>
      cases hT : ev.data.entry_name <;>
        simp [handle_event, handle_request_event, h, hrid, hF, hT,
          apply_ite DashboardState.requests]
  | some req =>
      cases hT : ev.data.entry_name with
      | some nm =>
          simp [handle_event, handle_request_event, h, hrid, hF, hT,
            legacyErrorUpd, apply_ite DashboardState.requests]
      | none =>
          cases hR : req.entry_name <;>
            simp [handle_event, handle_request_event, h, hrid, hF, hT, hR,
              legacyErrorUpd, apply_ite DashboardState.requests]

/-- C4: for a request:start later matched by a request:complete or
request:error with the same (fresh) request id, the stored ApiRequest's
entry name after folding both events is the later event's entry name
when that event carries one, and otherwise the name recorded at start.
Stated for both the trace-format path and the legacy DevEvent path. -/
theorem c4_entry_name_later_wins (now1 now2 : Nat) (s : DashboardState)
    (rid : String) (hfresh : ∀ x ∈ s.requests, ¬ x.id = rid) :
    (∀ ev1 ev2 : DevBusLogEvent, ev1.category = "trace" → ev2.category = "trace" →
      ev1.event_type = "request:start" → ev1.request_id = rid →
      ev2.request_id = rid → ¬ rid = "unknown" →
      (ev2.event_type = "request:complete" →
        (((handle_unified_event now2
            (handle_unified_event now1 s (UnifiedEvent.LogTransport ev1))
            (UnifiedEvent.LogTransport ev2)).requests.find?
              (fun (r : ApiRequest) => r.id == rid)).map ApiRequest.entry_name) =
          some (if (getStr ev2.data "entryName").isSome then
              getStr ev2.data "entryName"
            else getStr ev1.data "entryName")) ∧
      (ev2.event_type = "request:error" →
        (((handle_unified_event now2
            (handle_unified_event now1 s (UnifiedEvent.LogTransport ev1))
            (UnifiedEvent.LogTransport ev2)).requests.find?
              (fun (r : ApiRequest) => r.id == rid)).map ApiRequest.entry_name) =
          some (if (getStr ev2.data "entryName").isSome then
              getStr ev2.data "entryName"
            else getStr ev1.data "entryName"))) ∧
    (∀ lev1 lev2 : RequestEvent,
      lev1.event_type = RequestEventType.Start →
      lev1.base.request_id = some rid → lev2.base.request_id = some rid →
      (lev2.event_type = RequestEventType.Complete →
        (((handle_unified_event now2
            (handle_unified_event now1 s (UnifiedEvent.Legacy (DevEvent.Request lev1)))
            (UnifiedEvent.Legacy (DevEvent.Request lev2))).requests.find?
              (fun (r : ApiRequest) => r.id == rid)).map ApiRequest.entry_name) =
          some (if lev2.data.entry_name.isSome then lev2.data.entry_name
            else lev1.data.entry_name)) ∧
      (lev2.event_type = RequestEventType.Error →
        (((handle_unified_event now2
            (handle_unified_event now1 s (UnifiedEvent.Legacy (DevEvent.Request lev1)))
            (UnifiedEvent.Legacy (DevEvent.Request lev2))).requests.find?
              (fun (r : ApiRequest) => r.id == rid)).map ApiRequest.entry_name) =
          some (if lev2.data.entry_name.isSome then lev2.data.entry_name
            else lev1.data.entry_name))) := by
  constructor
  · intro ev1 ev2 hcat1 hcat2 h1 hr1 hr2 hrid
    have hrid1 : ¬ ev1.request_id = "unknown" := by rw [hr1]; exact hrid
    have hrid2 : ¬ ev2.request_id = "unknown" := by rw [hr2]; exact hrid
    constructor
    · intro h2
      rw [unified_trace now1 s ev1 hcat1, unified_trace now2 _ ev2 hcat2,
          trace_request_complete_requests now2 _ ev2 h2 hrid2]
      have e1 : (handle_trace_event now1
          { s with events_received := s.events_received + 1 } ev1).requests =
          s.requests ++
          [{ id := ev1.request_id,
             flow_name := (getStr ev1.data "flowName").getD "unknown",
             method := getStr ev1.data "method",
             entry_name := getStr ev1.data "entryName",
             started_at := ev1.timestamp, duration_ms := none, is_error := false,
             error_message := none,
             session_id := if ev1.session_id == "unknown" then none
               else some ev1.session_id }] :=
        trace_request_start_requests now1 _ ev1 h1 hrid1
      simp only [bump_requests, e1]
      rw [hr1] at e1 ⊢
      rw [hr2]
      rw [find?_append_fresh s.requests _ rid hfresh rfl,
          updateFirstRequest_append_fresh s.requests _ rid _ hfresh rfl,
          find?_append_fresh s.requests _ rid hfresh rfl]
      simp [completeUpd]
    · intro h2
      rw [unified_trace now1 s ev1 hcat1, unified_trace now2 _ ev2 hcat2,
          trace_request_error_requests now2 _ ev2 h2 hrid2]
      have e1 : (handle_trace_event now1
          { s with events_received := s.events_received + 1 } ev1).requests =
          s.requests ++
          [{ id := ev1.request_id,
             flow_name := (getStr ev1.data "flowName").getD "unknown",
             method := getStr ev1.data "method",
             entry_name := getStr ev1.data "entryName",
             started_at := ev1.timestamp, duration_ms := none, is_error := false,
             error_message := none,
             session_id := if ev1.session_id == "unknown" then none
               else some ev1.session_id }] :=
        trace_request_start_requests now1 _ ev1 h1 hrid1
      simp only [bump_requests, e1]
      rw [hr1] at e1 ⊢
      rw [hr2]
      rw [find?_append_fresh s.requests _ rid hfresh rfl,
          updateFirstRequest_append_fresh s.requests _ rid _ hfresh rfl,
          find?_append_fresh s.requests _ rid hfresh rfl]
      simp [errorUpd]
  · intro lev1 lev2 h1 hr1 hr2
    constructor
    · intro h2
      rw [unified_legacy, unified_legacy,
          legacy_request_complete_requests now2 _ lev2 h2 rid hr2]
      have e1 : (handle_event now1 s (DevEvent.Request lev1)).requests =
          s.requests ++
          [{ id := lev1.base.request_id.getD "",
             flow_name := lev1.data.flow_name,
             method := lev1.data.method,
             entry_name := lev1.data.entry_name,
             started_at := lev1.base.timestamp, duration_ms := none,
             is_error := false, error_message := none,
             session_id := lev1.base.session_id }] :=
        legacy_request_start_requests now1 s lev1 h1
      simp only [e1]
      rw [hr1] at e1 ⊢
      rw [find?_append_fresh s.requests _ rid hfresh rfl,
          updateFirstRequest_append_fresh s.requests _ rid _ hfresh rfl,
          find?_append_fresh s.requests _ rid hfresh rfl]
      simp [legacyCompleteUpd]
    · intro h2
      rw [unified_legacy, unified_legacy,
          legacy_request_error_requests now2 _ lev2 h2 rid hr2]
      have e1 : (handle_event now1 s (DevEvent.Request lev1)).requests =
          s.requests ++
          [{ id := lev1.base.request_id.getD "",
             flow_name := lev1.data.flow_name,
             method := lev1.data.method,
             entry_name := lev1.data.entry_name,
             started_at := lev1.base.timestamp, duration_ms := none,
             is_error := false, error_message := none,
             session_id := lev1.base.session_id }] :=
        legacy_request_start_requests now1 s lev1 h1
      simp only [e1]
      rw [hr1] at e1 ⊢
      rw [find?_append_fresh s.requests _ rid hfresh rfl,
          updateFirstRequest_append_fresh s.requests _ rid _ hfresh rfl,
          find?_append_fresh s.requests _ rid hfresh rfl]
      simp [legacyErrorUpd]

/-- Trace request:start with id `r1` and no entry name. -/
def evTraceReqStart : DevBusLogEvent :=
  { id := "e7", timestamp := 0, category := "trace",
    event_type := "request:start", log_prefix := "", scope_id := "sc",
    session_id := "unknown", request_id := "r1",
    data := some (Json.obj [("flowName", Json.str "tools-call")]) }

/-- Trace request:complete with id `r1` carrying entry name `toolX`. -/
def evTraceReqComplete : DevBusLogEvent :=
  { id := "e8", timestamp := 1, category := "trace",
    event_type := "request:complete", log_prefix := "", scope_id := "sc",
    session_id := "unknown", request_id := "r1",
    data := some (Json.obj [("entryName", Json.str "toolX")]) }

theorem c4_entry_name_later_wins_witness :
    (((handle_unified_event 1 (handle_unified_event 0 initState
        (UnifiedEvent.LogTransport evTraceReqStart))
        (UnifiedEvent.LogTransport evTraceReqComplete)).requests.find?
          (fun (r : ApiRequest) => r.id == "r1")).map ApiRequest.entry_name) =
      some (if (getStr evTraceReqComplete.data "entryName").isSome then
          getStr evTraceReqComplete.data "entryName"
        else getStr evTraceReqStart.data "entryName") := by
  exact (((c4_entry_name_later_wins 0 1 initState "r1"
    (by intro x hx; cases hx)).1
    evTraceReqStart evTraceReqComplete rfl rfl rfl rfl rfl (by decide)).1 rfl)

-- ─────────────────────────────────────────────────────────────────────────
-- Claim C7: disconnect flips the active flag, never deletes
-- ─────────────────────────────────────────────────────────────────────────

theorem map_fst_adjustA {α : Type} (m : List (String × α)) (k : String)
    (f : α → α) : (adjustA m k f).map Prod.fst = m.map Prod.fst := by
  unfold adjustA
  rw [List.map_map]
  apply List.map_congr_left
  intro p _
  simp only [Function.comp]
  split <;> rfl

theorem length_adjustA {α : Type} (m : List (String × α)) (k : String)
    (f : α → α) : (adjustA m k f).length = m.length := by
  simp [adjustA]

theorem lookupA_adjustA_self {α : Type} (m : List (String × α)) (k : String)
    (f : α → α) : lookupA (adjustA m k f) k = (lookupA m k).map f := by
  induction m with
  | nil => rfl
  | cons p m ih =>
      by_cases hp : (p.1 == k) = true
      · have ha : adjustA (p :: m) k f = (p.1, f p.2) :: adjustA m k f := by
          unfold adjustA
          simp only [List.map_cons]
          rw [if_pos hp]
        rw [ha]
        simp [lookupA, List.find?, hp]
      · have hpb : (p.1 == k) = false := by simpa using hp
        have ha : adjustA (p :: m) k f = p :: adjustA m k f := by
          unfold adjustA
          simp only [List.map_cons]
          rw [if_neg hp]
        rw [ha]
        simp only [lookupA, List.find?, hpb]
        exact ih

theorem lookupA_insertA_self {α : Type} (m : List (String × α)) (k : String)
    (v : α) : lookupA (insertA m k v) k = some v := by
  unfold insertA
  by_cases h : (m.any (fun p => p.1 == k)) = true
  · rw [if_pos h]
    induction m with
    | nil => simp at h
    | cons p m ih =>
        by_cases hp : (p.1 == k) = true
        · simp only [List.map_cons]
          rw [if_pos hp]
          simp [lookupA, List.find?]
        · have hpb : (p.1 == k) = false := by simpa using hp
          simp only [List.any_cons, hpb, Bool.false_or] at h
          simp only [List.map_cons]
          rw [if_neg hp]
          simp only [lookupA, List.find?, hpb]
          exact ih h
  · rw [if_neg h]
    induction m with
    | nil => simp [lookupA, List.find?]
    | cons p m ih =>
        have h' := h
        simp only [List.any_cons, Bool.or_eq_true, not_or] at h'
        have hpb : (p.1 == k) = false := by
          cases hpk : (p.1 == k)
          · rfl
          · exact absurd hpk h'.1
        simp only [List.cons_append, lookupA, List.find?, hpb]
        exact ih (by simp [hpb, h'.2])

@[simp] theorem bump_sessions (s : DashboardState) :
    ({ s with events_received := s.events_received + 1 } : DashboardState).sessions
      = s.sessions := rfl

theorem trace_session_connect_sessions (now : Nat) (s : DashboardState)
    (ev : DevBusLogEvent) (h : ev.event_type = "session:connect")
    (hsid : ¬ ev.session_id = "unknown") :
    (handle_trace_event now s ev).sessions =
      insertA s.sessions ev.session_id
        { id := ev.session_id,
          transport_type := getStr ev.data "transportType",
          client_name := none, client_version := none, user_agent := none,
          connected_at := ev.timestamp, is_active := true,
          auth_mode := getStr ev.data "authMode",
          auth_user_name := ((ev.data.bind (fun d => d.get? "authUser")).bind
            (fun u => u.get? "name")).bind Json.as_str,
          auth_user_email := ((ev.data.bind (fun d => d.get? "authUser")).bind
            (fun u => u.get? "email")).bind Json.as_str,
          is_anonymous := getBool ev.data "isAnonymous" } := by
  simp [handle_trace_event, h, hsid]

theorem trace_session_disconnect_sessions (now : Nat) (s : DashboardState)
    (ev : DevBusLogEvent) (h : ev.event_type = "session:disconnect") :
    (handle_trace_event now s ev).sessions =
      if ev.session_id == "unknown" then s.sessions
      else adjustA s.sessions ev.session_id
        (fun session => { session with is_active := false }) := by
  by_cases hsid : (ev.session_id == "unknown") = true
  · rw [if_pos hsid]
    simp [handle_trace_event, h, beq_iff_eq.mp hsid]
  · rw [if_neg hsid]
    have hs : ¬ ev.session_id = "unknown" := by simpa using hsid
    simp [handle_trace_event, h, hs]

theorem legacy_session_connect_sessions (now : Nat) (s : DashboardState)
    (ev : SessionEvent) (h : ev.event_type = SessionEventType.Connect) :
    (handle_event now s (DevEvent.Session ev)).sessions =
      insertA s.sessions ev.data.session_id
        { id := ev.data.session_id,
          transport_type := ev.data.transport_type,
          client_name := ev.data.client_info.map (·.name),
          client_version := ev.data.client_info.map (·.version),
          user_agent := none,
          connected_at := ev.base.timestamp, is_active := true,
          auth_mode := ev.data.auth_mode,
          auth_user_name := ev.data.auth_user.bind (·.name),
          auth_user_email := ev.data.auth_user.bind (·.email),
          is_anonymous := ev.data.is_anonymous } := by
  simp [handle_event, handle_session_event, h]

theorem legacy_session_disconnect_sessions (now : Nat) (s : DashboardState)
    (ev : SessionEvent) (h : ev.event_type = SessionEventType.Disconnect) :
    (handle_event now s (DevEvent.Session ev)).sessions =
      adjustA s.sessions ev.data.session_id
        (fun session => { session with is_active := false }) := by
  simp [handle_event, handle_session_event, h]

/-- C7: folding session:connect for `sid` and then session:disconnect in
the same session context leaves session `sid` present with
`is_active = false`; more generally a disconnect only rewrites the
matching session's active flag in place, never removes a session, and
leaves the session count and key set unchanged.  Stated for both decode
paths. -/
theorem c7_disconnect_never_deletes (now1 now2 : Nat) (s : DashboardState)
    (sid : String) :
    (∀ ev1 ev2 : DevBusLogEvent, ev1.category = "trace" → ev2.category = "trace" →
      ev1.event_type = "session:connect" → ev2.event_type = "session:disconnect" →
      ev1.session_id = sid → ev2.session_id = sid → ¬ sid = "unknown" →
      (∃ info : SessionInfo,
        lookupA (handle_unified_event now2
          (handle_unified_event now1 s (UnifiedEvent.LogTransport ev1))
          (UnifiedEvent.LogTransport ev2)).sessions sid = some info ∧
        info.is_active = false) ∧
      ((handle_unified_event now2
          (handle_unified_event now1 s (UnifiedEvent.LogTransport ev1))
          (UnifiedEvent.LogTransport ev2)).sessions.map Prod.fst =
        (handle_unified_event now1 s (UnifiedEvent.LogTransport ev1)).sessions.map
          Prod.fst) ∧
      ((handle_unified_event now2
          (handle_unified_event now1 s (UnifiedEvent.LogTransport ev1))
          (UnifiedEvent.LogTransport ev2)).sessions.length =
        (handle_unified_event now1 s (UnifiedEvent.LogTransport ev1)).sessions.length)) ∧
    (∀ ev : DevBusLogEvent, ev.category = "trace" →
      ev.event_type = "session:disconnect" →
      ((handle_unified_event now2 s (UnifiedEvent.LogTransport ev)).sessions.map
          Prod.fst = s.sessions.map Prod.fst) ∧
      ((handle_unified_event now2 s (UnifiedEvent.LogTransport ev)).sessions.length
        = s.sessions.length)) ∧
    (∀ lev1 lev2 : SessionEvent,
      lev1.event_type = SessionEventType.Connect →
      lev2.event_type = SessionEventType.Disconnect →
      lev1.data.session_id = sid → lev2.data.session_id = sid →
      (∃ info : SessionInfo,
        lookupA (handle_unified_event now2
          (handle_unified_event now1 s (UnifiedEvent.Legacy (DevEvent.Session lev1)))
          (UnifiedEvent.Legacy (DevEvent.Session lev2))).sessions sid = some info ∧
        info.is_active = false) ∧
      ((handle_unified_event now2
          (handle_unified_event now1 s (UnifiedEvent.Legacy (DevEvent.Session lev1)))
          (UnifiedEvent.Legacy (DevEvent.Session lev2))).sessions.length =
        (handle_unified_event now1 s
          (UnifiedEvent.Legacy (DevEvent.Session lev1))).sessions.length)) ∧
    (∀ lev : SessionEvent, lev.event_type = SessionEventType.Disconnect →
      ((handle_unified_event now2 s
          (UnifiedEvent.Legacy (DevEvent.Session lev))).sessions.map Prod.fst =
        s.sessions.map Prod.fst) ∧
      ((handle_unified_event now2 s
          (UnifiedEvent.Legacy (DevEvent.Session lev))).sessions.length =
        s.sessions.length)) := by
  refine ⟨?_, ?_, ?_, ?_⟩
  · intro ev1 ev2 hcat1 hcat2 h1 h2 hs1 hs2 hsid
    have hsid1 : ¬ ev1.session_id = "unknown" := by rw [hs1]; exact hsid
    have e2 : (handle_unified_event now2
        (handle_unified_event now1 s (UnifiedEvent.LogTransport ev1))
        (UnifiedEvent.LogTransport ev2)).sessions =
        adjustA (handle_unified_event now1 s
          (UnifiedEvent.LogTransport ev1)).sessions sid
          (fun session => { session with is_active := false }) := by
      rw [unified_trace now2 _ ev2 hcat2,
          trace_session_disconnect_sessions now2 _ ev2 h2, hs2]
      rw [if_neg (by simpa using hsid)]
    refine ⟨?_, ?_, ?_⟩
    · rw [e2, lookupA_adjustA_self]
      rw [unified_trace now1 s ev1 hcat1,
          trace_session_connect_sessions now1 _ ev1 h1 hsid1, hs1,
          lookupA_insertA_self]
      exact ⟨_, rfl, rfl⟩
    · rw [e2, map_fst_adjustA]
    · rw [e2, length_adjustA]
  · intro ev hcat h
    have e2 : (handle_unified_event now2 s
        (UnifiedEvent.LogTransport ev)).sessions =
        if ev.session_id == "unknown" then s.sessions
        else adjustA s.sessions ev.session_id
          (fun session => { session with is_active := false }) := by
      rw [unified_trace now2 s ev hcat,
          trace_session_disconnect_sessions now2 _ ev h]
    by_cases hu : (ev.session_id == "unknown") = true
    · rw [e2, if_pos hu]; exact ⟨rfl, rfl⟩
    · rw [e2, if_neg hu]
      exact ⟨map_fst_adjustA _ _ _, length_adjustA _ _ _⟩
  · intro lev1 lev2 h1 h2 hs1 hs2
    have e2 : (handle_unified_event now2
        (handle_unified_event now1 s (UnifiedEvent.Legacy (DevEvent.Session lev1)))
        (UnifiedEvent.Legacy (DevEvent.Session lev2))).sessions =
        adjustA (handle_unified_event now1 s
          (UnifiedEvent.Legacy (DevEvent.Session lev1))).sessions sid
          (fun session => { session with is_active := false }) := by
      rw [unified_legacy, legacy_session_disconnect_sessions now2 _ lev2 h2, hs2]
    refine ⟨?_, ?_⟩
    · rw [e2, lookupA_adjustA_self]
      rw [unified_legacy, legacy_session_connect_sessions now1 s lev1 h1, hs1,
          lookupA_insertA_self]
      exact ⟨_, rfl, rfl⟩
    · rw [e2, length_adjustA]
  · intro lev h
    have e2 : (handle_unified_event now2 s
        (UnifiedEvent.Legacy (DevEvent.Session lev))).sessions =
        adjustA s.sessions lev.data.session_id
          (fun session => { session with is_active := false }) := by
      rw [unified_legacy, legacy_session_disconnect_sessions now2 s lev h]
    rw [e2]
    exact ⟨map_fst_adjustA _ _ _, length_adjustA _ _ _⟩

/-- Trace session:connect for session `s1`. -/
def evTraceConnectS1 : DevBusLogEvent :=
  { id := "e9", timestamp := 0, category := "trace",
    event_type := "session:connect", log_prefix := "", scope_id := "sc",
    session_id := "s1", request_id := "unknown", data := none }

/-- Trace session:disconnect in the same session context. -/
def evTraceDisconnectS1 : DevBusLogEvent :=
  { id := "e10", timestamp := 1, category := "trace",
    event_type := "session:disconnect", log_prefix := "", scope_id := "sc",
    session_id := "s1", request_id := "unknown", data := none }

theorem c7_disconnect_never_deletes_witness :
    (∃ info : SessionInfo,
      lookupA (handle_unified_event 1 (handle_unified_event 0 initState
          (UnifiedEvent.LogTransport evTraceConnectS1))
          (UnifiedEvent.LogTransport evTraceDisconnectS1)).sessions "s1" =
        some info ∧ info.is_active = false) ∧
    ((handle_unified_event 1 (handle_unified_event 0 initState
        (UnifiedEvent.LogTransport evTraceConnectS1))
        (UnifiedEvent.LogTransport evTraceDisconnectS1)).sessions.length =
      (handle_unified_event 0 initState
        (UnifiedEvent.LogTransport evTraceConnectS1)).sessions.length) := by
  have h := (c7_disconnect_never_deletes 0 1 initState "s1").1
    evTraceConnectS1 evTraceDisconnectS1 rfl rfl rfl rfl rfl rfl (by decide)
  exact ⟨h.1, h.2.2⟩

-- ─────────────────────────────────────────────────────────────────────────
-- Claim C8: unmatched complete/error never inserts a request
-- ─────────────────────────────────────────────────────────────────────────

theorem trace_request_complete_requests_unknown (now : Nat) (s : DashboardState)
    (ev : DevBusLogEvent) (h : ev.event_type = "request:complete")
    (hrid : ev.request_id = "unknown") :
    (handle_trace_event now s ev).requests = s.requests := by
  cases hT : getStr ev.data "entryName" <;>
    simp [handle_trace_event, h, hrid, hT, apply_ite DashboardState.requests]

theorem trace_request_error_requests_unknown (now : Nat) (s : DashboardState)
    (ev : DevBusLogEvent) (h : ev.event_type = "request:error")
    (hrid : ev.request_id = "unknown") :
    (handle_trace_event now s ev).requests = s.requests := by
  cases hT : getStr ev.data "entryName" <;>
    simp [handle_trace_event, h, hrid, hT, apply_ite DashboardState.requests]

theorem legacy_request_complete_requests_none (now : Nat) (s : DashboardState)
    (ev : RequestEvent) (h : ev.event_type = RequestEventType.Complete)
    (hrid : ev.base.request_id = none) :
    (handle_event now s (DevEvent.Request ev)).requests = s.requests := by
  cases hT : ev.data.entry_name <;>
    simp [handle_event, handle_request_event, h, hrid, hT,
      apply_ite DashboardState.requests]

theorem legacy_request_error_requests_none (now : Nat) (s : DashboardState)
    (ev : RequestEvent) (h : ev.event_type = RequestEventType.Error)
    (hrid : ev.base.request_id = none) :
    (handle_event now s (DevEvent.Request ev)).requests = s.requests := by
  cases hT : ev.data.entry_name <;>
    simp [handle_event, handle_request_event, h, hrid, hT,
      apply_ite DashboardState.requests]

/-- C8: folding a request:complete or request:error whose request id
matches no stored ApiRequest (including an absent/unknown id) leaves the
requests collection identical — no record is retroactively inserted.
Stated for both decode paths. -/
theorem c8_unmatched_completion_inserts_nothing (now : Nat) (s : DashboardState) :
    (∀ ev : DevBusLogEvent, ev.category = "trace" →
      (ev.event_type = "request:complete" ∨ ev.event_type = "request:error") →
      (∀ x ∈ s.requests, ¬ x.id = ev.request_id) →
      (handle_unified_event now s (UnifiedEvent.LogTransport ev)).requests =
        s.requests) ∧
    (∀ lev : RequestEvent,
      (lev.event_type = RequestEventType.Complete ∨
        lev.event_type = RequestEventType.Error) →
      (∀ rid, lev.base.request_id = some rid →
        ∀ x ∈ s.requests, ¬ x.id = rid) →
      (handle_unified_event now s
        (UnifiedEvent.Legacy (DevEvent.Request lev))).requests = s.requests) := by
  constructor
  · intro ev hcat htype hfresh
    rw [unified_trace now s ev hcat]
    have hnone : s.requests.find? (fun (r : ApiRequest) => r.id == ev.request_id)
        = none :=
      List.find?_eq_none.mpr (fun x hx => by simpa using hfresh x hx)
    by_cases hu : ev.request_id = "unknown"
    · cases htype with
      | inl h => exact trace_request_complete_requests_unknown now _ ev h hu
      | inr h => exact trace_request_error_requests_unknown now _ ev h hu
    · cases htype with
      | inl h =>
          rw [trace_request_complete_requests now _ ev h hu]
          simp only [bump_requests, hnone]
      | inr h =>
          rw [trace_request_error_requests now _ ev h hu]
          simp only [bump_requests, hnone]
  · intro lev htype hfresh
    rw [unified_legacy]
    cases hrid : lev.base.request_id with
    | none =>
        cases htype with
        | inl h => exact legacy_request_complete_requests_none now s lev h hrid
        | inr h => exact legacy_request_error_requests_none now s lev h hrid
    | some rid =>
        have hnone : s.requests.find? (fun (r : ApiRequest) => r.id == rid)
            = none :=
          List.find?_eq_none.mpr
            (fun x hx => by simpa using hfresh rid hrid x hx)
        cases htype with
        | inl h =>
            rw [legacy_request_complete_requests now s lev h rid hrid, hnone]
        | inr h =>
            rw [legacy_request_error_requests now s lev h rid hrid, hnone]

/-- Trace request:complete whose id `r9` matches nothing. -/
def evTraceOrphanComplete : DevBusLogEvent :=
  { id := "e11", timestamp := 0, category := "trace",
    event_type := "request:complete", log_prefix := "", scope_id := "sc",
    session_id := "unknown", request_id := "r9",
    data := some (Json.obj [("flowName", Json.str "tools-call"),
                            ("entryName", Json.str "toolY")]) }

theorem c8_unmatched_completion_inserts_nothing_witness :
    (handle_unified_event 0 stateWithToolA
      (UnifiedEvent.LogTransport evTraceOrphanComplete)).requests =
      stateWithToolA.requests := by
  exact (c8_unmatched_completion_inserts_nothing 0 stateWithToolA).1
    evTraceOrphanComplete rfl (Or.inl rfl) (by intro x hx; cases hx)

-- ─────────────────────────────────────────────────────────────────────────
-- Claim C5: the distinct-app count never desynchronises
-- ─────────────────────────────────────────────────────────────────────────

/-- The C5 invariant: the overview's `registered_apps` equals the number
of distinct `"app"`-kind owner ids across the current tools and
resources. -/
def RegistryInv (s : DashboardState) : Prop :=
  s.overview.registered_apps = (appOwnerIds s.tools s.resources).length

theorem registryInv_update (s : DashboardState) :
    RegistryInv (update_overview_registry s) := rfl

theorem recompute_same {s : DashboardState} (h : RegistryInv s) :
    (update_overview_registry s).overview.registered_apps =
      s.overview.registered_apps := h.symm

/-- The registry event-type strings of the trace format that mutate a
collection (added/removed/reset; "updated" is log-only). -/
def registryMutationTypes : List String :=
  ["registry:tool:added", "registry:tool:reset", "registry:tool:removed",
   "registry:resource:added", "registry:resource:reset", "registry:resource:removed",
   "registry:prompt:added", "registry:prompt:reset", "registry:prompt:removed",
   "registry:plugin:added", "registry:plugin:reset", "registry:plugin:removed",
   "registry:adapter:added", "registry:adapter:reset", "registry:adapter:removed"]

theorem registryInv_trace_mut (now : Nat) (s : DashboardState)
    (ev : DevBusLogEvent) (h : ev.event_type ∈ registryMutationTypes) :
    RegistryInv (handle_trace_event now s ev) := by
  have h' : ev.event_type = "registry:tool:added" ∨
      ev.event_type = "registry:tool:reset" ∨
      ev.event_type = "registry:tool:removed" ∨
      ev.event_type = "registry:resource:added" ∨
      ev.event_type = "registry:resource:reset" ∨
      ev.event_type = "registry:resource:removed" ∨
      ev.event_type = "registry:prompt:added" ∨
      ev.event_type = "registry:prompt:reset" ∨
      ev.event_type = "registry:prompt:removed" ∨
      ev.event_type = "registry:plugin:added" ∨
      ev.event_type = "registry:plugin:reset" ∨
      ev.event_type = "registry:plugin:removed" ∨
      ev.event_type = "registry:adapter:added" ∨
      ev.event_type = "registry:adapter:reset" ∨
      ev.event_type = "registry:adapter:removed" := by
    simpa [registryMutationTypes] using h
  rcases h' with h | h | h | h | h | h | h | h | h | h | h | h | h | h | h <;>
    simp [RegistryInv, handle_trace_event, h, update_overview_registry,
      apply_ite DashboardState.tools, apply_ite DashboardState.resources]

theorem legacy_registry_fold_is_recompute (now : Nat) (s : DashboardState)
    (ev : RegistryEvent) :
    ∃ s', handle_event now s (DevEvent.Registry ev) = update_overview_registry s' :=
  ⟨_, rfl⟩

/-- C5: after folding any legacy registry event, any trace-format
registry mutation (added/removed/reset), or a state snapshot, the
overview's `registered_apps` equals the number of distinct `"app"`-kind
owner ids across the current tools and resources; recomputing the
overview again without folding anything yields the same value. -/
theorem c5_registered_apps_synchronised (now : Nat) (s : DashboardState) :
    (∀ ev : RegistryEvent,
      RegistryInv (handle_unified_event now s
        (UnifiedEvent.Legacy (DevEvent.Registry ev))) ∧
      (update_overview_registry (handle_unified_event now s
        (UnifiedEvent.Legacy (DevEvent.Registry ev)))).overview.registered_apps =
        (handle_unified_event now s
          (UnifiedEvent.Legacy (DevEvent.Registry ev))).overview.registered_apps) ∧
    (∀ ev : DevBusLogEvent, ev.category = "trace" →
      ev.event_type ∈ registryMutationTypes →
      RegistryInv (handle_unified_event now s (UnifiedEvent.LogTransport ev)) ∧
      (update_overview_registry (handle_unified_event now s
        (UnifiedEvent.LogTransport ev))).overview.registered_apps =
        (handle_unified_event now s
          (UnifiedEvent.LogTransport ev)).overview.registered_apps) ∧
    (∀ snap : StateSnapshot,
      RegistryInv (handle_state_snapshot now s snap) ∧
      (update_overview_registry
        (handle_state_snapshot now s snap)).overview.registered_apps =
        (handle_state_snapshot now s snap).overview.registered_apps) := by
  refine ⟨?_, ?_, ?_⟩
  · intro ev
    obtain ⟨s', hs'⟩ := legacy_registry_fold_is_recompute now s ev
    have hinv : RegistryInv (handle_unified_event now s
        (UnifiedEvent.Legacy (DevEvent.Registry ev))) := by
      rw [unified_legacy]
      show RegistryInv (handle_event now s (DevEvent.Registry ev))
      have : handle_event now s (DevEvent.Registry ev) =
          update_overview_registry s' := hs'
      rw [this]
      exact registryInv_update s'
    exact ⟨hinv, recompute_same hinv⟩
  · intro ev hcat htype
    have hinv : RegistryInv (handle_unified_event now s
        (UnifiedEvent.LogTransport ev)) := by
      rw [unified_trace now s ev hcat]
      exact registryInv_trace_mut now _ ev htype
    exact ⟨hinv, recompute_same hinv⟩
  · intro snap
    have hinv : RegistryInv (handle_state_snapshot now s snap) := by
      unfold handle_state_snapshot RegistryInv
      simp [update_overview_registry]
    exact ⟨hinv, recompute_same hinv⟩

/-- Trace registry event adding a tool owned by app `appZ`. -/
def evTraceToolAddedOwned : DevBusLogEvent :=
  { id := "e12", timestamp := 0, category := "trace",
    event_type := "registry:tool:added", log_prefix := "", scope_id := "sc",
    session_id := "unknown", request_id := "unknown",
    data := some (Json.obj
      [("entryNames", Json.arr [Json.str "t9"]),
       ("owner", Json.obj [("kind", Json.str "app"), ("id", Json.str "appZ")])]) }

/-- Snapshot with one scope holding one app-owned tool. -/
def snapC5 : StateSnapshot :=
  { scopes := [
      { id := "sA",
        tools := [{ name := "t1", description := none,
                    owner := some { kind := "app", id := "appA" } }] } ],
    sessions := [],
    server := { name := "srv", version := "1" } }

theorem c5_registered_apps_synchronised_witness :
    RegistryInv (handle_unified_event 0 initState
      (UnifiedEvent.LogTransport evTraceToolAddedOwned)) ∧
    RegistryInv (handle_state_snapshot 0 initState snapC5) := by
  exact ⟨((c5_registered_apps_synchronised 0 initState).2.1
      evTraceToolAddedOwned rfl (by decide)).1,
    ((c5_registered_apps_synchronised 0 initState).2.2 snapC5).1⟩

-- ─────────────────────────────────────────────────────────────────────────
-- Claim C10: graph_tree_len versus build_graph_nodes
-- ─────────────────────────────────────────────────────────────────────────

/-- Snapshot exhibiting the C10 divergence: two scopes; scope `s1`
carries one tool owned by app `a1` (with `a1 ≠ s1`, which populates the
`app_scope_map` side table); nothing is expanded. -/
def snapC10 : StateSnapshot :=
  { scopes := [
      { id := "s1",
        tools := [{ name := "t1", description := none,
                    owner := some { kind := "app", id := "a1" } }] },
      { id := "s2" } ],
    sessions := [],
    server := { name := "srv", version := "1" } }

/-- The store state reached by folding `snapC10` into the initial state. -/
def stateC10 : DashboardState := applyOps initState [Op.snapshot 0 snapC10]

/-- C10: on the reachable state `stateC10` the store-side count
`graph_tree_len` returns 5 — it treats app `a1` as an orphan (one
`Direct` header plus one app node) because it never consults
`app_scope_map` — while the renderer's `build_graph_nodes` produces only
3 nodes (server plus two collapsed scopes), placing `a1` under the
collapsed scope `s1` via `app_scope_map`.  The two computations the
claim asserts equal therefore differ on a reachable state, contradicting
the source comment that `graph_tree_len` "must match the logic in
graph.rs build_graph_nodes()". -/
theorem c10_graph_tree_len_mismatch :
    graph_tree_len stateC10 = 5 ∧ (build_graph_nodes stateC10).length = 3 := by
  exact ⟨rfl, rfl⟩

-- ─────────────────────────────────────────────────────────────────────────
-- C3: a state snapshot replaces the registry collections wholesale
-- ─────────────────────────────────────────────────────────────────────────

theorem foldl_fix {σ : Type} {α : Type} {β : Type} (P : σ → β) (g : σ → α → σ)
    (h : ∀ a x, P (g a x) = P a) :
    ∀ (l : List α) (a : σ), P (l.foldl g a) = P a := by
  intro l
  induction l with
  | nil => intro a; rfl
  | cons x xs ih => intro a; rw [List.foldl_cons, ih, h]

theorem foldl_append1 {σ : Type} {α : Type} {β : Type} (P : σ → List β)
    (g : σ → α → σ) (f : α → β)
    (h : ∀ a x, P (g a x) = P a ++ [f x]) :
    ∀ (l : List α) (a : σ), P (l.foldl g a) = P a ++ l.map f := by
  intro l
  induction l with
  | nil => intro a; simp
  | cons x xs ih => intro a; rw [List.foldl_cons, ih, h]; simp

theorem foldl_appendF {σ : Type} {α : Type} {β : Type} (P : σ → List β)
    (g : σ → α → σ) (F : α → List β)
    (h : ∀ a x, P (g a x) = P a ++ F x) :
    ∀ (l : List α) (a : σ), P (l.foldl g a) = P a ++ l.flatMap F := by
  intro l
  induction l with
  | nil => intro a; simp
  | cons x xs ih => intro a; rw [List.foldl_cons, ih, h]; simp

theorem snapToolStep_fields (scope : ScopeState) (a : DashboardState)
    (t : SnapToolInfo) :
    (snapToolStep scope a t).tools = a.tools ++ [toolInfoOfSnap scope t] ∧
    (snapToolStep scope a t).resources = a.resources ∧
    (snapToolStep scope a t).prompts = a.prompts ∧
    (snapToolStep scope a t).plugins = a.plugins ∧
    (snapToolStep scope a t).adapters = a.adapters ∧
    (snapToolStep scope a t).scopes = a.scopes := by
  cases ht : t.owner with
  | none => simp [snapToolStep, toolInfoOfSnap, ht]
  | some o =>
      refine ⟨?_, ?_, ?_, ?_, ?_, ?_⟩ <;>
        (simp only [snapToolStep, toolInfoOfSnap, ht]; split <;> rfl)

theorem snapResourceStep_fields (scope : ScopeState) (a : DashboardState)
    (r : SnapResourceInfo) :
    (snapResourceStep scope a r).resources = a.resources ++ [resourceInfoOfSnap scope r] ∧
    (snapResourceStep scope a r).tools = a.tools ∧
    (snapResourceStep scope a r).prompts = a.prompts ∧
    (snapResourceStep scope a r).plugins = a.plugins ∧
    (snapResourceStep scope a r).adapters = a.adapters ∧
    (snapResourceStep scope a r).scopes = a.scopes := by
  cases hr : r.owner with
  | none => simp [snapResourceStep, resourceInfoOfSnap, hr]
  | some o =>
      refine ⟨?_, ?_, ?_, ?_, ?_, ?_⟩ <;>
        (simp only [snapResourceStep, resourceInfoOfSnap, hr]; split <;> rfl)

theorem snapPromptStep_fields (scope : ScopeState) (a : DashboardState)
    (p : SnapPromptInfo) :
    (snapPromptStep scope a p).prompts = a.prompts ++ [promptInfoOfSnap scope p] ∧
    (snapPromptStep scope a p).tools = a.tools ∧
    (snapPromptStep scope a p).resources = a.resources ∧
    (snapPromptStep scope a p).plugins = a.plugins ∧
    (snapPromptStep scope a p).adapters = a.adapters ∧
    (snapPromptStep scope a p).scopes = a.scopes := by
  cases hp : p.owner with
  | none => simp [snapPromptStep, promptInfoOfSnap, hp]
  | some o =>
      refine ⟨?_, ?_, ?_, ?_, ?_, ?_⟩ <;>
        (simp only [snapPromptStep, promptInfoOfSnap, hp]; split <;> rfl)

theorem snapPluginStep_fields (scope : ScopeState) (a : DashboardState)
    (p : PluginInfoSnapshot) :
    (snapPluginStep scope a p).plugins = a.plugins ++ [pluginInfoOfSnap p] ∧
    (snapPluginStep scope a p).tools = a.tools ∧
    (snapPluginStep scope a p).resources = a.resources ∧
    (snapPluginStep scope a p).prompts = a.prompts ∧
    (snapPluginStep scope a p).adapters = a.adapters ∧
    (snapPluginStep scope a p).scopes = a.scopes := by
  cases hp : p.owner with
  | none => simp [snapPluginStep, pluginInfoOfSnap, hp]
  | some o =>
      refine ⟨?_, ?_, ?_, ?_, ?_, ?_⟩ <;>
        (simp only [snapPluginStep, pluginInfoOfSnap, hp]; split <;> rfl)

theorem snapAdapterStep_fields (scope : ScopeState) (a : DashboardState)
    (ad : AdapterInfoSnapshot) :
    (snapAdapterStep scope a ad).adapters = a.adapters ++ [adapterInfoOfSnap ad] ∧
    (snapAdapterStep scope a ad).tools = a.tools ∧
    (snapAdapterStep scope a ad).resources = a.resources ∧
    (snapAdapterStep scope a ad).prompts = a.prompts ∧
    (snapAdapterStep scope a ad).plugins = a.plugins ∧
    (snapAdapterStep scope a ad).scopes = a.scopes := by
  cases ha : ad.owner with
  | none => simp [snapAdapterStep, adapterInfoOfSnap, ha]
  | some o =>
      refine ⟨?_, ?_, ?_, ?_, ?_, ?_⟩ <;>
        (simp only [snapAdapterStep, adapterInfoOfSnap, ha]; split <;> rfl)

@[simp] theorem toolsFold_tools (scope : ScopeState) (l : List SnapToolInfo)
    (a : DashboardState) :
    (l.foldl (snapToolStep scope) a).tools = a.tools ++ l.map (toolInfoOfSnap scope) :=
  foldl_append1 (fun s => s.tools) (snapToolStep scope) (toolInfoOfSnap scope)
    (fun a t => (snapToolStep_fields scope a t).1) l a

@[simp] theorem toolsFold_resources (scope : ScopeState) (l : List SnapToolInfo)
    (a : DashboardState) :
    (l.foldl (snapToolStep scope) a).resources = a.resources :=
  foldl_fix (fun s => s.resources) (snapToolStep scope)
    (fun a t => (snapToolStep_fields scope a t).2.1) l a

@[simp] theorem toolsFold_prompts (scope : ScopeState) (l : List SnapToolInfo)
    (a : DashboardState) :
    (l.foldl (snapToolStep scope) a).prompts = a.prompts :=
  foldl_fix (fun s => s.prompts) (snapToolStep scope)
    (fun a t => (snapToolStep_fields scope a t).2.2.1) l a

@[simp] theorem toolsFold_plugins (scope : ScopeState) (l : List SnapToolInfo)
    (a : DashboardState) :
    (l.foldl (snapToolStep scope) a).plugins = a.plugins :=
  foldl_fix (fun s => s.plugins) (snapToolStep scope)
    (fun a t => (snapToolStep_fields scope a t).2.2.2.1) l a

@[simp] theorem toolsFold_adapters (scope : ScopeState) (l : List SnapToolInfo)
    (a : DashboardState) :
    (l.foldl (snapToolStep scope) a).adapters = a.adapters :=
  foldl_fix (fun s => s.adapters) (snapToolStep scope)
    (fun a t => (snapToolStep_fields scope a t).2.2.2.2.1) l a

@[simp] theorem toolsFold_scopes (scope : ScopeState) (l : List SnapToolInfo)
    (a : DashboardState) :
    (l.foldl (snapToolStep scope) a).scopes = a.scopes :=
  foldl_fix (fun s => s.scopes) (snapToolStep scope)
    (fun a t => (snapToolStep_fields scope a t).2.2.2.2.2) l a

@[simp] theorem resourcesFold_resources (scope : ScopeState)
    (l : List SnapResourceInfo) (a : DashboardState) :
    (l.foldl (snapResourceStep scope) a).resources
      = a.resources ++ l.map (resourceInfoOfSnap scope) :=
  foldl_append1 (fun s => s.resources) (snapResourceStep scope) (resourceInfoOfSnap scope)
    (fun a r => (snapResourceStep_fields scope a r).1) l a

@[simp] theorem resourcesFold_tools (scope : ScopeState)
    (l : List SnapResourceInfo) (a : DashboardState) :
    (l.foldl (snapResourceStep scope) a).tools = a.tools :=
  foldl_fix (fun s => s.tools) (snapResourceStep scope)
    (fun a r => (snapResourceStep_fields scope a r).2.1) l a

@[simp] theorem resourcesFold_prompts (scope : ScopeState)
    (l : List SnapResourceInfo) (a : DashboardState) :
    (l.foldl (snapResourceStep scope) a).prompts = a.prompts :=
  foldl_fix (fun s => s.prompts) (snapResourceStep scope)
    (fun a r => (snapResourceStep_fields scope a r).2.2.1) l a

@[simp] theorem resourcesFold_plugins (scope : ScopeState)
    (l : List SnapResourceInfo) (a : DashboardState) :
    (l.foldl (snapResourceStep scope) a).plugins = a.plugins :=
  foldl_fix (fun s => s.plugins) (snapResourceStep scope)
    (fun a r => (snapResourceStep_fields scope a r).2.2.2.1) l a

@[simp] theorem resourcesFold_adapters (scope : ScopeState)
    (l : List SnapResourceInfo) (a : DashboardState) :
    (l.foldl (snapResourceStep scope) a).adapters = a.adapters :=
  foldl_fix (fun s => s.adapters) (snapResourceStep scope)
    (fun a r => (snapResourceStep_fields scope a r).2.2.2.2.1) l a

@[simp] theorem resourcesFold_scopes (scope : ScopeState)
    (l : List SnapResourceInfo) (a : DashboardState) :
    (l.foldl (snapResourceStep scope) a).scopes = a.scopes :=
  foldl_fix (fun s => s.scopes) (snapResourceStep scope)
    (fun a r => (snapResourceStep_fields scope a r).2.2.2.2.2) l a

@[simp] theorem promptsFold_prompts (scope : ScopeState)
    (l : List SnapPromptInfo) (a : DashboardState) :
    (l.foldl (snapPromptStep scope) a).prompts
      = a.prompts ++ l.map (promptInfoOfSnap scope) :=
  foldl_append1 (fun s => s.prompts) (snapPromptStep scope) (promptInfoOfSnap scope)
    (fun a p => (snapPromptStep_fields scope a p).1) l a

@[simp] theorem promptsFold_tools (scope : ScopeState)
    (l : List SnapPromptInfo) (a : DashboardState) :
    (l.foldl (snapPromptStep scope) a).tools = a.tools :=
  foldl_fix (fun s => s.tools) (snapPromptStep scope)
    (fun a p => (snapPromptStep_fields scope a p).2.1) l a

@[simp] theorem promptsFold_resources (scope : ScopeState)
    (l : List SnapPromptInfo) (a : DashboardState) :
    (l.foldl (snapPromptStep scope) a).resources = a.resources :=
  foldl_fix (fun s => s.resources) (snapPromptStep scope)
    (fun a p => (snapPromptStep_fields scope a p).2.2.1) l a

@[simp] theorem promptsFold_plugins (scope : ScopeState)
    (l : List SnapPromptInfo) (a : DashboardState) :
    (l.foldl (snapPromptStep scope) a).plugins = a.plugins :=
  foldl_fix (fun s => s.plugins) (snapPromptStep scope)
    (fun a p => (snapPromptStep_fields scope a p).2.2.2.1) l a

@[simp] theorem promptsFold_adapters (scope : ScopeState)
    (l : List SnapPromptInfo) (a : DashboardState) :
    (l.foldl (snapPromptStep scope) a).adapters = a.adapters :=
  foldl_fix (fun s => s.adapters) (snapPromptStep scope)
    (fun a p => (snapPromptStep_fields scope a p).2.2.2.2.1) l a

@[simp] theorem promptsFold_scopes (scope : ScopeState)
    (l : List SnapPromptInfo) (a : DashboardState) :
    (l.foldl (snapPromptStep scope) a).scopes = a.scopes :=
  foldl_fix (fun s => s.scopes) (snapPromptStep scope)
    (fun a p => (snapPromptStep_fields scope a p).2.2.2.2.2) l a

@[simp] theorem pluginsFold_plugins (scope : ScopeState)
    (l : List PluginInfoSnapshot) (a : DashboardState) :
    (l.foldl (snapPluginStep scope) a).plugins = a.plugins ++ l.map pluginInfoOfSnap :=
  foldl_append1 (fun s => s.plugins) (snapPluginStep scope) pluginInfoOfSnap
    (fun a p => (snapPluginStep_fields scope a p).1) l a

@[simp] theorem pluginsFold_tools (scope : ScopeState)
    (l : List PluginInfoSnapshot) (a : DashboardState) :
    (l.foldl (snapPluginStep scope) a).tools = a.tools :=
  foldl_fix (fun s => s.tools) (snapPluginStep scope)
    (fun a p => (snapPluginStep_fields scope a p).2.1) l a

@[simp] theorem pluginsFold_resources (scope : ScopeState)
    (l : List PluginInfoSnapshot) (a : DashboardState) :
    (l.foldl (snapPluginStep scope) a).resources = a.resources :=
  foldl_fix (fun s => s.resources) (snapPluginStep scope)
    (fun a p => (snapPluginStep_fields scope a p).2.2.1) l a

@[simp] theorem pluginsFold_prompts (scope : ScopeState)
    (l : List PluginInfoSnapshot) (a : DashboardState) :
    (l.foldl (snapPluginStep scope) a).prompts = a.prompts :=
  foldl_fix (fun s => s.prompts) (snapPluginStep scope)
    (fun a p => (snapPluginStep_fields scope a p).2.2.2.1) l a

@[simp] theorem pluginsFold_adapters (scope : ScopeState)
    (l : List PluginInfoSnapshot) (a : DashboardState) :
    (l.foldl (snapPluginStep scope) a).adapters = a.adapters :=
  foldl_fix (fun s => s.adapters) (snapPluginStep scope)
    (fun a p => (snapPluginStep_fields scope a p).2.2.2.2.1) l a

@[simp] theorem pluginsFold_scopes (scope : ScopeState)
    (l : List PluginInfoSnapshot) (a : DashboardState) :
    (l.foldl (snapPluginStep scope) a).scopes = a.scopes :=
  foldl_fix (fun s => s.scopes) (snapPluginStep scope)
    (fun a p => (snapPluginStep_fields scope a p).2.2.2.2.2) l a

@[simp] theorem adaptersFold_adapters (scope : ScopeState)
    (l : List AdapterInfoSnapshot) (a : DashboardState) :
    (l.foldl (snapAdapterStep scope) a).adapters = a.adapters ++ l.map adapterInfoOfSnap :=
  foldl_append1 (fun s => s.adapters) (snapAdapterStep scope) adapterInfoOfSnap
    (fun a ad => (snapAdapterStep_fields scope a ad).1) l a

@[simp] theorem adaptersFold_tools (scope : ScopeState)
    (l : List AdapterInfoSnapshot) (a : DashboardState) :
    (l.foldl (snapAdapterStep scope) a).tools = a.tools :=
  foldl_fix (fun s => s.tools) (snapAdapterStep scope)
    (fun a ad => (snapAdapterStep_fields scope a ad).2.1) l a

@[simp] theorem adaptersFold_resources (scope : ScopeState)
    (l : List AdapterInfoSnapshot) (a : DashboardState) :
    (l.foldl (snapAdapterStep scope) a).resources = a.resources :=
  foldl_fix (fun s => s.resources) (snapAdapterStep scope)
    (fun a ad => (snapAdapterStep_fields scope a ad).2.2.1) l a

@[simp] theorem adaptersFold_prompts (scope : ScopeState)
    (l : List AdapterInfoSnapshot) (a : DashboardState) :
    (l.foldl (snapAdapterStep scope) a).prompts = a.prompts :=
  foldl_fix (fun s => s.prompts) (snapAdapterStep scope)
    (fun a ad => (snapAdapterStep_fields scope a ad).2.2.2.1) l a

@[simp] theorem adaptersFold_plugins (scope : ScopeState)
    (l : List AdapterInfoSnapshot) (a : DashboardState) :
    (l.foldl (snapAdapterStep scope) a).plugins = a.plugins :=
  foldl_fix (fun s => s.plugins) (snapAdapterStep scope)
    (fun a ad => (snapAdapterStep_fields scope a ad).2.2.2.2.1) l a

@[simp] theorem adaptersFold_scopes (scope : ScopeState)
    (l : List AdapterInfoSnapshot) (a : DashboardState) :
    (l.foldl (snapAdapterStep scope) a).scopes = a.scopes :=
  foldl_fix (fun s => s.scopes) (snapAdapterStep scope)
    (fun a ad => (snapAdapterStep_fields scope a ad).2.2.2.2.2) l a

@[simp] theorem applyScopeSnapshot_tools (a : DashboardState) (scope : ScopeState) :
    (applyScopeSnapshot a scope).tools = a.tools ++ scopeToolInfos scope := by
  simp [applyScopeSnapshot, scopeToolInfos]

@[simp] theorem applyScopeSnapshot_resources (a : DashboardState) (scope : ScopeState) :
    (applyScopeSnapshot a scope).resources = a.resources ++ scopeResourceInfos scope := by
  simp [applyScopeSnapshot, scopeResourceInfos]

@[simp] theorem applyScopeSnapshot_prompts (a : DashboardState) (scope : ScopeState) :
    (applyScopeSnapshot a scope).prompts = a.prompts ++ scopePromptInfos scope := by
  simp [applyScopeSnapshot, scopePromptInfos]

@[simp] theorem applyScopeSnapshot_plugins (a : DashboardState) (scope : ScopeState) :
    (applyScopeSnapshot a scope).plugins = a.plugins ++ scopePluginInfos scope := by
  simp [applyScopeSnapshot, scopePluginInfos]

@[simp] theorem applyScopeSnapshot_adapters (a : DashboardState) (scope : ScopeState) :
    (applyScopeSnapshot a scope).adapters = a.adapters ++ scopeAdapterInfos scope := by
  simp [applyScopeSnapshot, scopeAdapterInfos]

@[simp] theorem applyScopeSnapshot_scopes (a : DashboardState) (scope : ScopeState) :
    (applyScopeSnapshot a scope).scopes
      = a.scopes ++ [{ id := scope.id, name := scope.id }] := by
  simp [applyScopeSnapshot]

@[simp] theorem scopesFold_tools (l : List ScopeState) (a : DashboardState) :
    (l.foldl applyScopeSnapshot a).tools = a.tools ++ l.flatMap scopeToolInfos :=
  foldl_appendF (fun s => s.tools) applyScopeSnapshot scopeToolInfos
    (fun a sc => applyScopeSnapshot_tools a sc) l a

@[simp] theorem scopesFold_resources (l : List ScopeState) (a : DashboardState) :
    (l.foldl applyScopeSnapshot a).resources = a.resources ++ l.flatMap scopeResourceInfos :=
  foldl_appendF (fun s => s.resources) applyScopeSnapshot scopeResourceInfos
    (fun a sc => applyScopeSnapshot_resources a sc) l a

@[simp] theorem scopesFold_prompts (l : List ScopeState) (a : DashboardState) :
    (l.foldl applyScopeSnapshot a).prompts = a.prompts ++ l.flatMap scopePromptInfos :=
  foldl_appendF (fun s => s.prompts) applyScopeSnapshot scopePromptInfos
    (fun a sc => applyScopeSnapshot_prompts a sc) l a

@[simp] theorem scopesFold_plugins (l : List ScopeState) (a : DashboardState) :
    (l.foldl applyScopeSnapshot a).plugins = a.plugins ++ l.flatMap scopePluginInfos :=
  foldl_appendF (fun s => s.plugins) applyScopeSnapshot scopePluginInfos
    (fun a sc => applyScopeSnapshot_plugins a sc) l a

@[simp] theorem scopesFold_adapters (l : List ScopeState) (a : DashboardState) :
    (l.foldl applyScopeSnapshot a).adapters = a.adapters ++ l.flatMap scopeAdapterInfos :=
  foldl_appendF (fun s => s.adapters) applyScopeSnapshot scopeAdapterInfos
    (fun a sc => applyScopeSnapshot_adapters a sc) l a

@[simp] theorem scopesFold_scopes (l : List ScopeState) (a : DashboardState) :
    (l.foldl applyScopeSnapshot a).scopes
      = a.scopes ++ l.map (fun (sc : ScopeState) =>
          ({ id := sc.id, name := sc.id } : ScopeInfo)) :=
  foldl_append1 (fun s => s.scopes) applyScopeSnapshot
    (fun (sc : ScopeState) => ({ id := sc.id, name := sc.id } : ScopeInfo))
    (fun a sc => applyScopeSnapshot_scopes a sc) l a

@[simp] theorem sessionsFold_tools (l : List SessionState) (a : DashboardState) :
    (l.foldl snapSessionStep a).tools = a.tools :=
  foldl_fix (fun s => s.tools) snapSessionStep
    (fun a x => (rfl : (snapSessionStep a x).tools = a.tools)) l a

@[simp] theorem sessionsFold_resources (l : List SessionState) (a : DashboardState) :
    (l.foldl snapSessionStep a).resources = a.resources :=
  foldl_fix (fun s => s.resources) snapSessionStep
    (fun a x => (rfl : (snapSessionStep a x).resources = a.resources)) l a

@[simp] theorem sessionsFold_prompts (l : List SessionState) (a : DashboardState) :
    (l.foldl snapSessionStep a).prompts = a.prompts :=
  foldl_fix (fun s => s.prompts) snapSessionStep
    (fun a x => (rfl : (snapSessionStep a x).prompts = a.prompts)) l a

@[simp] theorem sessionsFold_plugins (l : List SessionState) (a : DashboardState) :
    (l.foldl snapSessionStep a).plugins = a.plugins :=
  foldl_fix (fun s => s.plugins) snapSessionStep
    (fun a x => (rfl : (snapSessionStep a x).plugins = a.plugins)) l a

@[simp] theorem sessionsFold_adapters (l : List SessionState) (a : DashboardState) :
    (l.foldl snapSessionStep a).adapters = a.adapters :=
  foldl_fix (fun s => s.adapters) snapSessionStep
    (fun a x => (rfl : (snapSessionStep a x).adapters = a.adapters)) l a

@[simp] theorem sessionsFold_scopes (l : List SessionState) (a : DashboardState) :
    (l.foldl snapSessionStep a).scopes = a.scopes :=
  foldl_fix (fun s => s.scopes) snapSessionStep
    (fun a x => (rfl : (snapSessionStep a x).scopes = a.scopes)) l a

@[simp] theorem update_overview_registry_scopes (s : DashboardState) :
    (update_overview_registry s).scopes = s.scopes := rfl

@[simp] theorem update_overview_sessions_prompts (s : DashboardState) :
    (update_overview_sessions s).prompts = s.prompts := rfl

@[simp] theorem update_overview_sessions_plugins (s : DashboardState) :
    (update_overview_sessions s).plugins = s.plugins := rfl

@[simp] theorem update_overview_sessions_adapters (s : DashboardState) :
    (update_overview_sessions s).adapters = s.adapters := rfl

@[simp] theorem update_overview_sessions_scopes (s : DashboardState) :
    (update_overview_sessions s).scopes = s.scopes := rfl

/-- **C3.** Folding a full state snapshot replaces the tools, resources,
prompts, plugins, adapters and scopes collections wholesale: whatever the
prior state `s` (in particular after any sequence of `registry:tool:added`
events), each post-fold collection equals exactly the entries carried by
the snapshot's scopes, with no reconciliation against previously folded
events. -/
theorem c3_snapshot_replaces (now : Nat) (s : DashboardState)
    (snap : StateSnapshot) :
    (handle_state_snapshot now s snap).tools = snap.scopes.flatMap scopeToolInfos ∧
    (handle_state_snapshot now s snap).resources = snap.scopes.flatMap scopeResourceInfos ∧
    (handle_state_snapshot now s snap).prompts = snap.scopes.flatMap scopePromptInfos ∧
    (handle_state_snapshot now s snap).plugins = snap.scopes.flatMap scopePluginInfos ∧
    (handle_state_snapshot now s snap).adapters = snap.scopes.flatMap scopeAdapterInfos ∧
    (handle_state_snapshot now s snap).scopes
      = snap.scopes.map (fun (sc : ScopeState) =>
          ({ id := sc.id, name := sc.id } : ScopeInfo)) := by
  unfold handle_state_snapshot
  refine ⟨?_, ?_, ?_, ?_, ?_, ?_⟩ <;> simp

-- ─────────────────────────────────────────────────────────────────────────
-- C6: ring buffers stay within capacity, oldest evicted first
-- ─────────────────────────────────────────────────────────────────────────

theorem foldl_inv {σ : Type} {α : Type} (P : σ → Prop) (g : σ → α → σ)
    (h : ∀ a x, P a → P (g a x)) :
    ∀ (l : List α) (a : σ), P a → P (l.foldl g a) := by
  intro l
  induction l with
  | nil => intro a ha; exact ha
  | cons x xs ih => intro a ha; exact ih (g a x) (h a x ha)

theorem capAppend_le {α : Type} (l : List α) (x : α) (cap : Nat)
    (h : l.length ≤ cap) :
    (if (l ++ [x]).length > cap then (l ++ [x]).drop 1 else l ++ [x]).length
      ≤ cap := by
  split <;>
    simp only [List.length_drop, List.length_append, List.length_cons,
      List.length_nil] at * <;>
    omega

theorem mem_insertA {α : Type} {m : List (String × α)} {k : String} {v : α}
    {q : String × α} (hq : q ∈ insertA m k v) : q ∈ m ∨ q = (k, v) := by
  unfold insertA at hq
  by_cases hc : (m.any (fun p => p.1 == k)) = true
  · rw [if_pos hc] at hq
    rcases List.mem_map.mp hq with ⟨p, hp, he⟩
    by_cases hk : (p.1 == k) = true
    · right; rw [if_pos hk] at he; exact he.symm
    · left; rw [if_neg hk] at he; exact he ▸ hp
  · rw [if_neg hc] at hq
    rcases List.mem_append.mp hq with hq' | hq'
    · left; exact hq'
    · right; simpa using hq'

@[simp] theorem record_request_cpu_history (m : MetricsData) (su : Bool)
    (d : Option Nat) (t : Option String) :
    (m.record_request su d t).cpu_history = m.cpu_history := by
  unfold MetricsData.record_request
  repeat' split
  all_goals rfl

@[simp] theorem record_request_memory_history (m : MetricsData) (su : Bool)
    (d : Option Nat) (t : Option String) :
    (m.record_request su d t).memory_history = m.memory_history := by
  unfold MetricsData.record_request
  repeat' split
  all_goals rfl

@[simp] theorem record_traffic_cpu_history (m : MetricsData) (i o : Nat) :
    (m.record_traffic i o).cpu_history = m.cpu_history := rfl

@[simp] theorem record_traffic_memory_history (m : MetricsData) (i o : Nat) :
    (m.record_traffic i o).memory_history = m.memory_history := rfl

@[simp] theorem add_tool_call_len (o : OverviewData) (now : Nat) (name : String)
    (succ : Bool) (dur : Option Nat) :
    (o.add_tool_call now name succ dur).last_tool_calls.length
      ≤ MAX_TOOL_CALLS := by
  unfold OverviewData.add_tool_call
  dsimp only
  split <;>
    simp only [MAX_TOOL_CALLS, List.length_take, List.length_cons] at * <;>
    omega

theorem slogs_map_cap (entry : LogEntry) (sid : String)
    (ls : List (String × List LogEntry))
    (h : ∀ p ∈ ls, (Prod.snd p).length ≤ 500) :
    ∀ q ∈ ls.map (fun (p : String × List LogEntry) =>
        if p.1 == sid then
          let l := p.2 ++ [entry]
          (p.1, if l.length > 500 then l.drop 1 else l)
        else p), (Prod.snd q).length ≤ 500 := by
  intro q hq
  rcases List.mem_map.mp hq with ⟨p, hp, he⟩
  by_cases hk : (p.1 == sid) = true
  · rw [if_pos hk] at he
    subst he
    exact capAppend_le p.2 entry 500 (h p hp)
  · rw [if_neg hk] at he
    subst he
    exact h p hp

theorem boundedOk_add_log_with_context (now : Nat) {s : DashboardState}
    (lv : LogLevel) (msg src : String) (sid rid : Option String)
    (h : BoundedOk s) :
    BoundedOk (add_log_with_context now s lv msg src sid rid) := by
  unfold add_log_with_context
  cases sid with
  | none =>
      exact ⟨h.cpu_le, h.mem_le, capAppend_le _ _ _ h.logs_le, h.slogs_le,
             h.errs_le, h.calls_le⟩
  | some sid =>
      refine ⟨h.cpu_le, h.mem_le, capAppend_le _ _ _ h.logs_le, ?_,
              h.errs_le, h.calls_le⟩
      intro q hq
      dsimp only at hq
      split at hq
      · exact slogs_map_cap _ _ _ h.slogs_le q hq
      · rcases List.mem_append.mp hq with hq' | hq'
        · exact h.slogs_le q hq'
        · have hq2 : q = (sid,
              [{ timestamp := now, level := lv, message := msg,
                 source := src, session_id := some sid, request_id := rid }]) := by
            simpa using hq'
          rw [hq2]
          simp

theorem boundedOk_add_log (now : Nat) {s : DashboardState} (lv : LogLevel)
    (msg src : String) (h : BoundedOk s) :
    BoundedOk (add_log now s lv msg src) :=
  boundedOk_add_log_with_context now lv msg src none none h

theorem boundedOk_add_error (now : Nat) {s : DashboardState} (e : String)
    (h : BoundedOk s) : BoundedOk (add_error now s e) := by
  unfold add_error
  apply boundedOk_add_log
  refine ⟨h.cpu_le, h.mem_le, h.logs_le, h.slogs_le, ?_, h.calls_le⟩
  have he := h.errs_le
  split <;>
    simp only [List.length_append, List.length_drop, List.length_cons,
      List.length_nil] at * <;>
    omega

theorem boundedOk_update_overview_registry {s : DashboardState}
    (h : BoundedOk s) : BoundedOk (update_overview_registry s) :=
  ⟨h.cpu_le, h.mem_le, h.logs_le, h.slogs_le, h.errs_le, h.calls_le⟩

theorem boundedOk_update_overview_sessions {s : DashboardState}
    (h : BoundedOk s) : BoundedOk (update_overview_sessions s) :=
  ⟨h.cpu_le, h.mem_le, h.logs_le, h.slogs_le, h.errs_le, h.calls_le⟩

theorem BoundedOk.transfer {s t : DashboardState} (h : BoundedOk s)
    (e1 : t.metrics.cpu_history = s.metrics.cpu_history)
    (e2 : t.metrics.memory_history = s.metrics.memory_history)
    (e3 : t.logs = s.logs)
    (e4 : t.session_logs = s.session_logs)
    (e5 : t.recent_errors = s.recent_errors)
    (e6 : t.overview.last_tool_calls.length ≤ MAX_TOOL_CALLS) :
    BoundedOk t := by
  refine ⟨?_, ?_, ?_, ?_, ?_, e6⟩
  · rw [e1]; exact h.cpu_le
  · rw [e2]; exact h.mem_le
  · rw [e3]; exact h.logs_le
  · rw [e4]; exact h.slogs_le
  · rw [e5]; exact h.errs_le

theorem boundedOk_insert_session {s : DashboardState} (h : BoundedOk s)
    (sid : String) (si : SessionInfo) :
    BoundedOk { s with sessions := insertA s.sessions sid si,
                       session_logs := insertA s.session_logs sid [] } := by
  refine ⟨h.cpu_le, h.mem_le, h.logs_le, ?_, h.errs_le, h.calls_le⟩
  intro q hq
  rcases mem_insertA hq with hq' | hq'
  · exact h.slogs_le q hq'
  · rw [hq']; simp

theorem boundedOk_handle_trace_event (now : Nat) {s : DashboardState}
    (ev : DevBusLogEvent) (h : BoundedOk s) :
    BoundedOk (handle_trace_event now s ev) := by
  simp only [handle_trace_event]
  generalize (if ev.session_id == "unknown" then none
      else (some ev.session_id : Option String)) = sid_opt
  generalize (if ev.request_id == "unknown" then none
      else (some ev.request_id : Option String)) = rid_opt
  by_cases h1 : ev.event_type = "session:connect"
  · rw [if_pos h1]
    (repeat' split) <;>
      (repeat first
        | apply boundedOk_update_overview_registry
        | apply boundedOk_update_overview_sessions
        | apply boundedOk_add_log_with_context
        | apply boundedOk_add_log
        | apply boundedOk_add_error) <;>
      (first
        | exact h
        | exact ⟨h.cpu_le, h.mem_le, h.logs_le, h.slogs_le, h.errs_le, h.calls_le⟩
        | exact boundedOk_insert_session h _ _
        | (apply BoundedOk.transfer h <;> simp [h.calls_le]))
  rw [if_neg h1]
  by_cases h2 : ev.event_type = "session:disconnect"
  · rw [if_pos h2]
    (repeat' split) <;>
      (repeat first
        | apply boundedOk_update_overview_registry
        | apply boundedOk_update_overview_sessions
        | apply boundedOk_add_log_with_context
        | apply boundedOk_add_log
        | apply boundedOk_add_error) <;>
      (first
        | exact h
        | exact ⟨h.cpu_le, h.mem_le, h.logs_le, h.slogs_le, h.errs_le, h.calls_le⟩
        | exact boundedOk_insert_session h _ _
        | (apply BoundedOk.transfer h <;> simp [h.calls_le]))
  rw [if_neg h2]
  by_cases h3 : ev.event_type = "request:start"
  · rw [if_pos h3]
    (repeat' split) <;>
      (repeat first
        | apply boundedOk_update_overview_registry
        | apply boundedOk_update_overview_sessions
        | apply boundedOk_add_log_with_context
        | apply boundedOk_add_log
        | apply boundedOk_add_error) <;>
      (first
        | exact h
        | exact ⟨h.cpu_le, h.mem_le, h.logs_le, h.slogs_le, h.errs_le, h.calls_le⟩
        | exact boundedOk_insert_session h _ _
        | (apply BoundedOk.transfer h <;> simp [h.calls_le]))
  rw [if_neg h3]
  by_cases h4 : ev.event_type = "request:complete"
  · rw [if_pos h4]
    (repeat' split) <;>
      (repeat first
        | apply boundedOk_update_overview_registry
        | apply boundedOk_update_overview_sessions
        | apply boundedOk_add_log_with_context
        | apply boundedOk_add_log
        | apply boundedOk_add_error) <;>
      (first
        | exact h
        | exact ⟨h.cpu_le, h.mem_le, h.logs_le, h.slogs_le, h.errs_le, h.calls_le⟩
        | exact boundedOk_insert_session h _ _
        | (apply BoundedOk.transfer h <;> simp [h.calls_le]))
  rw [if_neg h4]
  by_cases h5 : ev.event_type = "request:error"
  · rw [if_pos h5]
    (repeat' split) <;>
      (repeat first
        | apply boundedOk_update_overview_registry
        | apply boundedOk_update_overview_sessions
        | apply boundedOk_add_log_with_context
        | apply boundedOk_add_log
        | apply boundedOk_add_error) <;>
      (first
        | exact h
        | exact ⟨h.cpu_le, h.mem_le, h.logs_le, h.slogs_le, h.errs_le, h.calls_le⟩
        | exact boundedOk_insert_session h _ _
        | (apply BoundedOk.transfer h <;> simp [h.calls_le]))
  rw [if_neg h5]
  by_cases h6 : ev.event_type = "tool:execute"
  · rw [if_pos h6]
    (repeat' split) <;>
      (repeat first
        | apply boundedOk_update_overview_registry
        | apply boundedOk_update_overview_sessions
        | apply boundedOk_add_log_with_context
        | apply boundedOk_add_log
        | apply boundedOk_add_error) <;>
      (first
        | exact h
        | exact ⟨h.cpu_le, h.mem_le, h.logs_le, h.slogs_le, h.errs_le, h.calls_le⟩
        | exact boundedOk_insert_session h _ _
        | (apply BoundedOk.transfer h <;> simp [h.calls_le]))
  rw [if_neg h6]
  by_cases h7 : ev.event_type = "tool:complete"
  · rw [if_pos h7]
    (repeat' split) <;>
      (repeat first
        | apply boundedOk_update_overview_registry
        | apply boundedOk_update_overview_sessions
        | apply boundedOk_add_log_with_context
        | apply boundedOk_add_log
        | apply boundedOk_add_error) <;>
      (first
        | exact h
        | exact ⟨h.cpu_le, h.mem_le, h.logs_le, h.slogs_le, h.errs_le, h.calls_le⟩
        | exact boundedOk_insert_session h _ _
        | (apply BoundedOk.transfer h <;> simp [h.calls_le]))
  rw [if_neg h7]
  by_cases h8 : ev.event_type = "server:starting"
  · rw [if_pos h8]
    (repeat' split) <;>
      (repeat first
        | apply boundedOk_update_overview_registry
        | apply boundedOk_update_overview_sessions
        | apply boundedOk_add_log_with_context
        | apply boundedOk_add_log
        | apply boundedOk_add_error) <;>
      (first
        | exact h
        | exact ⟨h.cpu_le, h.mem_le, h.logs_le, h.slogs_le, h.errs_le, h.calls_le⟩
        | exact boundedOk_insert_session h _ _
        | (apply BoundedOk.transfer h <;> simp [h.calls_le]))
  rw [if_neg h8]
  by_cases h9 : ev.event_type = "server:ready"
  · rw [if_pos h9]
    (repeat' split) <;>
      (repeat first
        | apply boundedOk_update_overview_registry
        | apply boundedOk_update_overview_sessions
        | apply boundedOk_add_log_with_context
        | apply boundedOk_add_log
        | apply boundedOk_add_error) <;>
      (first
        | exact h
        | exact ⟨h.cpu_le, h.mem_le, h.logs_le, h.slogs_le, h.errs_le, h.calls_le⟩
        | exact boundedOk_insert_session h _ _
        | (apply BoundedOk.transfer h <;> simp [h.calls_le]))
  rw [if_neg h9]
  by_cases h10 : ev.event_type = "server:shutdown"
  · rw [if_pos h10]
    (repeat' split) <;>
      (repeat first
        | apply boundedOk_update_overview_registry
        | apply boundedOk_update_overview_sessions
        | apply boundedOk_add_log_with_context
        | apply boundedOk_add_log
        | apply boundedOk_add_error) <;>
      (first
        | exact h
        | exact ⟨h.cpu_le, h.mem_le, h.logs_le, h.slogs_le, h.errs_le, h.calls_le⟩
        | exact boundedOk_insert_session h _ _
        | (apply BoundedOk.transfer h <;> simp [h.calls_le]))
  rw [if_neg h10]
  by_cases h11 : ev.event_type = "config:loaded"
  · rw [if_pos h11]
    (repeat' split) <;>
      (repeat first
        | apply boundedOk_update_overview_registry
        | apply boundedOk_update_overview_sessions
        | apply boundedOk_add_log_with_context
        | apply boundedOk_add_log
        | apply boundedOk_add_error) <;>
      (first
        | exact h
        | exact ⟨h.cpu_le, h.mem_le, h.logs_le, h.slogs_le, h.errs_le, h.calls_le⟩
        | exact boundedOk_insert_session h _ _
        | (apply BoundedOk.transfer h <;> simp [h.calls_le]))
  rw [if_neg h11]
  by_cases h12 : ev.event_type = "config:error"
  · rw [if_pos h12]
    (repeat' split) <;>
      (repeat first
        | apply boundedOk_update_overview_registry
        | apply boundedOk_update_overview_sessions
        | apply boundedOk_add_log_with_context
        | apply boundedOk_add_log
        | apply boundedOk_add_error) <;>
      (first
        | exact h
        | exact ⟨h.cpu_le, h.mem_le, h.logs_le, h.slogs_le, h.errs_le, h.calls_le⟩
        | exact boundedOk_insert_session h _ _
        | (apply BoundedOk.transfer h <;> simp [h.calls_le]))
  rw [if_neg h12]
  by_cases h13 : ev.event_type = "registry:tool:added" ∨ ev.event_type = "registry:tool:reset"
  · rw [if_pos h13]
    (repeat' split) <;>
      (repeat first
        | apply boundedOk_update_overview_registry
        | apply boundedOk_update_overview_sessions
        | apply boundedOk_add_log_with_context
        | apply boundedOk_add_log
        | apply boundedOk_add_error) <;>
      (first
        | exact h
        | exact ⟨h.cpu_le, h.mem_le, h.logs_le, h.slogs_le, h.errs_le, h.calls_le⟩
        | exact boundedOk_insert_session h _ _
        | (apply BoundedOk.transfer h <;> simp [h.calls_le]))
  rw [if_neg h13]
  by_cases h14 : ev.event_type = "registry:tool:removed"
  · rw [if_pos h14]
    (repeat' split) <;>
      (repeat first
        | apply boundedOk_update_overview_registry
        | apply boundedOk_update_overview_sessions
        | apply boundedOk_add_log_with_context
        | apply boundedOk_add_log
        | apply boundedOk_add_error) <;>
      (first
        | exact h
        | exact ⟨h.cpu_le, h.mem_le, h.logs_le, h.slogs_le, h.errs_le, h.calls_le⟩
        | exact boundedOk_insert_session h _ _
        | (apply BoundedOk.transfer h <;> simp [h.calls_le]))
  rw [if_neg h14]
  by_cases h15 : ev.event_type = "registry:tool:updated"
  · rw [if_pos h15]
    (repeat' split) <;>
      (repeat first
        | apply boundedOk_update_overview_registry
        | apply boundedOk_update_overview_sessions
        | apply boundedOk_add_log_with_context
        | apply boundedOk_add_log
        | apply boundedOk_add_error) <;>
      (first
        | exact h
        | exact ⟨h.cpu_le, h.mem_le, h.logs_le, h.slogs_le, h.errs_le, h.calls_le⟩
        | exact boundedOk_insert_session h _ _
        | (apply BoundedOk.transfer h <;> simp [h.calls_le]))
  rw [if_neg h15]
  by_cases h16 : ev.event_type = "registry:resource:added" ∨ ev.event_type = "registry:resource:reset"
  · rw [if_pos h16]
    (repeat' split) <;>
      (repeat first
        | apply boundedOk_update_overview_registry
        | apply boundedOk_update_overview_sessions
        | apply boundedOk_add_log_with_context
        | apply boundedOk_add_log
        | apply boundedOk_add_error) <;>
      (first
        | exact h
        | exact ⟨h.cpu_le, h.mem_le, h.logs_le, h.slogs_le, h.errs_le, h.calls_le⟩
        | exact boundedOk_insert_session h _ _
        | (apply BoundedOk.transfer h <;> simp [h.calls_le]))
  rw [if_neg h16]
  by_cases h17 : ev.event_type = "registry:resource:removed"
  · rw [if_pos h17]
    (repeat' split) <;>
      (repeat first
        | apply boundedOk_update_overview_registry
        | apply boundedOk_update_overview_sessions
        | apply boundedOk_add_log_with_context
        | apply boundedOk_add_log
        | apply boundedOk_add_error) <;>
      (first
        | exact h
        | exact ⟨h.cpu_le, h.mem_le, h.logs_le, h.slogs_le, h.errs_le, h.calls_le⟩
        | exact boundedOk_insert_session h _ _
        | (apply BoundedOk.transfer h <;> simp [h.calls_le]))
  rw [if_neg h17]
  by_cases h18 : ev.event_type = "registry:resource:updated"
  · rw [if_pos h18]
    (repeat' split) <;>
      (repeat first
        | apply boundedOk_update_overview_registry
        | apply boundedOk_update_overview_sessions
        | apply boundedOk_add_log_with_context
        | apply boundedOk_add_log
        | apply boundedOk_add_error) <;>
      (first
        | exact h
        | exact ⟨h.cpu_le, h.mem_le, h.logs_le, h.slogs_le, h.errs_le, h.calls_le⟩
        | exact boundedOk_insert_session h _ _
        | (apply BoundedOk.transfer h <;> simp [h.calls_le]))
  rw [if_neg h18]
  by_cases h19 : ev.event_type = "registry:prompt:added" ∨ ev.event_type = "registry:prompt:reset"
  · rw [if_pos h19]
    (repeat' split) <;>
      (repeat first
        | apply boundedOk_update_overview_registry
        | apply boundedOk_update_overview_sessions
        | apply boundedOk_add_log_with_context
        | apply boundedOk_add_log
        | apply boundedOk_add_error) <;>
      (first
        | exact h
        | exact ⟨h.cpu_le, h.mem_le, h.logs_le, h.slogs_le, h.errs_le, h.calls_le⟩
        | exact boundedOk_insert_session h _ _
        | (apply BoundedOk.transfer h <;> simp [h.calls_le]))
  rw [if_neg h19]
  by_cases h20 : ev.event_type = "registry:prompt:removed"
  · rw [if_pos h20]
    (repeat' split) <;>
      (repeat first
        | apply boundedOk_update_overview_registry
        | apply boundedOk_update_overview_sessions
        | apply boundedOk_add_log_with_context
        | apply boundedOk_add_log
        | apply boundedOk_add_error) <;>
      (first
        | exact h
        | exact ⟨h.cpu_le, h.mem_le, h.logs_le, h.slogs_le, h.errs_le, h.calls_le⟩
        | exact boundedOk_insert_session h _ _
        | (apply BoundedOk.transfer h <;> simp [h.calls_le]))
  rw [if_neg h20]
  by_cases h21 : ev.event_type = "registry:prompt:updated"
  · rw [if_pos h21]
    (repeat' split) <;>
      (repeat first
        | apply boundedOk_update_overview_registry
        | apply boundedOk_update_overview_sessions
        | apply boundedOk_add_log_with_context
        | apply boundedOk_add_log
        | apply boundedOk_add_error) <;>
      (first
        | exact h
        | exact ⟨h.cpu_le, h.mem_le, h.logs_le, h.slogs_le, h.errs_le, h.calls_le⟩
        | exact boundedOk_insert_session h _ _
        | (apply BoundedOk.transfer h <;> simp [h.calls_le]))
  rw [if_neg h21]
  by_cases h22 : ev.event_type = "registry:plugin:added" ∨ ev.event_type = "registry:plugin:reset"
  · rw [if_pos h22]
    (repeat' split) <;>
      (repeat first
        | apply boundedOk_update_overview_registry
        | apply boundedOk_update_overview_sessions
        | apply boundedOk_add_log_with_context
        | apply boundedOk_add_log
        | apply boundedOk_add_error) <;>
      (first
        | exact h
        | exact ⟨h.cpu_le, h.mem_le, h.logs_le, h.slogs_le, h.errs_le, h.calls_le⟩
        | exact boundedOk_insert_session h _ _
        | (apply BoundedOk.transfer h <;> simp [h.calls_le]))
  rw [if_neg h22]
  by_cases h23 : ev.event_type = "registry:plugin:removed"
  · rw [if_pos h23]
    (repeat' split) <;>
      (repeat first
        | apply boundedOk_update_overview_registry
        | apply boundedOk_update_overview_sessions
        | apply boundedOk_add_log_with_context
        | apply boundedOk_add_log
        | apply boundedOk_add_error) <;>
      (first
        | exact h
        | exact ⟨h.cpu_le, h.mem_le, h.logs_le, h.slogs_le, h.errs_le, h.calls_le⟩
        | exact boundedOk_insert_session h _ _
        | (apply BoundedOk.transfer h <;> simp [h.calls_le]))
  rw [if_neg h23]
  by_cases h24 : ev.event_type = "registry:adapter:added" ∨ ev.event_type = "registry:adapter:reset"
  · rw [if_pos h24]
    (repeat' split) <;>
      (repeat first
        | apply boundedOk_update_overview_registry
        | apply boundedOk_update_overview_sessions
        | apply boundedOk_add_log_with_context
        | apply boundedOk_add_log
        | apply boundedOk_add_error) <;>
      (first
        | exact h
        | exact ⟨h.cpu_le, h.mem_le, h.logs_le, h.slogs_le, h.errs_le, h.calls_le⟩
        | exact boundedOk_insert_session h _ _
        | (apply BoundedOk.transfer h <;> simp [h.calls_le]))
  rw [if_neg h24]
  by_cases h25 : ev.event_type = "registry:adapter:removed"
  · rw [if_pos h25]
    (repeat' split) <;>
      (repeat first
        | apply boundedOk_update_overview_registry
        | apply boundedOk_update_overview_sessions
        | apply boundedOk_add_log_with_context
        | apply boundedOk_add_log
        | apply boundedOk_add_error) <;>
      (first
        | exact h
        | exact ⟨h.cpu_le, h.mem_le, h.logs_le, h.slogs_le, h.errs_le, h.calls_le⟩
        | exact boundedOk_insert_session h _ _
        | (apply BoundedOk.transfer h <;> simp [h.calls_le]))
  rw [if_neg h25]
  (repeat' split) <;>
      (repeat first
        | apply boundedOk_update_overview_registry
        | apply boundedOk_update_overview_sessions
        | apply boundedOk_add_log_with_context
        | apply boundedOk_add_log
        | apply boundedOk_add_error) <;>
      (first
        | exact h
        | exact ⟨h.cpu_le, h.mem_le, h.logs_le, h.slogs_le, h.errs_le, h.calls_le⟩
        | exact boundedOk_insert_session h _ _
        | (apply BoundedOk.transfer h <;> simp [h.calls_le]))

theorem boundedOk_handle_log_event (now : Nat) {s : DashboardState}
    (ev : DevBusLogEvent) (h : BoundedOk s) :
    BoundedOk (handle_log_event now s ev) := by
  unfold handle_log_event
  exact boundedOk_add_log_with_context now _ _ _ _ _ h

theorem boundedOk_handle_session_event (now : Nat) {s : DashboardState}
    (ev : SessionEvent) (h : BoundedOk s) :
    BoundedOk (handle_session_event now s ev) := by
  unfold handle_session_event
  dsimp only
  repeat' split
  all_goals
    (repeat first
      | apply boundedOk_update_overview_sessions
      | apply boundedOk_add_log_with_context)
  all_goals
    first
    | exact h
    | exact ⟨h.cpu_le, h.mem_le, h.logs_le, h.slogs_le, h.errs_le, h.calls_le⟩
    | exact boundedOk_insert_session h _ _
    | (apply BoundedOk.transfer h <;> simp [h.calls_le])

theorem boundedOk_handle_request_event (now : Nat) {s : DashboardState}
    (ev : RequestEvent) (h : BoundedOk s) :
    BoundedOk (handle_request_event now s ev) := by
  unfold handle_request_event
  dsimp only
  repeat' split
  all_goals
    (repeat first
      | apply boundedOk_add_log_with_context)
  all_goals
    first
    | exact h
    | exact ⟨h.cpu_le, h.mem_le, h.logs_le, h.slogs_le, h.errs_le, h.calls_le⟩
    | (apply BoundedOk.transfer h <;> simp [h.calls_le])

theorem boundedOk_handle_registry_event (now : Nat) {s : DashboardState}
    (ev : RegistryEvent) (h : BoundedOk s) :
    BoundedOk (handle_registry_event now s ev) := by
  unfold handle_registry_event
  dsimp only
  apply boundedOk_update_overview_registry
  repeat' split
  all_goals
    (repeat first
      | apply boundedOk_add_log)
  all_goals
    first
    | exact h
    | exact ⟨h.cpu_le, h.mem_le, h.logs_le, h.slogs_le, h.errs_le, h.calls_le⟩
    | (apply BoundedOk.transfer h <;> simp [h.calls_le])

theorem boundedOk_handle_server_event (now : Nat) {s : DashboardState}
    (ev : ServerEvent) (h : BoundedOk s) :
    BoundedOk (handle_server_event now s ev) := by
  unfold handle_server_event
  dsimp only
  repeat' split
  all_goals
    (repeat first
      | apply boundedOk_add_log)
  all_goals
    first
    | exact h
    | exact ⟨h.cpu_le, h.mem_le, h.logs_le, h.slogs_le, h.errs_le, h.calls_le⟩
    | (apply BoundedOk.transfer h <;> simp [h.calls_le])

theorem boundedOk_handle_config_event (now : Nat) {s : DashboardState}
    (ev : ConfigEvent) (h : BoundedOk s) :
    BoundedOk (handle_config_event now s ev) := by
  unfold handle_config_event
  dsimp only
  repeat' split
  all_goals
    (repeat first
      | apply boundedOk_add_log)
  all_goals
    first
    | exact h
    | exact ⟨h.cpu_le, h.mem_le, h.logs_le, h.slogs_le, h.errs_le, h.calls_le⟩
    | (apply BoundedOk.transfer h <;> simp [h.calls_le])

theorem boundedOk_handle_event (now : Nat) {s : DashboardState} (e : DevEvent)
    (h : BoundedOk s) : BoundedOk (handle_event now s e) := by
  unfold handle_event
  dsimp only
  have h1 : BoundedOk { s with events_received := s.events_received + 1 } :=
    ⟨h.cpu_le, h.mem_le, h.logs_le, h.slogs_le, h.errs_le, h.calls_le⟩
  cases e with
  | Session e2 => exact boundedOk_handle_session_event now e2 h1
  | Request e2 => exact boundedOk_handle_request_event now e2 h1
  | Registry e2 => exact boundedOk_handle_registry_event now e2 h1
  | Server e2 => exact boundedOk_handle_server_event now e2 h1
  | Config e2 => exact boundedOk_handle_config_event now e2 h1

theorem boundedOk_handle_log_transport_event (now : Nat) {s : DashboardState}
    (ev : DevBusLogEvent) (h : BoundedOk s) :
    BoundedOk (handle_log_transport_event now s ev) := by
  unfold handle_log_transport_event
  dsimp only
  have h1 : BoundedOk { s with events_received := s.events_received + 1 } :=
    ⟨h.cpu_le, h.mem_le, h.logs_le, h.slogs_le, h.errs_le, h.calls_le⟩
  split
  · exact boundedOk_handle_trace_event now _ h1
  · split
    · exact boundedOk_handle_log_event now _ h1
    · exact h1

theorem boundedOk_handle_unified_event (now : Nat) {s : DashboardState}
    (e : UnifiedEvent) (h : BoundedOk s) :
    BoundedOk (handle_unified_event now s e) := by
  cases e with
  | Legacy e2 => exact boundedOk_handle_event now e2 h
  | LogTransport e2 => exact boundedOk_handle_log_transport_event now e2 h
  | Error msg => exact boundedOk_add_error now msg h

theorem boundedOk_snapToolStep (scope : ScopeState) {a : DashboardState}
    (t : SnapToolInfo) (h : BoundedOk a) :
    BoundedOk (snapToolStep scope a t) := by
  unfold snapToolStep
  repeat' split
  all_goals
    exact ⟨h.cpu_le, h.mem_le, h.logs_le, h.slogs_le, h.errs_le, h.calls_le⟩

theorem boundedOk_snapResourceStep (scope : ScopeState) {a : DashboardState}
    (r : SnapResourceInfo) (h : BoundedOk a) :
    BoundedOk (snapResourceStep scope a r) := by
  unfold snapResourceStep
  repeat' split
  all_goals
    exact ⟨h.cpu_le, h.mem_le, h.logs_le, h.slogs_le, h.errs_le, h.calls_le⟩

theorem boundedOk_snapPromptStep (scope : ScopeState) {a : DashboardState}
    (p : SnapPromptInfo) (h : BoundedOk a) :
    BoundedOk (snapPromptStep scope a p) := by
  unfold snapPromptStep
  repeat' split
  all_goals
    exact ⟨h.cpu_le, h.mem_le, h.logs_le, h.slogs_le, h.errs_le, h.calls_le⟩

theorem boundedOk_snapPluginStep (scope : ScopeState) {a : DashboardState}
    (p : PluginInfoSnapshot) (h : BoundedOk a) :
    BoundedOk (snapPluginStep scope a p) := by
  unfold snapPluginStep
  repeat' split
  all_goals
    exact ⟨h.cpu_le, h.mem_le, h.logs_le, h.slogs_le, h.errs_le, h.calls_le⟩

theorem boundedOk_snapAdapterStep (scope : ScopeState) {a : DashboardState}
    (ad : AdapterInfoSnapshot) (h : BoundedOk a) :
    BoundedOk (snapAdapterStep scope a ad) := by
  unfold snapAdapterStep
  repeat' split
  all_goals
    exact ⟨h.cpu_le, h.mem_le, h.logs_le, h.slogs_le, h.errs_le, h.calls_le⟩

theorem boundedOk_snapSessionStep {a : DashboardState} (x : SessionState)
    (h : BoundedOk a) : BoundedOk (snapSessionStep a x) :=
  boundedOk_insert_session h _ _

theorem boundedOk_applyScopeSnapshot {a : DashboardState} (scope : ScopeState)
    (h : BoundedOk a) : BoundedOk (applyScopeSnapshot a scope) := by
  unfold applyScopeSnapshot
  dsimp only
  have h1 : BoundedOk { a with scopes :=
      a.scopes ++ [{ id := scope.id, name := scope.id }] } :=
    ⟨h.cpu_le, h.mem_le, h.logs_le, h.slogs_le, h.errs_le, h.calls_le⟩
  have h2 := foldl_inv BoundedOk (snapToolStep scope)
    (fun a x ha => boundedOk_snapToolStep scope x ha) scope.tools _ h1
  have h3 := foldl_inv BoundedOk (snapResourceStep scope)
    (fun a x ha => boundedOk_snapResourceStep scope x ha) scope.resources _ h2
  have h4 := foldl_inv BoundedOk (snapPromptStep scope)
    (fun a x ha => boundedOk_snapPromptStep scope x ha) scope.prompts _ h3
  have h5 := foldl_inv BoundedOk (snapPluginStep scope)
    (fun a x ha => boundedOk_snapPluginStep scope x ha) scope.plugins _ h4
  have h6 := foldl_inv BoundedOk (snapAdapterStep scope)
    (fun a x ha => boundedOk_snapAdapterStep scope x ha) scope.adapters _ h5
  exact ⟨h6.cpu_le, h6.mem_le, h6.logs_le, h6.slogs_le, h6.errs_le, h6.calls_le⟩

theorem boundedOk_set_server_address {s : DashboardState} (h : BoundedOk s)
    (ad : Option String) :
    BoundedOk { s with overview := { s.overview with server_address := ad } } :=
  ⟨h.cpu_le, h.mem_le, h.logs_le, h.slogs_le, h.errs_le, h.calls_le⟩

theorem boundedOk_handle_state_snapshot (now : Nat) {s : DashboardState}
    (snap : StateSnapshot) (h : BoundedOk s) :
    BoundedOk (handle_state_snapshot now s snap) := by
  unfold handle_state_snapshot
  dsimp only
  apply boundedOk_add_log
  apply boundedOk_set_server_address
  apply boundedOk_update_overview_registry
  apply boundedOk_update_overview_sessions
  apply foldl_inv BoundedOk snapSessionStep
    (fun a x ha => boundedOk_snapSessionStep x ha)
  apply foldl_inv BoundedOk applyScopeSnapshot
    (fun a sc ha => boundedOk_applyScopeSnapshot sc ha)
  exact ⟨h.cpu_le, h.mem_le, h.logs_le, h.slogs_le, h.errs_le, h.calls_le⟩

theorem boundedOk_add_raw_log (now : Nat) {s : DashboardState} (line : String)
    (h : BoundedOk s) : BoundedOk (add_raw_log now s line) := by
  unfold add_raw_log
  split
  · exact boundedOk_add_log now _ _ _ h
  · split
    · split
      · rename_i last hlast
        refine ⟨h.cpu_le, h.mem_le, ?_, h.slogs_le, h.errs_le, h.calls_le⟩
        have hne : s.logs ≠ [] := by
          intro e
          rw [e] at hlast
          exact Option.noConfusion hlast
        have hpos : 0 < s.logs.length := List.length_pos.mpr hne
        have hl := h.logs_le
        simp only [List.length_append, List.length_dropLast,
          List.length_cons, List.length_nil]
        omega
      · exact boundedOk_add_log now _ _ _ h
    · exact h

theorem boundedOk_handle_command_response (now : Nat) {s : DashboardState}
    (r : ResponseMessage) (h : BoundedOk s) :
    BoundedOk (handle_command_response now s r) := by
  unfold handle_command_response
  split <;> exact boundedOk_add_log now _ _ _ h

theorem update_system_metrics_cpu_len (m : MetricsData) (cpu : Int) (mem : Nat)
    (h : m.cpu_history.length ≤ METRICS_HISTORY_SIZE) :
    (m.update_system_metrics cpu mem).cpu_history.length
      ≤ METRICS_HISTORY_SIZE := by
  unfold MetricsData.update_system_metrics
  dsimp only
  exact capAppend_le _ _ _ h

theorem update_system_metrics_mem_len (m : MetricsData) (cpu : Int) (mem : Nat)
    (h : m.memory_history.length ≤ METRICS_HISTORY_SIZE) :
    (m.update_system_metrics cpu mem).memory_history.length
      ≤ METRICS_HISTORY_SIZE := by
  unfold MetricsData.update_system_metrics
  dsimp only
  exact capAppend_le _ _ _ h

theorem boundedOk_applyOp {s : DashboardState} (h : BoundedOk s) (op : Op) :
    BoundedOk (applyOp s op) := by
  cases op with
  | unified now e => exact boundedOk_handle_unified_event now e h
  | snapshot now snap => exact boundedOk_handle_state_snapshot now snap h
  | rawLog now line => exact boundedOk_add_raw_log now line h
  | sysMetrics cpu memory =>
      exact ⟨update_system_metrics_cpu_len _ _ _ h.cpu_le,
             update_system_metrics_mem_len _ _ _ h.mem_le,
             h.logs_le, h.slogs_le, h.errs_le, h.calls_le⟩
  | response now r => exact boundedOk_handle_command_response now r h

theorem boundedOk_initState : BoundedOk initState :=
  ⟨Nat.zero_le _, Nat.zero_le _, Nat.zero_le _,
   fun p hp => absurd hp (List.not_mem_nil p), Nat.zero_le _, Nat.zero_le _⟩

@[simp] theorem add_log_with_context_recent_errors (now s l m src sid rid) :
    (add_log_with_context now s l m src sid rid).recent_errors
      = s.recent_errors := by
  unfold add_log_with_context; cases sid <;> rfl

theorem find?_cons_key {α : Type} (p : String × α) (ps : List (String × α))
    (k : String) :
    (p :: ps).find? (fun q => q.1 == k)
      = if (p.1 == k) = true then some p
        else ps.find? (fun q => q.1 == k) := by
  by_cases hk : (p.1 == k) = true
  · rw [if_pos hk]; exact List.find?_cons_of_pos _ hk
  · rw [if_neg hk]; exact List.find?_cons_of_neg _ (by simpa using hk)

theorem lookupA_any {α : Type} :
    ∀ (ls : List (String × α)) (k : String) (v : α),
      lookupA ls k = some v → ls.any (fun p => p.1 == k) = true := by
  intro ls
  induction ls with
  | nil => intro k v hv; cases hv
  | cons p ps ih =>
      intro k v hv
      by_cases hk : (p.1 == k) = true
      · simp [List.any_cons, hk]
      · simp only [lookupA, find?_cons_key, if_neg hk] at hv
        simp [List.any_cons, hk, ih k v hv]

theorem lookupA_cons_of_pos {α : Type} (p : String × α) (ps : List (String × α))
    (k : String) (hk : (p.1 == k) = true) :
    lookupA (p :: ps) k = some p.2 := by
  simp only [lookupA, find?_cons_key, if_pos hk]
  rfl

theorem lookupA_cons_of_neg {α : Type} (p : String × α) (ps : List (String × α))
    (k : String) (hk : ¬ (p.1 == k) = true) :
    lookupA (p :: ps) k = lookupA ps k := by
  simp only [lookupA, find?_cons_key, if_neg hk]

theorem slog_ring_evict_map (entry : LogEntry) (sid : String) :
    ∀ (ls : List (String × List LogEntry)) (l : List LogEntry),
      lookupA ls sid = some l →
      lookupA (ls.map (fun (p : String × List LogEntry) =>
          if p.1 == sid then
            let l := p.2 ++ [entry]
            (p.1, if l.length > 500 then l.drop 1 else l)
          else p)) sid
        = some (if (l ++ [entry]).length > 500 then (l ++ [entry]).drop 1
                else l ++ [entry]) := by
  intro ls
  induction ls with
  | nil => intro l hl; cases hl
  | cons p ps ih =>
      intro l hl
      by_cases hk : (p.1 == sid) = true
      · have hl2 : p.2 = l := by
          rw [lookupA_cons_of_pos p ps sid hk] at hl
          exact Option.some.inj hl
        subst hl2
        simp only [List.map_cons]
        rw [if_pos hk]
        have hk2 : ((p.1, if (p.2 ++ [entry]).length > 500
            then (p.2 ++ [entry]).drop 1 else p.2 ++ [entry]).1 == sid) = true := hk
        rw [lookupA_cons_of_pos _ _ _ hk2]
      · have hl2 : lookupA ps sid = some l := by
          rw [lookupA_cons_of_neg p ps sid hk] at hl
          exact hl
        simp only [List.map_cons]
        rw [if_neg hk]
        rw [lookupA_cons_of_neg _ _ _ hk]
        exact ih l hl2

/-- **C6.** Every bounded history in the store stays within its fixed
capacity after any sequence of consumer-loop operations — cpu/memory
history at most 60 samples, the global log ring at most 1000 entries,
each session's private ring at most 500, recent errors at most 5 and
overview tool calls at most 5 — and each ring evicts its oldest element
first when full: a metrics sample, global or session log entry, or error
arriving at capacity drops the front (oldest) element, and a tool call
arriving at capacity is prepended (newest first) while the tail (oldest)
entry is truncated. -/
theorem c6_ring_buffers_bounded :
    (∀ ops : List Op, BoundedOk (applyOps initState ops)) ∧
    (∀ (m : MetricsData) (cpu : Int) (mem : Nat),
        m.cpu_history.length = METRICS_HISTORY_SIZE →
        (m.update_system_metrics cpu mem).cpu_history
          = m.cpu_history.drop 1 ++ [cpu]) ∧
    (∀ (m : MetricsData) (cpu : Int) (mem : Nat),
        m.memory_history.length = METRICS_HISTORY_SIZE →
        (m.update_system_metrics cpu mem).memory_history
          = m.memory_history.drop 1 ++ [mem]) ∧
    (∀ (now : Nat) (s : DashboardState) (lv : LogLevel) (msg src : String)
        (sid rid : Option String),
        s.logs.length = 1000 →
        (add_log_with_context now s lv msg src sid rid).logs
          = s.logs.drop 1 ++
              [{ timestamp := now, level := lv, message := msg,
                 source := src, session_id := sid, request_id := rid }]) ∧
    (∀ (now : Nat) (s : DashboardState) (lv : LogLevel) (msg src sid : String)
        (rid : Option String) (l : List LogEntry),
        lookupA s.session_logs sid = some l → l.length = 500 →
        lookupA (add_log_with_context now s lv msg src (some sid) rid).session_logs
            sid
          = some (l.drop 1 ++
              [{ timestamp := now, level := lv, message := msg,
                 source := src, session_id := some sid,
                 request_id := rid }])) ∧
    (∀ (now : Nat) (s : DashboardState) (e : String),
        s.recent_errors.length = 5 →
        (add_error now s e).recent_errors = s.recent_errors.drop 1 ++ [e]) ∧
    (∀ (o : OverviewData) (now : Nat) (name : String) (succ : Bool)
        (dur : Option Nat),
        o.last_tool_calls.length = MAX_TOOL_CALLS →
        (o.add_tool_call now name succ dur).last_tool_calls
          = { name := name, timestamp := now, success := succ, duration_ms := dur }
              :: o.last_tool_calls.dropLast) := by
  refine ⟨?_, ?_, ?_, ?_, ?_, ?_, ?_⟩
  · intro ops
    exact foldl_inv BoundedOk applyOp (fun a op ha => boundedOk_applyOp ha op)
      ops initState boundedOk_initState
  · intro m cpu mem hlen
    simp only [METRICS_HISTORY_SIZE] at hlen
    unfold MetricsData.update_system_metrics
    dsimp only
    rw [if_pos (by
      simp only [List.length_append, List.length_cons, List.length_nil, hlen,
        METRICS_HISTORY_SIZE]
      omega)]
    rw [List.drop_append_of_le_length (by omega)]
  · intro m cpu mem hlen
    simp only [METRICS_HISTORY_SIZE] at hlen
    unfold MetricsData.update_system_metrics
    dsimp only
    rw [if_pos (by
      simp only [List.length_append, List.length_cons, List.length_nil, hlen,
        METRICS_HISTORY_SIZE]
      omega)]
    rw [List.drop_append_of_le_length (by omega)]
  · intro now s lv msg src sid rid hlen
    unfold add_log_with_context
    cases sid <;>
      (dsimp only
       rw [if_pos (by
         simp only [List.length_append, List.length_cons, List.length_nil, hlen]
         omega)]
       rw [List.drop_append_of_le_length (by omega)])
  · intro now s lv msg src sid rid l hl hlen
    unfold add_log_with_context
    dsimp only
    rw [if_pos (lookupA_any s.session_logs sid l hl)]
    rw [slog_ring_evict_map _ sid s.session_logs l hl]
    rw [if_pos (by
      simp only [List.length_append, List.length_cons, List.length_nil, hlen]
      omega)]
    rw [List.drop_append_of_le_length (by omega)]
  · intro now s e hlen
    unfold add_error add_log
    dsimp only
    rw [add_log_with_context_recent_errors]
    dsimp only
    rw [if_pos (by omega)]
  · intro o now name succ dur hlen
    simp only [MAX_TOOL_CALLS] at hlen
    unfold OverviewData.add_tool_call
    dsimp only
    rw [if_pos (by
      simp only [List.length_cons, hlen, MAX_TOOL_CALLS]
      omega)]
    rw [show MAX_TOOL_CALLS = 4 + 1 from rfl, List.take_succ_cons]
    rw [List.dropLast_eq_take, hlen]

set_option maxRecDepth 8000 in
/-- Witness: all seven parts of C6 evaluated at concrete capacity-filled
inputs. -/
theorem c6_ring_buffers_bounded_witness :
    BoundedOk (applyOps initState [Op.sysMetrics 1 2]) ∧
    (metricsAtCap.update_system_metrics 3 4).cpu_history
      = metricsAtCap.cpu_history.drop 1 ++ [3] ∧
    (metricsAtCap.update_system_metrics 3 4).memory_history
      = metricsAtCap.memory_history.drop 1 ++ [4] ∧
    (add_log_with_context 7 storeLogsAtCap LogLevel.Info "m" "src" none none).logs
      = storeLogsAtCap.logs.drop 1 ++
          [{ timestamp := 7, level := LogLevel.Info, message := "m",
             source := "src", session_id := none, request_id := none }] ∧
    lookupA (add_log_with_context 7 storeSessionAtCap LogLevel.Info "m" "src"
        (some "s1") none).session_logs "s1"
      = some ((List.replicate 500 fillEntry).drop 1
          ++ [{ timestamp := 7, level := LogLevel.Info, message := "m",
                source := "src", session_id := some "s1",
                request_id := none }]) ∧
    (add_error 7 storeErrsAtCap "boom").recent_errors
      = storeErrsAtCap.recent_errors.drop 1 ++ ["boom"] ∧
    (overviewCallsAtCap.add_tool_call 9 "t2" true none).last_tool_calls
      = { name := "t2", timestamp := 9, success := true, duration_ms := none }
          :: overviewCallsAtCap.last_tool_calls.dropLast :=
  ⟨c6_ring_buffers_bounded.1 [Op.sysMetrics 1 2],
   c6_ring_buffers_bounded.2.1 metricsAtCap 3 4 rfl,
   c6_ring_buffers_bounded.2.2.1 metricsAtCap 3 4 rfl,
   c6_ring_buffers_bounded.2.2.2.1 7 storeLogsAtCap LogLevel.Info "m" "src"
     none none rfl,
   c6_ring_buffers_bounded.2.2.2.2.1 7 storeSessionAtCap LogLevel.Info "m" "src"
     "s1" none (List.replicate 500 fillEntry) rfl rfl,
   c6_ring_buffers_bounded.2.2.2.2.2.1 7 storeErrsAtCap "boom" rfl,
   c6_ring_buffers_bounded.2.2.2.2.2.2 overviewCallsAtCap 9 "t2" true none rfl⟩

end FrontMCP
